import Mathlib

/-!
FlowCoro core: a shallow embedding of `include/flowcoro/core.h`.

The development follows the layout of the header:

* `AsyncPromise`  : the one-shot rendezvous object (`AsyncPromise<T>`, lines 1428-1532);
* `Promise`, `Frame`, `World` : the promise types of the `Task` variants, coroutine
  frames and the process-wide state (`CoroutineManager` queues, clock, frames);
* `Task`, `TaskResult`, `TaskVoid`, `TaskUnique` : the four `Task` variants;
* `CoroutineManager` : `process_timer_queue`, `process_ready_queue`,
  `process_pending_tasks`, `drive`;
* moves of `Task` objects, `sleep_for`, `start_coroutine_manager`,
  `make_timeout_task`, `WhenAll` (the coroutine `when_all`) and `AsyncQueue`.

Conventions.  A `std::coroutine_handle<>` is the address of its frame, a natural
number, and address `0` is the null handle.  Mutex-guarded critical sections are
atomic steps.  A `std::chrono::steady_clock::time_point` is its count of nanoseconds,
a signed 64-bit integer (the representation of the common implementations); the
duration given to `sleep_for` is its count of milliseconds.
Work handed to `GlobalThreadPool::enqueue_void` is recorded in a list, in submission
order; each entry is the handle the submitted closure resumes.
-/

namespace flowcoro

/-- A coroutine handle: the address of the frame, `0` for the null handle. -/
abbrev Handle := Nat

/-! ## AsyncPromise<T> -/

namespace AsyncPromise

/-- The shared state `AsyncPromise<T>::State` (core.h 1523-1529).  `exception_` is a
`std::exception_ptr`: `none` is the null pointer. -/
structure State (T E : Type) where
  ready_ : Bool
  value_ : T
  exception_ : Option E
  suspended_handle_ : Handle

/-- The state made by the constructor: `ready_{false}`, `value_{}`, null `exception_`,
`suspended_handle_{nullptr}`. -/
def fresh {T E : Type} [Inhabited T] : State T E :=
  { ready_ := false, value_ := default, exception_ := none, suspended_handle_ := 0 }

/-- The critical section of `set_value` (core.h 1439-1446): store the value, set
`ready_`, exchange the continuation slot with `nullptr`.  Returns the new state and
the local `handle_to_resume`. -/
def set_value_locked {T E : Type} (value : T) (s : State T E) : State T E × Handle :=
  ({ s with value_ := value, ready_ := true, suspended_handle_ := 0 }, s.suspended_handle_)

/-- The critical section of `set_exception` (core.h 1462-1468). -/
def set_exception_locked {T E : Type} (ex : Option E) (s : State T E) : State T E × Handle :=
  ({ s with exception_ := ex, ready_ := true, suspended_handle_ := 0 }, s.suspended_handle_)

/-- The part of `set_value` / `set_exception` outside the lock (core.h 1449-1456):
`if (handle_to_resume) enqueue_void(...)`. -/
def submit_taken (handle_to_resume : Handle) (pool : List Handle) : List Handle :=
  if handle_to_resume ≠ 0 then pool ++ [handle_to_resume] else pool

/-- Embeds `AsyncPromise<T>::set_value` (core.h 1436-1457) on the promise state and the
worker pool. -/
def set_value {T E : Type} (value : T) (sp : State T E × List Handle) :
    State T E × List Handle :=
  let r := set_value_locked value sp.1
  (r.1, submit_taken r.2 sp.2)

/-- Embeds `AsyncPromise<T>::set_exception` (core.h 1459-1478). -/
def set_exception {T E : Type} (ex : Option E) (sp : State T E × List Handle) :
    State T E × List Handle :=
  let r := set_exception_locked ex sp.1
  (r.1, submit_taken r.2 sp.2)

/-- Embeds `AsyncPromise<T>::await_ready` (core.h 1480-1482). -/
def await_ready {T E : Type} (s : State T E) : Bool := s.ready_

/-- Embeds `AsyncPromise<T>::await_suspend` (core.h 1484-1512), wholly under the mutex:
ready: submit `h`; otherwise compare-exchange the slot from `nullptr` to `h`, and
submit `h` when the exchange fails. -/
def await_suspend {T E : Type} (h : Handle) (sp : State T E × List Handle) :
    State T E × List Handle :=
  if sp.1.ready_ then (sp.1, sp.2 ++ [h])
  else if sp.1.suspended_handle_ = 0 then ({ sp.1 with suspended_handle_ := h }, sp.2)
  else (sp.1, sp.2 ++ [h])

/-- Embeds `AsyncPromise<T>::await_resume` (core.h 1514-1520): rethrow a non-null
`exception_`, otherwise return `value_`. -/
def await_resume {T E : Type} (s : State T E) : Except E T :=
  match s.exception_ with
  | some e => Except.error e
  | none => Except.ok s.value_

/-- One producer and one consumer on one promise: the promise, the worker pool and
the producer's local `handle_to_resume`. -/
structure Sys (T E : Type) where
  state : State T E
  pool : List Handle
  handle_to_resume : Handle

/-- The atomic steps of the two threads: the producer's critical section, the
producer's submission outside the lock, the consumer's `await_suspend`. -/
inductive Ev where
  | producerLock
  | producerSubmit
  | consumer
  deriving DecidableEq, Repr

/-- One atomic step of the producer (`set_value(v)`) or the consumer
(`await_suspend(h)`). -/
def step {T E : Type} (h : Handle) (v : T) (e : Ev) (y : Sys T E) : Sys T E :=
  match e with
  | Ev.producerLock =>
      let r := set_value_locked v y.state
      { y with state := r.1, handle_to_resume := r.2 }
  | Ev.producerSubmit => { y with pool := submit_taken y.handle_to_resume y.pool }
  | Ev.consumer =>
      let r := await_suspend h (y.state, y.pool)
      { y with state := r.1, pool := r.2 }

/-- Run a schedule of atomic steps from left to right. -/
def run {T E : Type} (h : Handle) (v : T) (sched : List Ev) (y : Sys T E) : Sys T E :=
  sched.foldl (fun acc e => step h v e acc) y

/-- The start of the race: a fresh promise, an empty pool. -/
def start {T E : Type} [Inhabited T] : Sys T E :=
  { state := fresh, pool := [], handle_to_resume := 0 }

/-- The interleavings of `set_value` (lock, then submit) with `await_suspend`. -/
def interleavings : List (List Ev) :=
  [ [Ev.consumer, Ev.producerLock, Ev.producerSubmit],
    [Ev.producerLock, Ev.consumer, Ev.producerSubmit],
    [Ev.producerLock, Ev.producerSubmit, Ev.consumer] ]

end AsyncPromise

/-! ## Promise types, frames and the process state -/

/-- How a coroutine body ends: `co_return v`, or an exception that escapes the body
(the compiler then calls `unhandled_exception`). -/
inductive Outcome (V : Type) where
  | ret (v : V)
  | throw
  deriving DecidableEq, Repr

/-- The two promise callbacks the compiler invokes when a body of a coroutine with
promise type `P` ends; `V` is the type of the operand of `co_return`. -/
class PromiseType (P : Type) (V : outParam Type) where
  return_value : V → P → P
  unhandled_exception : P → P

/-- The data members of `Task<T>::promise_type` read or written by the code
(core.h 639-646); `creation_time_` is only logged. -/
structure Promise (T : Type) where
  value : Option T
  has_error : Bool
  is_cancelled_ : Bool
  is_destroyed_ : Bool
  deriving DecidableEq, Repr

namespace Promise

/-- The promise of a newly created frame: `value` empty, all flags false. -/
def fresh {T : Type} : Promise T :=
  { value := none, has_error := false, is_cancelled_ := false, is_destroyed_ := false }

/-- What reading the promise through a handle whose frame has been destroyed is taken
to yield: `~promise_type` (core.h 651-653) has stored `is_destroyed_ = true`. -/
def destroyed {T : Type} : Promise T :=
  { value := none, has_error := false, is_cancelled_ := false, is_destroyed_ := true }

/-- Embeds `promise_type::return_value` (core.h 661-666). -/
def return_value {T : Type} (v : T) (p : Promise T) : Promise T :=
  if !p.is_cancelled_ && !p.is_destroyed_ then { p with value := some v } else p

/-- Embeds `promise_type::unhandled_exception` (core.h 668-674). -/
def unhandled_exception {T : Type} (p : Promise T) : Promise T :=
  if !p.is_destroyed_ then { p with has_error := true } else p

/-- Embeds `promise_type::request_cancellation` (core.h 677-680). -/
def request_cancellation {T : Type} (p : Promise T) : Promise T :=
  { p with is_cancelled_ := true }

/-- Embeds `promise_type::is_cancelled` (core.h 682-684). -/
def is_cancelled {T : Type} (p : Promise T) : Bool := p.is_cancelled_

/-- Embeds `promise_type::is_destroyed` (core.h 686-688). -/
def is_destroyed {T : Type} (p : Promise T) : Bool := p.is_destroyed_

/-- Embeds `promise_type::safe_get_value` (core.h 696-702). -/
def safe_get_value {T : Type} (p : Promise T) : Option T :=
  if p.is_destroyed_ then none else p.value

/-- Embeds `promise_type::safe_has_error` (core.h 705-711). -/
def safe_has_error {T : Type} (p : Promise T) : Bool :=
  if p.is_destroyed_ then false else p.has_error

end Promise

instance instPromiseTypePromise {T : Type} : PromiseType (Promise T) T where
  return_value := Promise.return_value
  unhandled_exception := Promise.unhandled_exception

/-- The data members of `Task<void>::promise_type` (core.h 1185-1191). -/
structure PromiseVoid where
  has_error : Bool
  is_cancelled_ : Bool
  is_destroyed_ : Bool
  deriving DecidableEq, Repr

namespace PromiseVoid

/-- The promise of a newly created frame. -/
def fresh : PromiseVoid :=
  { has_error := false, is_cancelled_ := false, is_destroyed_ := false }

/-- What reading the promise of a destroyed frame is taken to yield: `~promise_type`
(core.h 1196-1198) has stored `is_destroyed_ = true`. -/
def destroyed : PromiseVoid :=
  { has_error := false, is_cancelled_ := false, is_destroyed_ := true }

/-- Embeds `promise_type::return_void` (core.h 1206-1212): both branches leave the promise as
it is. -/
def return_void (p : PromiseVoid) : PromiseVoid :=
  if p.is_cancelled_ || p.is_destroyed_ then p else p

/-- Embeds `promise_type::unhandled_exception` (core.h 1214-1220). -/
def unhandled_exception (p : PromiseVoid) : PromiseVoid :=
  if !p.is_destroyed_ then { p with has_error := true } else p

/-- Embeds `promise_type::request_cancellation` (core.h 1223-1226). -/
def request_cancellation (p : PromiseVoid) : PromiseVoid :=
  { p with is_cancelled_ := true }

/-- Embeds `promise_type::safe_has_error` (core.h 1242-1248). -/
def safe_has_error (p : PromiseVoid) : Bool :=
  if p.is_destroyed_ then false else p.has_error

end PromiseVoid

instance instPromiseTypePromiseVoid : PromiseType PromiseVoid Unit where
  return_value := fun _ p => p.return_void
  unhandled_exception := PromiseVoid.unhandled_exception

/-- The error values `Task<Result<T,E>>` stores or returns (core.h 1012-1019,
1123-1151): for `E = ErrorInfo` they are the `ErrorInfo` of the four `FlowCoroError`
kinds named, for every other `E` each of them is `E{}`. -/
class ResultErrors (E : Type) where
  invalid_operation : E
  task_cancelled : E
  coroutine_destroyed : E
  unknown_error : E

/-- The data members of `Task<Result<T,E>>::promise_type` (core.h 978-985).  A
`Result<T,E>` is an `Except E T`; `exception` tells whether the (never assigned)
`std::exception_ptr` is non-null. -/
structure PromiseResult (T E : Type) where
  result : Option (Except E T)
  exception : Bool
  is_cancelled_ : Bool
  is_destroyed_ : Bool

namespace PromiseResult

variable {T E : Type}

/-- The promise of a newly created frame. -/
def fresh : PromiseResult T E :=
  { result := none, exception := false, is_cancelled_ := false, is_destroyed_ := false }

/-- What reading the promise of a destroyed frame is taken to yield: `~promise_type`
(core.h 989-991) has stored `is_destroyed_ = true`. -/
def destroyed : PromiseResult T E :=
  { result := none, exception := false, is_cancelled_ := false, is_destroyed_ := true }

/-- Embeds `promise_type::return_value` (core.h 999-1005). -/
def return_value (r : Except E T) (p : PromiseResult T E) : PromiseResult T E :=
  if !p.is_cancelled_ && !p.is_destroyed_ then { p with result := some r } else p

/-- Embeds `promise_type::unhandled_exception` (core.h 1008-1021). -/
def unhandled_exception [ResultErrors E] (p : PromiseResult T E) : PromiseResult T E :=
  if !p.is_destroyed_ then
    { p with result := some (Except.error ResultErrors.unknown_error) }
  else p

/-- Embeds `promise_type::request_cancellation` (core.h 1024-1027). -/
def request_cancellation (p : PromiseResult T E) : PromiseResult T E :=
  { p with is_cancelled_ := true }

/-- Embeds `promise_type::safe_get_result` (core.h 1042-1048). -/
def safe_get_result (p : PromiseResult T E) : Option (Except E T) :=
  if p.is_destroyed_ then none else p.result

end PromiseResult

instance instPromiseTypePromiseResult {T E : Type} [ResultErrors E] :
    PromiseType (PromiseResult T E) (Except E T) where
  return_value := PromiseResult.return_value
  unhandled_exception := PromiseResult.unhandled_exception

/-- The data members of `Task<std::unique_ptr<T>>::promise_type` (core.h 1730-1731):
the owned pointer (`none` when null) and whether `exception` is non-null. -/
structure PromiseUnique (T : Type) where
  value : Option T
  exception : Bool

namespace PromiseUnique

variable {T : Type}

/-- The promise of a newly created frame: null `value`, null `exception`. -/
def fresh : PromiseUnique T := { value := none, exception := false }

/-- Embeds `promise_type::return_value` (core.h 1737). -/
def return_value (v : Option T) (p : PromiseUnique T) : PromiseUnique T :=
  { p with value := v }

/-- Embeds `promise_type::unhandled_exception` (core.h 1738): `exception` becomes the current
exception, a non-null pointer. -/
def unhandled_exception (p : PromiseUnique T) : PromiseUnique T :=
  { p with exception := true }

end PromiseUnique

instance instPromiseTypePromiseUnique {T : Type} :
    PromiseType (PromiseUnique T) (Option T) where
  return_value := PromiseUnique.return_value
  unhandled_exception := PromiseUnique.unhandled_exception

/-- A coroutine frame: the promise, whether the coroutine is suspended at its final
suspend point (`handle.done()`), and the rest of the body.  Bodies are sequences of
`co_await sleep_for(d)` (durations in `awaits`) ended by `outcome`. -/
structure Frame (P V : Type) where
  promise : P
  done : Bool
  awaits : List Int
  outcome : Outcome V

/-- The end of a body: `return_value` or `unhandled_exception` on the promise, then
`final_suspend` (`std::suspend_always`), so that `done()` holds. -/
def Frame.finish {P V : Type} [PromiseType P V] (f : Frame P V) : Frame P V :=
  { f with
    promise :=
      match f.outcome with
      | Outcome.ret v => PromiseType.return_value v f.promise
      | Outcome.throw => PromiseType.unhandled_exception f.promise
    done := true
    awaits := [] }

/-- An entry of `CoroutineManager::timer_queue_`: `(when, handle)`. -/
abbrev TimerEntry := Int × Handle

/-- The process state: the steady clock (`now`, its count of nanoseconds), the live
coroutine frames by address, the
three queues of the `CoroutineManager` singleton (core.h 205-219) and the work handed
to the worker pool, by `schedule_coroutine_enhanced` (declared at core.h 37, defined
outside this header) or by `GlobalThreadPool::enqueue_void`: `pool` lists, in order, the
handles that work resumes.  `timer_queue_` lists the content of the
`std::priority_queue`; see `pq_top`. -/
structure World (P V : Type) where
  now : Int
  frames : Handle → Option (Frame P V)
  timer_queue_ : List TimerEntry
  ready_queue_ : List Handle
  destroy_queue_ : List Handle
  pool : List Handle

namespace World

variable {P V : Type}

/-- A world with no frame and empty queues at clock value `now`. -/
def empty (now : Int) : World P V :=
  { now := now, frames := fun _ => none, timer_queue_ := [], ready_queue_ := [],
    destroy_queue_ := [], pool := [] }

/-- Value of `handle.done()`.  For a handle without a live frame (undefined behaviour in
C++) the model answers `false`. -/
def done (w : World P V) (h : Handle) : Bool :=
  match w.frames h with
  | some f => f.done
  | none => false

/-- Store frame `f` at address `h`. -/
def set_frame (w : World P V) (h : Handle) (f : Option (Frame P V)) : World P V :=
  { w with frames := fun x => if x = h then f else w.frames x }

/-- Apply `g` to the frame at address `h`, if there is one. -/
def update_frame (w : World P V) (h : Handle) (g : Frame P V → Frame P V) : World P V :=
  match w.frames h with
  | some f => w.set_frame h (some (g f))
  | none => w

end World

namespace CoroutineManager

variable {P V : Type}

/-- Embeds `CoroutineManager::add_timer` (core.h 81-84). -/
def add_timer (when : Int) (handle : Handle) (w : World P V) : World P V :=
  { w with timer_queue_ := w.timer_queue_ ++ [(when, handle)] }

/-- Embeds `CoroutineManager::schedule_resume` (core.h 87-108): null and done handles are
dropped, any other handle goes to `schedule_coroutine_enhanced`. -/
def schedule_resume (handle : Handle) (w : World P V) : World P V :=
  if handle = 0 then w
  else if w.done handle then w
  else { w with pool := w.pool ++ [handle] }

/-- Embeds `CoroutineManager::schedule_destroy` (core.h 111-116). -/
def schedule_destroy (handle : Handle) (w : World P V) : World P V :=
  if handle = 0 then w else { w with destroy_queue_ := w.destroy_queue_ ++ [handle] }

end CoroutineManager

/-- The value a signed 64-bit integer holds for the mathematical result `x`: `x` itself
when it is representable, and otherwise the representable value congruent to `x`
modulo `2^64` (signed overflow is undefined behaviour in C++; the compiled code
wraps). -/
def wrap_int64 (x : Int) : Int :=
  (x + 9223372036854775808) % 18446744073709551616 - 9223372036854775808

namespace CoroutineFriendlySleepAwaiter

variable {P V : Type}

/-- Embeds `CoroutineFriendlySleepAwaiter::await_ready` (core.h 1938-1940). -/
def await_ready (duration_ : Int) : Bool := decide (duration_ ≤ 0)

/-- Embeds `std::chrono::steady_clock::now() + duration_` (core.h 1950) for the clock value
`now`: the milliseconds of `duration_` are converted to nanoseconds, the common type,
by a multiplication by 1000000, and added to the nanoseconds of `now`, both in signed
64-bit arithmetic. -/
def when (now duration_ : Int) : Int :=
  wrap_int64 (now + wrap_int64 (duration_ * 1000000))

/-- Embeds `CoroutineFriendlySleepAwaiter::await_suspend` (core.h 1942-1955): the returned
flag tells whether the coroutine stays suspended. -/
def await_suspend (duration_ : Int) (h : Handle) (w : World P V) : Bool × World P V :=
  if duration_ ≤ 0 then (false, w)
  else (true, CoroutineManager.add_timer (when w.now duration_) h w)

end CoroutineFriendlySleepAwaiter

namespace World

variable {P V : Type}

/-- Execute the body of the coroutine at `h` from a point where `awaits` are the
`co_await sleep_for(d)` still ahead, until it suspends or ends.  Each `co_await` is
expanded as the compiler does: `await_ready`, else `await_suspend`, which suspends when
it returns `true`. -/
def run_body [PromiseType P V] (h : Handle) : List Int → World P V → World P V
  | [], w => w.update_frame h Frame.finish
  | d :: rest, w =>
      if CoroutineFriendlySleepAwaiter.await_ready d then run_body h rest w
      else
        let r := CoroutineFriendlySleepAwaiter.await_suspend d h w
        if r.1 then r.2.update_frame h (fun f => { f with awaits := rest })
        else run_body h rest r.2

/-- Effect of `handle.resume()`: continue the body of the frame at `h`.  Resuming a
finished or destroyed coroutine (undefined behaviour in C++) does nothing here. -/
def resume [PromiseType P V] (h : Handle) (w : World P V) : World P V :=
  match w.frames h with
  | some f => if f.done then w else run_body h f.awaits w
  | none => w

/-- Calling a coroutine function: the frame is allocated at address `h` and, since
`initial_suspend` is `std::suspend_never`, the body runs at once up to its first
suspension. -/
def spawn [PromiseType P V] (h : Handle) (promise : P) (awaits : List Int)
    (outcome : Outcome V) (w : World P V) : World P V :=
  run_body h awaits
    (w.set_frame h (some { promise := promise, done := false, awaits := awaits,
                           outcome := outcome }))

end World

/-- A `Task` object of any variant: its only data member is `handle`. -/
structure Task where
  handle : Handle
  deriving DecidableEq, Repr

/-! ### Task<T>, the generic variant (core.h 636-972) -/

namespace Task

variable {T : Type}

/-- The promise read through `handle.promise()`; see `Promise.destroyed` for a handle
whose frame is gone. -/
def promise (t : Task) (w : World (Promise T) T) : Promise T :=
  match w.frames t.handle with
  | some f => f.promise
  | none => Promise.destroyed

/-- Embeds `Task(Task&& other)` as seen from `other` (core.h 717): its handle becomes null. -/
def moved_from (_t : Task) : Task := { handle := 0 }

/-- Embeds `Task<T>::cancel` (core.h 742-748). -/
def cancel (t : Task) (w : World (Promise T) T) : World (Promise T) T :=
  if t.handle ≠ 0 ∧ !w.done t.handle ∧ !(t.promise w).is_destroyed then
    w.update_frame t.handle (fun f => { f with promise := f.promise.request_cancellation })
  else w

/-- Embeds `Task<T>::is_cancelled` (core.h 750-753). -/
def is_cancelled (t : Task) (w : World (Promise T) T) : Bool :=
  if t.handle = 0 ∨ (t.promise w).is_destroyed then false
  else (t.promise w).is_cancelled

/-- Embeds `Task<T>::is_active` (core.h 761-763). -/
def is_active (t : Task) (w : World (Promise T) T) : Bool :=
  decide (t.handle ≠ 0) && !w.done t.handle && !t.is_cancelled w

/-- Embeds `Task<T>::is_pending` (core.h 771-774). -/
def is_pending (t : Task) (w : World (Promise T) T) : Bool :=
  if t.handle = 0 then false
  else !w.done t.handle && !t.is_cancelled w

/-- Embeds `Task<T>::is_settled` (core.h 778-781). -/
def is_settled (t : Task) (w : World (Promise T) T) : Bool :=
  if t.handle = 0 then true
  else w.done t.handle || t.is_cancelled w

/-- Embeds `Task<T>::get` for default-constructible `T` (core.h 818-875): the returned value
and the state afterwards. -/
def get [Inhabited T] (t : Task) (w : World (Promise T) T) : T × World (Promise T) T :=
  if t.handle = 0 then (default, w)
  else if (t.promise w).is_destroyed then (default, w)
  else
    let w1 := if !w.done t.handle && !(t.promise w).is_cancelled then w.resume t.handle
              else w
    if (t.promise w1).safe_has_error then (default, w1)
    else
      match (t.promise w1).safe_get_value with
      | some v => (v, w1)
      | none => (default, w1)

/-- Embeds `sync_wait(Task<T>&&)` (core.h 2001-2006). -/
def sync_wait [Inhabited T] (t : Task) (w : World (Promise T) T) :
    T × World (Promise T) T :=
  t.get w

/-- Embeds `Task<T>::await_ready` (core.h 892-901). -/
def await_ready (t : Task) (w : World (Promise T) T) : Bool :=
  if t.handle = 0 then true
  else if w.done t.handle then true
  else (t.promise w).is_destroyed

/-- Embeds `Task<T>::await_suspend` (core.h 903-921): the flag returned and the state
afterwards.  The argument `waiting_handle` is not used by the code. -/
def await_suspend (t : Task) (_waiting_handle : Handle) (w : World (Promise T) T) :
    Bool × World (Promise T) T :=
  if t.handle = 0 ∨ (t.promise w).is_destroyed then (false, w)
  else if w.done t.handle then (false, w)
  else (true, CoroutineManager.schedule_resume t.handle w)

/-- Embeds `Task<T>::await_resume` for default-constructible `T` (core.h 923-971). -/
def await_resume [Inhabited T] (t : Task) (w : World (Promise T) T) : T :=
  if t.handle = 0 then default
  else if (t.promise w).is_destroyed then default
  else if (t.promise w).safe_has_error then default
  else
    match (t.promise w).safe_get_value with
    | some v => v
    | none => default

end Task

/-! ### Task<void> (core.h 1182-1426) -/

namespace TaskVoid

/-- The promise read through `handle.promise()`; see `PromiseVoid.destroyed` for a
handle whose frame is gone. -/
def promise (t : Task) (w : World PromiseVoid Unit) : PromiseVoid :=
  match w.frames t.handle with
  | some f => f.promise
  | none => PromiseVoid.destroyed

/-- Embeds `Task<void>::cancel` (core.h 1292-1298). -/
def cancel (t : Task) (w : World PromiseVoid Unit) : World PromiseVoid Unit :=
  if t.handle ≠ 0 ∧ !w.done t.handle ∧ !(promise t w).is_destroyed_ then
    w.update_frame t.handle (fun f => { f with promise := f.promise.request_cancellation })
  else w

/-- Embeds `Task<void>::is_cancelled` (core.h 1300-1303). -/
def is_cancelled (t : Task) (w : World PromiseVoid Unit) : Bool :=
  if t.handle = 0 ∨ (promise t w).is_destroyed_ then false
  else (promise t w).is_cancelled_

/-- Embeds `Task<void>::is_pending` (core.h 1321-1324). -/
def is_pending (t : Task) (w : World PromiseVoid Unit) : Bool :=
  if t.handle = 0 then false
  else !w.done t.handle && !is_cancelled t w

/-- Embeds `Task<void>::is_settled` (core.h 1328-1331). -/
def is_settled (t : Task) (w : World PromiseVoid Unit) : Bool :=
  if t.handle = 0 then true
  else w.done t.handle || is_cancelled t w

/-- Embeds `Task<void>::get` (core.h 1347-1370): the state afterwards. -/
def get (t : Task) (w : World PromiseVoid Unit) : World PromiseVoid Unit :=
  if t.handle = 0 then w
  else if (promise t w).is_destroyed_ then w
  else if !w.done t.handle && !(promise t w).is_cancelled_ then w.resume t.handle
  else w

/-- Embeds `Task<void>::await_ready` (core.h 1383-1387). -/
def await_ready (t : Task) (w : World PromiseVoid Unit) : Bool :=
  if t.handle = 0 then true
  else if (promise t w).is_destroyed_ then true
  else w.done t.handle

/-- Embeds `Task<void>::await_suspend` (core.h 1389-1407); `waiting_handle` is not used by the
code. -/
def await_suspend (t : Task) (_waiting_handle : Handle) (w : World PromiseVoid Unit) :
    Bool × World PromiseVoid Unit :=
  if t.handle = 0 ∨ (promise t w).is_destroyed_ then (false, w)
  else if w.done t.handle then (false, w)
  else (true, CoroutineManager.schedule_resume t.handle w)

end TaskVoid

/-! ### Task<Result<T,E>> (core.h 975-1179) -/

namespace TaskResult

variable {T E : Type}

/-- The promise read through `handle.promise()`; see `PromiseResult.destroyed` for a
handle whose frame is gone. -/
def promise (t : Task) (w : World (PromiseResult T E) (Except E T)) : PromiseResult T E :=
  match w.frames t.handle with
  | some f => f.promise
  | none => PromiseResult.destroyed

/-- Embeds `Task<Result<T,E>>::cancel` (core.h 1074-1078). -/
def cancel (t : Task) (w : World (PromiseResult T E) (Except E T)) :
    World (PromiseResult T E) (Except E T) :=
  if t.handle ≠ 0 ∧ !w.done t.handle ∧ !(promise t w).is_destroyed_ then
    w.update_frame t.handle (fun f => { f with promise := f.promise.request_cancellation })
  else w

/-- Embeds `Task<Result<T,E>>::is_cancelled` (core.h 1080-1083). -/
def is_cancelled (t : Task) (w : World (PromiseResult T E) (Except E T)) : Bool :=
  if t.handle = 0 ∨ (promise t w).is_destroyed_ then false
  else (promise t w).is_cancelled_

/-- Embeds `Task<Result<T,E>>::is_pending` (core.h 1086-1089). -/
def is_pending (t : Task) (w : World (PromiseResult T E) (Except E T)) : Bool :=
  if t.handle = 0 then false
  else !w.done t.handle && !is_cancelled t w

/-- Embeds `Task<Result<T,E>>::is_settled` (core.h 1091-1094). -/
def is_settled (t : Task) (w : World (PromiseResult T E) (Except E T)) : Bool :=
  if t.handle = 0 then true
  else w.done t.handle || is_cancelled t w

/-- Embeds `Task<Result<T,E>>::get` (core.h 1121-1155).  The function writes nothing; while the
coroutine is not done it spins in `while (!handle.done())`, which in a state where
nothing else runs never ends: then the answer is `none`. -/
def get [ResultErrors E] (t : Task) (w : World (PromiseResult T E) (Except E T)) :
    Option (Except E T) :=
  if t.handle = 0 then some (Except.error ResultErrors.invalid_operation)
  else if is_cancelled t w then some (Except.error ResultErrors.task_cancelled)
  else if !w.done t.handle then none
  else
    match (promise t w).safe_get_result with
    | none => some (Except.error ResultErrors.coroutine_destroyed)
    | some r => some r

/-- Embeds `Task<Result<T,E>>::await_ready` (core.h 1158-1160). -/
def await_ready (t : Task) (w : World (PromiseResult T E) (Except E T)) : Bool :=
  decide (t.handle = 0) || w.done t.handle

/-- Embeds `Task<Result<T,E>>::await_suspend` (core.h 1162-1174): the closure given to the
pool resumes the task's coroutine and then the waiter. -/
def await_suspend (t : Task) (waiting_handle : Handle)
    (w : World (PromiseResult T E) (Except E T)) : World (PromiseResult T E) (Except E T) :=
  if t.handle ≠ 0 ∧ !w.done t.handle then
    { w with pool := w.pool ++ [t.handle, waiting_handle] }
  else w

end TaskResult

/-! ### Task<std::unique_ptr<T>> (core.h 1727-1827) -/

namespace TaskUnique

variable {T : Type}

/-- The promise read through `handle.promise()`.  Through a handle without a live frame
(undefined behaviour in C++) the model reads a promise with both members null. -/
def promise (t : Task) (w : World (PromiseUnique T) (Option T)) : PromiseUnique T :=
  match w.frames t.handle with
  | some f => f.promise
  | none => PromiseUnique.fresh

/-- Embeds `Task<unique_ptr<T>>::is_pending` (core.h 1768-1770). -/
def is_pending (t : Task) (w : World (PromiseUnique T) (Option T)) : Bool :=
  decide (t.handle ≠ 0) && !w.done t.handle

/-- Embeds `Task<unique_ptr<T>>::is_settled` (core.h 1774-1777). -/
def is_settled (t : Task) (w : World (PromiseUnique T) (Option T)) : Bool :=
  if t.handle = 0 then true
  else w.done t.handle

/-- Embeds `Task<unique_ptr<T>>::get` (core.h 1793-1797): one resumption if the coroutine is
not done, then the stored exception is rethrown (`Except.error`) or the pointer is moved
out of the promise, which leaves `value` null. -/
def get (t : Task) (w : World (PromiseUnique T) (Option T)) :
    Except Unit (Option T) × World (PromiseUnique T) (Option T) :=
  let w1 := if t.handle ≠ 0 ∧ !w.done t.handle then w.resume t.handle else w
  if (promise t w1).exception then (Except.error (), w1)
  else
    (Except.ok (promise t w1).value,
      w1.update_frame t.handle (fun f => { f with promise := { f.promise with value := none } }))

/-- Embeds `Task<unique_ptr<T>>::await_ready` (core.h 1800-1802). -/
def await_ready (t : Task) (w : World (PromiseUnique T) (Option T)) : Bool :=
  decide (t.handle ≠ 0) && w.done t.handle

/-- Embeds `Task<unique_ptr<T>>::await_suspend` (core.h 1804-1821): the closure given to the
pool resumes the task's coroutine, if there is one that is not done, and then the
waiter. -/
def await_suspend (t : Task) (waiting_handle : Handle)
    (w : World (PromiseUnique T) (Option T)) : World (PromiseUnique T) (Option T) :=
  if t.handle ≠ 0 ∧ !w.done t.handle then
    { w with pool := w.pool ++ [t.handle, waiting_handle] }
  else { w with pool := w.pool ++ [waiting_handle] }

/-- Embeds `Task<unique_ptr<T>>::await_resume` (core.h 1823-1826): the value returned and the
state afterwards. -/
def await_resume (t : Task) (w : World (PromiseUnique T) (Option T)) :
    Except Unit (Option T) × World (PromiseUnique T) (Option T) :=
  if (promise t w).exception then (Except.error (), w)
  else
    (Except.ok (promise t w).value,
      w.update_frame t.handle (fun f => { f with promise := { f.promise with value := none } }))

end TaskUnique

/-! ### Steps a Task can undergo -/

/-- The operations of the owner and of the runtime that act on a `Task` and on the
frames: the public member functions, a resumption of any coroutine (by the manager, the
pool or `get`), which runs its body to the next suspension or to completion, the
passing of time, and being the source of a move. -/
inductive TaskOp where
  | cancel
  | get
  | await_ready
  | await_suspend (waiting_handle : Handle)
  | await_resume
  | resume (h : Handle)
  | advance (dt : Nat)
  | moved_from
  deriving DecidableEq, Repr

namespace World

variable {P V : Type}

/-- The clock moves on by `dt` nanoseconds. -/
def advance (dt : Nat) (w : World P V) : World P V := { w with now := w.now + dt }

/-- Frame `g` is a later state of frame `f` in which nothing that `is_settled` reads
went back: `done` and the cancel flag `c` only rise, the destruction flag `d` is the
same. -/
def FrameLater (c d : P → Bool) (f g : Frame P V) : Prop :=
  (f.done = true → g.done = true) ∧
    (c f.promise = true → c g.promise = true) ∧
    d g.promise = d f.promise

/-- World `v` has the same live frames as `w`, each in a later state. -/
def WorldLater (c d : P → Bool) (w v : World P V) : Prop :=
  ∀ x : Handle,
    (w.frames x = none ∧ v.frames x = none) ∨
      ∃ f g, w.frames x = some f ∧ v.frames x = some g ∧ FrameLater c d f g

/-- The promise callbacks at the end of a body leave the flags `c` and `d` alone. -/
def FlagsKept (c d : P → Bool) [PromiseType P V] : Prop :=
  (∀ (v : V) (p : P),
      c (PromiseType.return_value v p) = c p ∧ d (PromiseType.return_value v p) = d p) ∧
    ∀ p : P,
      c (PromiseType.unhandled_exception p) = c p ∧
        d (PromiseType.unhandled_exception p) = d p

end World

namespace Task

variable {T : Type}

/-- Effect of one operation on a `Task<T>` and the process state. -/
def step [Inhabited T] (op : TaskOp) (s : Task × World (Promise T) T) :
    Task × World (Promise T) T :=
  match op with
  | TaskOp.cancel => (s.1, s.1.cancel s.2)
  | TaskOp.get => (s.1, (s.1.get s.2).2)
  | TaskOp.await_ready => s
  | TaskOp.await_suspend waiting_handle => (s.1, (s.1.await_suspend waiting_handle s.2).2)
  | TaskOp.await_resume => s
  | TaskOp.resume h => (s.1, s.2.resume h)
  | TaskOp.advance dt => (s.1, s.2.advance dt)
  | TaskOp.moved_from => (s.1.moved_from, s.2)

/-- Effect of a sequence of operations, left to right. -/
def steps [Inhabited T] (ops : List TaskOp) (s : Task × World (Promise T) T) :
    Task × World (Promise T) T :=
  ops.foldl (fun acc op => step op acc) s

end Task

namespace TaskVoid

/-- Effect of one operation on a `Task<void>` and the process state. -/
def step (op : TaskOp) (s : Task × World PromiseVoid Unit) : Task × World PromiseVoid Unit :=
  match op with
  | TaskOp.cancel => (s.1, cancel s.1 s.2)
  | TaskOp.get => (s.1, get s.1 s.2)
  | TaskOp.await_ready => s
  | TaskOp.await_suspend waiting_handle => (s.1, (await_suspend s.1 waiting_handle s.2).2)
  | TaskOp.await_resume => s
  | TaskOp.resume h => (s.1, s.2.resume h)
  | TaskOp.advance dt => (s.1, s.2.advance dt)
  | TaskOp.moved_from => (s.1.moved_from, s.2)

/-- Effect of a sequence of operations, left to right. -/
def steps (ops : List TaskOp) (s : Task × World PromiseVoid Unit) :
    Task × World PromiseVoid Unit :=
  ops.foldl (fun acc op => step op acc) s

end TaskVoid

namespace TaskResult

variable {T E : Type}

/-- Effect of one operation on a `Task<Result<T,E>>` and the process state; `get` and
`await_resume` (which is `get`) write nothing. -/
def step [ResultErrors E] (op : TaskOp)
    (s : Task × World (PromiseResult T E) (Except E T)) :
    Task × World (PromiseResult T E) (Except E T) :=
  match op with
  | TaskOp.cancel => (s.1, cancel s.1 s.2)
  | TaskOp.get => s
  | TaskOp.await_ready => s
  | TaskOp.await_suspend waiting_handle => (s.1, await_suspend s.1 waiting_handle s.2)
  | TaskOp.await_resume => s
  | TaskOp.resume h => (s.1, s.2.resume h)
  | TaskOp.advance dt => (s.1, s.2.advance dt)
  | TaskOp.moved_from => (s.1.moved_from, s.2)

/-- Effect of a sequence of operations, left to right. -/
def steps [ResultErrors E] (ops : List TaskOp)
    (s : Task × World (PromiseResult T E) (Except E T)) :
    Task × World (PromiseResult T E) (Except E T) :=
  ops.foldl (fun acc op => step op acc) s

end TaskResult

namespace TaskUnique

variable {T : Type}

/-- Effect of one operation on a `Task<unique_ptr<T>>` and the process state.  This
variant has no `cancel` member, so that operation does nothing. -/
def step (op : TaskOp) (s : Task × World (PromiseUnique T) (Option T)) :
    Task × World (PromiseUnique T) (Option T) :=
  match op with
  | TaskOp.cancel => s
  | TaskOp.get => (s.1, (get s.1 s.2).2)
  | TaskOp.await_ready => s
  | TaskOp.await_suspend waiting_handle => (s.1, await_suspend s.1 waiting_handle s.2)
  | TaskOp.await_resume => (s.1, (await_resume s.1 s.2).2)
  | TaskOp.resume h => (s.1, s.2.resume h)
  | TaskOp.advance dt => (s.1, s.2.advance dt)
  | TaskOp.moved_from => (s.1.moved_from, s.2)

/-- Effect of a sequence of operations, left to right. -/
def steps (ops : List TaskOp) (s : Task × World (PromiseUnique T) (Option T)) :
    Task × World (PromiseUnique T) (Option T) :=
  ops.foldl (fun acc op => step op acc) s

end TaskUnique

/-! ## CoroutineManager (core.h 59-220) -/

namespace CoroutineManager

variable {P V : Type}

/-- The order of `std::greater<>` read backwards on `std::pair<time_point, handle>`:
lexicographic, handles compared by address. -/
def entry_le (a b : TimerEntry) : Bool :=
  decide (a.1 < b.1) || (decide (a.1 = b.1) && decide (a.2 ≤ b.2))

/-- Element returned by `timer_queue_.top()`: a least entry of the queue, `none` when
the queue is empty. -/
def pq_top : List TimerEntry → Option TimerEntry
  | [] => none
  | a :: q =>
      match pq_top q with
      | none => some a
      | some b => if entry_le a b then some a else some b

/-- Remove the first occurrence of `a` from `q`. -/
def remove_first (a : TimerEntry) : List TimerEntry → List TimerEntry
  | [] => []
  | b :: q => if b = a then q else b :: remove_first a q

/-- Content after `timer_queue_.pop()`: one occurrence of the top entry is removed. -/
def pq_pop (q : List TimerEntry) : List TimerEntry :=
  match pq_top q with
  | some a => remove_first a q
  | none => q

/-- What a call of `drive` does: the log lists the events of a run in the order they
happen. -/
inductive Event where
  | pool_driven
  | timer_popped (when : Int) (handle : Handle)
  | resumed (handle : Handle)
  | destroyed (handle : Handle)
  deriving DecidableEq, Repr

/-- The phase of `drive` an event belongs to. -/
def Event.phase : Event → Nat
  | Event.pool_driven => 0
  | Event.timer_popped _ _ => 1
  | Event.resumed _ => 2
  | Event.destroyed _ => 3

/-- The `while` loop of `process_timer_queue` (core.h 129-139) on the timer queue and
the ready queue, run for at most `fuel` iterations.  Each pop is appended to the log at
the moment it happens. -/
def timer_loop (is_done : Handle → Bool) (now : Int) :
    Nat → List TimerEntry → List Handle → List Event →
      List TimerEntry × List Handle × List Event
  | 0, q, ready, log => (q, ready, log)
  | fuel + 1, q, ready, log =>
      match pq_top q with
      | none => (q, ready, log)
      | some e =>
          if e.1 > now then (q, ready, log)
          else
            timer_loop is_done now fuel (pq_pop q)
              (if e.2 ≠ 0 ∧ !is_done e.2 then ready ++ [e.2] else ready)
              (log ++ [Event.timer_popped e.1 e.2])

/-- Embeds `CoroutineManager::process_timer_queue` (core.h 125-140), with the log.  Every
iteration pops one entry, so the length of the queue is enough fuel. -/
def process_timer_queue (s : World P V × List Event) : World P V × List Event :=
  let w := s.1
  let r := timer_loop w.done w.now w.timer_queue_.length w.timer_queue_ w.ready_queue_ s.2
  ({ w with timer_queue_ := r.1, ready_queue_ := r.2.1 }, r.2.2)

/-- The `while` loop of `process_ready_queue` (core.h 149-174) over the swapped-out
queue; `resume` is the effect of `handle.resume()`.  Each resumption is appended to the
log at the moment it happens. -/
def ready_loop (resume : Handle → World P V → World P V) :
    List Handle → World P V × List Event → World P V × List Event
  | [], s => s
  | handle :: local_queue, s =>
      if handle = 0 then ready_loop resume local_queue s
      else if s.1.done handle then ready_loop resume local_queue s
      else ready_loop resume local_queue (resume handle s.1, s.2 ++ [Event.resumed handle])

/-- Embeds `CoroutineManager::process_ready_queue` (core.h 142-175), with the log. -/
def process_ready_queue (resume : Handle → World P V → World P V)
    (s : World P V × List Event) : World P V × List Event :=
  ready_loop resume s.1.ready_queue_ ({ s.1 with ready_queue_ := [] }, s.2)

/-- The `while` loop of `process_pending_tasks` (core.h 185-202): `handle.destroy()`
frees the frame.  Each destruction is appended to the log at the moment it happens. -/
def destroy_loop : List Handle → World P V × List Event → World P V × List Event
  | [], s => s
  | handle :: local_destroy_queue, s =>
      if handle = 0 then destroy_loop local_destroy_queue s
      else
        destroy_loop local_destroy_queue
          (s.1.set_frame handle none, s.2 ++ [Event.destroyed handle])

/-- Embeds `CoroutineManager::process_pending_tasks` (core.h 177-203), with the log. -/
def process_pending_tasks (s : World P V × List Event) : World P V × List Event :=
  destroy_loop s.1.destroy_queue_ ({ s.1 with destroy_queue_ := [] }, s.2)

/-- Embeds `CoroutineManager::drive` (core.h 70-78), with the log.  `drive_coroutine_pool` is
declared at core.h 43 and defined outside this header, so its effect on the state is a
parameter, as is the effect `resume` of resuming a coroutine. -/
def drive (drive_coroutine_pool : World P V → World P V)
    (resume : Handle → World P V → World P V) (s : World P V × List Event) :
    World P V × List Event :=
  let s0 := (drive_coroutine_pool s.1, s.2 ++ [Event.pool_driven])
  let s1 := process_timer_queue s0
  let s2 := process_ready_queue resume s1
  process_pending_tasks s2

end CoroutineManager

/-! ## Destruction of Task objects -/

namespace World

variable {P V : Type}

/-- Effect of `handle.destroy()`: the frame at `h` is freed. -/
def destroy (w : World P V) (h : Handle) : World P V := w.set_frame h none

end World

namespace Task

variable {T : Type}

/-- Embeds `Task<T>::safe_destroy` (core.h 798-816): the task object and the state
afterwards. -/
def safe_destroy (t : Task) (w : World (Promise T) T) : Task × World (Promise T) T :=
  if t.handle ≠ 0 then
    let w1 :=
      if !(t.promise w).is_destroyed then
        w.update_frame t.handle
          (fun f => { f with promise := { f.promise with is_destroyed_ := true } })
      else w
    let w2 :=
      if w1.done t.handle then w1.destroy t.handle
      else CoroutineManager.schedule_destroy t.handle w1
    ({ handle := 0 }, w2)
  else (t, w)

/-- Embeds `Task<T>::~Task` (core.h 736-739). -/
def drop (t : Task) (w : World (Promise T) T) : Task × World (Promise T) T :=
  t.safe_destroy w

end Task

namespace TaskVoid

/-- Embeds `Task<void>::safe_destroy` (core.h 1274-1289). -/
def safe_destroy (t : Task) (w : World PromiseVoid Unit) : Task × World PromiseVoid Unit :=
  if t.handle ≠ 0 then
    let w1 :=
      if !(promise t w).is_destroyed_ then
        w.update_frame t.handle
          (fun f => { f with promise := { f.promise with is_destroyed_ := true } })
      else w
    ({ handle := 0 }, w1.destroy t.handle)
  else (t, w)

/-- Embeds `Task<void>::~Task` (core.h 1268-1271). -/
def drop (t : Task) (w : World PromiseVoid Unit) : Task × World PromiseVoid Unit :=
  safe_destroy t w

end TaskVoid

namespace TaskResult

variable {T E : Type}

/-- Embeds `Task<Result<T,E>>::safe_destroy` (core.h 1110-1118). -/
def safe_destroy (t : Task) (w : World (PromiseResult T E) (Except E T)) :
    Task × World (PromiseResult T E) (Except E T) :=
  if t.handle ≠ 0 then
    let w1 :=
      if !(promise t w).is_destroyed_ then
        w.update_frame t.handle
          (fun f => { f with promise := { f.promise with is_destroyed_ := true } })
      else w
    ({ handle := 0 }, w1.destroy t.handle)
  else (t, w)

/-- Embeds `Task<Result<T,E>>::~Task` (core.h 1070-1072). -/
def drop (t : Task) (w : World (PromiseResult T E) (Except E T)) :
    Task × World (PromiseResult T E) (Except E T) :=
  safe_destroy t w

/-- Embeds `Task<Result<T,E>>::is_fulfilled` (core.h 1096-1100). -/
def is_fulfilled (t : Task) (w : World (PromiseResult T E) (Except E T)) : Bool :=
  if t.handle = 0 ∨ !w.done t.handle ∨ is_cancelled t w then false
  else
    match (promise t w).safe_get_result with
    | some (Except.ok _) => true
    | _ => false

/-- Embeds `Task<Result<T,E>>::is_rejected` (core.h 1102-1108). -/
def is_rejected (t : Task) (w : World (PromiseResult T E) (Except E T)) : Bool :=
  if t.handle = 0 then false
  else if is_cancelled t w then true
  else if !w.done t.handle then false
  else
    match (promise t w).safe_get_result with
    | none => true
    | some (Except.error _) => true
    | some (Except.ok _) => false

end TaskResult

namespace TaskUnique

variable {T : Type}

/-- Embeds `Task<unique_ptr<T>>::~Task` (core.h 1753-1760); the task object is gone
afterwards. -/
def drop (t : Task) (w : World (PromiseUnique T) (Option T)) :
    World (PromiseUnique T) (Option T) :=
  if t.handle ≠ 0 then w.destroy t.handle else w

end TaskUnique

/-! ## Sequences of promise callbacks and predicates kept by the runtime -/

namespace Promise

variable {T : Type}

/-- The calls that write to a `Task<T>::promise_type`: the two callbacks of the body and
`request_cancellation`. -/
inductive Call (T : Type) where
  | return_value (v : T)
  | unhandled_exception
  | request_cancellation

/-- Effect of one call on the promise. -/
def call (c : Call T) (p : Promise T) : Promise T :=
  match c with
  | Call.return_value v => p.return_value v
  | Call.unhandled_exception => p.unhandled_exception
  | Call.request_cancellation => p.request_cancellation

/-- Effect of a sequence of calls, left to right. -/
def calls (cs : List (Call T)) (p : Promise T) : Promise T :=
  cs.foldl (fun acc c => call c acc) p

end Promise

namespace World

variable {P V : Type}

/-- Every live frame of `w` that satisfies `Q` is still live in `v` and satisfies
`Q`. -/
def Keeps (Q : Frame P V → Prop) (w v : World P V) : Prop :=
  ∀ (x : Handle) (f : Frame P V), w.frames x = some f → Q f →
    ∃ g, v.frames x = some g ∧ Q g

/-- The predicate `Q` on frames survives what a running body does to its own frame:
advancing past a `co_await` and ending. -/
def BodyStable (Q : Frame P V → Prop) [PromiseType P V] : Prop :=
  (∀ f : Frame P V, Q f → Q f.finish) ∧
    ∀ (f : Frame P V) (rest : List Int), Q f → Q { f with awaits := rest }

end World

namespace Task

variable {T : Type}

/-- A frame of a `Task<T>` not marked destroyed whose result slot is empty as long as
the body has not completed. -/
def SlotEmptyUntilDone (f : Frame (Promise T) T) : Prop :=
  f.promise.is_destroyed_ = false ∧ (f.done = false → f.promise.value = none)

/-- A frame of a `Task<T>` not marked destroyed, cancelled, with an empty result
slot. -/
def CancelledEmpty (f : Frame (Promise T) T) : Prop :=
  f.promise.is_destroyed_ = false ∧ f.promise.is_cancelled_ = true ∧
    f.promise.value = none

/-- A frame of a `Task<T>` whose result slot is populated only if the body has
completed. -/
def ValueOnlyWhenDone (f : Frame (Promise T) T) : Prop :=
  f.promise.value.isSome = true → f.done = true

end Task

namespace TaskResult

variable {T E : Type}

/-- A frame of a `Task<Result<T,E>>` not marked destroyed whose result slot is empty as
long as the body has not completed. -/
def ResultEmptyUntilDone (f : Frame (PromiseResult T E) (Except E T)) : Prop :=
  f.promise.is_destroyed_ = false ∧ (f.done = false → f.promise.result = none)

/-- A frame of a `Task<Result<T,E>>` not marked destroyed and cancelled, whose result
slot is empty or holds the error stored by `unhandled_exception`. -/
def CancelledLive [ResultErrors E] (f : Frame (PromiseResult T E) (Except E T)) : Prop :=
  f.promise.is_destroyed_ = false ∧ f.promise.is_cancelled_ = true ∧
    (f.promise.result = none ∨
      f.promise.result = some (Except.error ResultErrors.unknown_error))

end TaskResult

/-! ## Concrete states used in the evaluations -/

/-- A `Task<int>` at address 1 whose body is `co_await sleep_for(5); co_return 7`,
started at clock 0 and then cancelled. -/
def cancelled_sleeper : World (Promise Nat) Nat :=
  Task.cancel ⟨1⟩ (World.spawn 1 Promise.fresh [5] (Outcome.ret 7) (World.empty 0))

/-- For `E = int` every error value of the `Result` variant is `int{}`. -/
instance instResultErrorsNat : ResultErrors Nat where
  invalid_operation := 0
  task_cancelled := 0
  coroutine_destroyed := 0
  unknown_error := 0

/-- A `Task<void>` at address 1 whose body is `co_await sleep_for(5); co_return`,
started at clock 0 and then cancelled. -/
def cancelled_sleeper_void : World PromiseVoid Unit :=
  TaskVoid.cancel ⟨1⟩ (World.spawn 1 PromiseVoid.fresh [5] (Outcome.ret ()) (World.empty 0))

/-- A `Task<Result<int,int>>` at address 1 whose body is
`co_await sleep_for(5); co_return ok(7)`, started at clock 0 and then cancelled. -/
def cancelled_sleeper_result : World (PromiseResult Nat Nat) (Except Nat Nat) :=
  TaskResult.cancel ⟨1⟩
    (World.spawn 1 PromiseResult.fresh [5] (Outcome.ret (Except.ok 7)) (World.empty 0))

/-- A `Task<unique_ptr<int>>` at address 1 whose body is `co_return make_unique(7)`,
run to completion at construction. -/
def finished_unique : World (PromiseUnique Nat) (Option Nat) :=
  World.spawn 1 PromiseUnique.fresh [] (Outcome.ret (some 7)) (World.empty 0)

/-- A `Task<int>` at address 1 whose body is `co_await sleep_for(1);
co_await sleep_for(1); co_await sleep_for(1); co_return 42`, started at clock 0: it is
suspended at the first `co_await`, two more are ahead. -/
def three_sleeps : World (Promise Nat) Nat :=
  World.spawn 1 Promise.fresh [1, 1, 1] (Outcome.ret 42) (World.empty 0)

/-- A `Task<std::string>` at address 1 whose body is
`co_await sleep_for(10); co_return "ok"`, started at clock 0. -/
def one_sleep : World (Promise String) String :=
  World.spawn 1 Promise.fresh [10] (Outcome.ret "ok") (World.empty 0)

/-- A destroyed promise holding 5 with the error marker clear. -/
def frozen_promise : Promise Nat :=
  { value := some 5, has_error := false, is_cancelled_ := false, is_destroyed_ := true }

/-- A `Task<int>` at address 1 whose body is `co_await sleep_for(5); co_return 7`,
started at clock 0. -/
def sleeper : World (Promise Nat) Nat :=
  World.spawn 1 Promise.fresh [5] (Outcome.ret 7) (World.empty 0)

/-- The state after the `Task<int>` of `sleeper` has been dropped and the clock has
reached 5000000 (5 ms), the deadline of its timer. -/
def dropped_sleeper : World (Promise Nat) Nat :=
  World.advance 5000000 (Task.drop ⟨1⟩ sleeper).2

/-- A `Task<void>` at address 1 whose body is `co_await sleep_for(5); co_return`,
started at clock 0. -/
def sleeper_void : World PromiseVoid Unit :=
  World.spawn 1 PromiseVoid.fresh [5] (Outcome.ret ()) (World.empty 0)

/-- A `Task<Result<int,int>>` at address 1 whose body is
`co_await sleep_for(5); co_return ok(7)`, started at clock 0. -/
def sleeper_result : World (PromiseResult Nat Nat) (Except Nat Nat) :=
  World.spawn 1 PromiseResult.fresh [5] (Outcome.ret (Except.ok 7)) (World.empty 0)

/-- A `Task<unique_ptr<int>>` at address 1 whose body is
`co_await sleep_for(5); co_return make_unique(7)`, started at clock 0. -/
def sleeper_unique : World (PromiseUnique Nat) (Option Nat) :=
  World.spawn 1 PromiseUnique.fresh [5] (Outcome.ret (some 7)) (World.empty 0)

/-- A `Task<int>` at address 1 whose body throws before any suspension. -/
def thrower : World (Promise Nat) Nat :=
  World.spawn 1 Promise.fresh [] Outcome.throw (World.empty 0)

/-- The result of `await_suspend(9)` on the `Task<int>` of `sleeper`: the waiter is the
continuation at address 9. -/
def awaited_sleeper : Bool × World (Promise Nat) Nat :=
  Task.await_suspend ⟨1⟩ 9 sleeper

/-! ## Error values of Task<Result<T, ErrorInfo>> -/

/-- Modelled from the spec: the kinds of `FlowCoroError` that `core.h` names.  The
enumeration is declared in a header that is not among the sources at hand. -/
inductive FlowCoroError where
  | InvalidOperation
  | TaskCancelled
  | CoroutineDestroyed
  | UnknownError
  deriving DecidableEq, Repr

/-- Modelled from the spec: an `ErrorInfo` is an error kind together with the message
passed to its constructor.  The class is declared in a header that is not among the
sources at hand. -/
structure ErrorInfo where
  code : FlowCoroError
  message : String
  deriving DecidableEq, Repr

/-- For `E = ErrorInfo` the error values are the ones constructed at core.h 1013, 1124,
1133 and 1148. -/
instance instResultErrorsErrorInfo : ResultErrors ErrorInfo where
  invalid_operation := ⟨FlowCoroError.InvalidOperation, "Invalid task handle"⟩
  task_cancelled := ⟨FlowCoroError.TaskCancelled, "Task was cancelled"⟩
  coroutine_destroyed := ⟨FlowCoroError.CoroutineDestroyed, "Task was destroyed"⟩
  unknown_error := ⟨FlowCoroError.UnknownError, "Unhandled exception"⟩

/-! ## Moves of Task objects -/

namespace Task

variable {T : Type}

/-- Embeds `Task(Task&& other)` (core.h 717, and with the same text 1056, 1254 and 1744 for
the other variants): the object constructed and `other` afterwards. -/
def move_construct (other : Task) : Task × Task :=
  ({ handle := other.handle }, { handle := 0 })

/-- Embeds `Task<T>::operator=(Task&& other)` for `this != &other` (core.h 718-735): `*this`
and `other` afterwards, and the state.  When the frame owned so far is done the code
only logs an error. -/
def move_assign (t other : Task) (w : World (Promise T) T) :
    Task × Task × World (Promise T) T :=
  let r : Task × World (Promise T) T :=
    if t.handle ≠ 0 then
      if !w.done t.handle then
        t.safe_destroy
          (w.update_frame t.handle
            (fun f => { f with promise := f.promise.request_cancellation }))
      else (t, w)
    else (t, w)
  ({ handle := other.handle }, { handle := 0 }, r.2)

end Task

namespace TaskVoid

/-- Embeds `Task<void>::operator=(Task&& other)` for `this != &other` (core.h 1255-1267). -/
def move_assign (t other : Task) (w : World PromiseVoid Unit) :
    Task × Task × World PromiseVoid Unit :=
  ({ handle := other.handle }, { handle := 0 },
    if t.handle ≠ 0 then w.destroy t.handle else w)

/-- Embeds `Task<void>::is_fulfilled` (core.h 1335-1338). -/
def is_fulfilled (t : Task) (w : World PromiseVoid Unit) : Bool :=
  if t.handle = 0 then false
  else w.done t.handle && !is_cancelled t w && !(promise t w).has_error

/-- Embeds `Task<void>::is_rejected` (core.h 1342-1345). -/
def is_rejected (t : Task) (w : World PromiseVoid Unit) : Bool :=
  if t.handle = 0 then false
  else is_cancelled t w || (promise t w).has_error

/-- A frame of a `Task<void>` whose error marker is clear as long as the body has not
completed. -/
def ErrorOnlyWhenDone (f : Frame PromiseVoid Unit) : Prop :=
  f.done = false → f.promise.has_error = false

/-- When `is_settled()` is true exactly one of `is_fulfilled()` and `is_rejected()` is
true, and when `is_pending()` is true both are false. -/
def FulfilledXorRejected (t : Task) (w : World PromiseVoid Unit) : Prop :=
  (is_settled t w = true →
      (is_fulfilled t w = true ∧ is_rejected t w = false) ∨
        (is_fulfilled t w = false ∧ is_rejected t w = true)) ∧
    (is_pending t w = true → is_fulfilled t w = false ∧ is_rejected t w = false)

end TaskVoid

namespace TaskResult

variable {T E : Type}

/-- Embeds `Task<Result<T,E>>::operator=(Task&& other)` for `this != &other`
(core.h 1057-1068). -/
def move_assign (t other : Task) (w : World (PromiseResult T E) (Except E T)) :
    Task × Task × World (PromiseResult T E) (Except E T) :=
  ({ handle := other.handle }, { handle := 0 },
    if t.handle ≠ 0 then w.destroy t.handle else w)

/-- When `is_settled()` is true exactly one of `is_fulfilled()` and `is_rejected()` is
true, and when `is_pending()` is true both are false. -/
def FulfilledXorRejected (t : Task) (w : World (PromiseResult T E) (Except E T)) : Prop :=
  (is_settled t w = true →
      (is_fulfilled t w = true ∧ is_rejected t w = false) ∨
        (is_fulfilled t w = false ∧ is_rejected t w = true)) ∧
    (is_pending t w = true → is_fulfilled t w = false ∧ is_rejected t w = false)

end TaskResult

namespace TaskUnique

variable {T : Type}

/-- Embeds `Task<unique_ptr<T>>::operator=(Task&& other)` for `this != &other`
(core.h 1745-1752). -/
def move_assign (t other : Task) (w : World (PromiseUnique T) (Option T)) :
    Task × Task × World (PromiseUnique T) (Option T) :=
  ({ handle := other.handle }, { handle := 0 },
    if t.handle ≠ 0 then w.destroy t.handle else w)

end TaskUnique

/-! ## sleep_for, the runtime bootstrap and make_timeout_task (core.h 1963-2076) -/

/-- The part of the process state that `start_coroutine_manager` writes: the number of
detached threads that run the loop `manager.drive(); sleep(100us)`. -/
structure Runtime where
  drive_threads : Nat
  deriving DecidableEq, Repr

/-- Embeds `start_coroutine_manager` (core.h 1968-1978): a thread is constructed and
detached on every call. -/
def start_coroutine_manager (r : Runtime) : Runtime :=
  { r with drive_threads := r.drive_threads + 1 }

/-- Embeds `enable_v2_features` (core.h 2027-2039): `start_coroutine_manager()`, then
output only. -/
def enable_v2_features (r : Runtime) : Runtime := start_coroutine_manager r

/-- What `make_timeout_task` leaves behind: the `Task` it returns, the object its
argument refers to (to which the closure given to the pool holds the pointer
`task_ref`), and the timeout captured. -/
structure TimeoutTask where
  returned : Task
  task_ref : Task
  timeout : Int
  deriving DecidableEq, Repr

/-- Embeds `make_timeout_task` (core.h 2067-2076): the closure captures `&task`, and
`return std::move(task)` move-constructs the returned `Task` from `task`. -/
def make_timeout_task (task : Task) (timeout : Int) : TimeoutTask :=
  { returned := (Task.move_construct task).1
    task_ref := (Task.move_construct task).2
    timeout := timeout }

/-- The closure `make_timeout_task` gives to the pool, run in state `w` once its
`sleep_for(timeout)` is over: `task_ref->cancel()`. -/
def TimeoutTask.worker {T : Type} (r : TimeoutTask) (w : World (Promise T) T) :
    World (Promise T) T :=
  r.task_ref.cancel w

/-! ## when_all (core.h 1980-1998) -/

namespace WhenAll

variable {T : Type}

/-- The frame of the coroutine `when_all(tasks...)`, whose return object is a
`Task<std::tuple<...>>`; a tuple is written as the list of its components.
`task_tuple` holds the tasks from the one being awaited onwards, `results` the values
`result0`, `result1`, .. obtained so far.  A frame that is not `done` is suspended in
the `co_await` of the head of `task_tuple`. -/
structure State (T : Type) where
  promise : Promise (List T)
  done : Bool
  task_tuple : List Task
  results : List T

/-- The body from the `co_await` of the first task of the list on, for the coroutine at
address `self` with promise `p`.  Each `co_await` on a `Task<T>` is expanded as the
compiler does: `await_ready`, else `await_suspend`, which suspends when it returns
`true`, and `await_resume` for the value.  The body ends with
`co_return std::make_tuple(result0, ..)`; the destruction of the locals that follows
(`~Task` on the tasks of `task_tuple`) is left out. -/
def run_body [Inhabited T] (self : Handle) (p : Promise (List T)) :
    List Task → List T → World (Promise T) T → State T × World (Promise T) T
  | [], results, w =>
      ({ promise := p.return_value results, done := true, task_tuple := [],
         results := results }, w)
  | t :: rest, results, w =>
      if t.await_ready w then run_body self p rest (results ++ [t.await_resume w]) w
      else
        let r := t.await_suspend self w
        if r.1 then
          ({ promise := p, done := false, task_tuple := t :: rest, results := results },
            r.2)
        else run_body self p rest (results ++ [t.await_resume r.2]) r.2

/-- Embeds `when_all` for one to three tasks (core.h 1980-1998): the frame is allocated at
`self` and, `initial_suspend` being `std::suspend_never`, the body runs at once up to
its first suspension. -/
def when_all [Inhabited T] (self : Handle) (tasks : List Task) (w : World (Promise T) T) :
    State T × World (Promise T) T :=
  run_body self Promise.fresh tasks [] w

/-- Effect of `handle.resume()` on the coroutine of `when_all`: the pending `co_await`
ends with `await_resume` and the body goes on. -/
def resume [Inhabited T] (self : Handle) (s : State T) (w : World (Promise T) T) :
    State T × World (Promise T) T :=
  if s.done then (s, w)
  else
    match s.task_tuple with
    | [] => (s, w)
    | t :: rest => run_body self s.promise rest (s.results ++ [t.await_resume w]) w

/-- The value `std::tuple<...>{}`: every component value-initialised. -/
def default_tuple [Inhabited T] (s : State T) : List T :=
  List.replicate (s.results.length + s.task_tuple.length) default

/-- Embeds `Task<T>::get` (core.h 818-875) for the `Task<std::tuple<...>>` that `when_all`
returns, whose handle is the non-null `self`: the tuple returned, the frame and the
state afterwards. -/
def get [Inhabited T] (self : Handle) (s : State T) (w : World (Promise T) T) :
    List T × State T × World (Promise T) T :=
  if s.promise.is_destroyed then (default_tuple s, s, w)
  else
    let r := if !s.done && !s.promise.is_cancelled then resume self s w else (s, w)
    if r.1.promise.safe_has_error then (default_tuple r.1, r)
    else
      match r.1.promise.safe_get_value with
      | some v => (v, r)
      | none => (default_tuple r.1, r)

/-- Embeds `sync_wait(Task<T>&&)` (core.h 2001-2006) for the task of `when_all`. -/
def sync_wait [Inhabited T] (self : Handle) (s : State T) (w : World (Promise T) T) :
    List T × State T × World (Promise T) T :=
  get self s w

/-- Embeds `Task<T>::is_settled` (core.h 778-781) for the task of `when_all`. -/
def is_settled (s : State T) : Bool :=
  s.done || (if s.promise.is_destroyed then false else s.promise.is_cancelled)

end WhenAll

/-! ## AsyncQueue (core.h 1830-1879) -/

namespace AsyncQueue

variable {F : Type}

/-- A `Node`: `task` is `none` for an empty `std::function`, `next` is the address
of the next node or `none` for a null pointer. -/
structure Node (F : Type) where
  task : Option F
  next : Option Nat

/-- The nodes allocated so far (the address of a node is its position in `nodes`) and
the two pointers of the queue. -/
structure State (F : Type) where
  nodes : List (Node F)
  head_ : Option Nat
  tail_ : Nat

/-- Embeds the constructor (core.h 1841-1846): one sentinel node, `head_` and `tail_` both
point to it. -/
def fresh : State F :=
  { nodes := [{ task := none, next := none }], head_ := some 0, tail_ := 0 }

/-- Write `next` into the node at address `a`. -/
def set_next (nodes : List (Node F)) (a : Nat) (next : Option Nat) : List (Node F) :=
  match nodes[a]? with
  | some n => nodes.set a { n with next := next }
  | none => nodes

/-- Embeds `enqueue` (core.h 1849-1859) called with no other thread in the queue: the new
node receives the task, `tail_` is exchanged for it and the old tail is linked to
it. -/
def enqueue (task : F) (q : State F) : State F :=
  let new_tail := q.nodes.length
  let old_tail := q.tail_
  { nodes := set_next (q.nodes ++ [{ task := some task, next := none }]) old_tail
               (some new_tail)
    head_ := q.head_
    tail_ := new_tail }

/-- Embeds `dequeue` (core.h 1862-1878) called with no other thread in the queue, so that
the compare-exchange succeeds: the flag returned, the caller's variable `task`
afterwards, and the queue.  The task moved out is the one of the old head node.  A
null `head_` (dereferenced by the code) is answered with `false`. -/
def dequeue (task : Option F) (q : State F) : Bool × Option F × State F :=
  match q.head_ with
  | none => (false, task, q)
  | some old_head =>
      if old_head = q.tail_ then (false, task, q)
      else
        match q.nodes[old_head]? with
        | none => (false, task, q)
        | some n =>
            (true, n.task,
              { nodes := q.nodes.set old_head { n with task := none }
                head_ := n.next
                tail_ := q.tail_ })

/-- Enqueue the tasks of a list, first to last. -/
def enqueue_all (fs : List F) (q : State F) : State F :=
  fs.foldl (fun acc f => enqueue f acc) q

/-- Call `dequeue` `n` times with a variable `task` that is empty before each call:
the flags and tasks obtained, in order, and the queue afterwards. -/
def dequeue_n : Nat → State F → List (Bool × Option F) × State F
  | 0, q => ([], q)
  | n + 1, q =>
      let r := dequeue none q
      let rest := dequeue_n n r.2.2
      ((r.1, r.2.1) :: rest.1, rest.2)

end AsyncQueue

/-! ## Concrete states used in the evaluations of moves, timeouts and when_all -/

/-- A `Task<Result<int, ErrorInfo>>` at address 1 whose body has completed with `ok(7)`
in the slot, with the cancel flag and the destruction flag both set. -/
def cancelled_destroyed_result :
    World (PromiseResult Nat ErrorInfo) (Except ErrorInfo Nat) :=
  (World.empty 0).set_frame 1
    (some { promise := { result := some (Except.ok 7), exception := false,
                         is_cancelled_ := true, is_destroyed_ := true }
            done := true
            awaits := []
            outcome := Outcome.ret (Except.ok 7) })

/-- Three `Task<int>` at addresses 1, 2 and 3, started at clock 0; the body of the task
at `i` is `co_await sleep_for(i); co_return i`. -/
def three_children : World (Promise Nat) Nat :=
  World.spawn 3 Promise.fresh [3] (Outcome.ret 3)
    (World.spawn 2 Promise.fresh [2] (Outcome.ret 2)
      (World.spawn 1 Promise.fresh [1] (Outcome.ret 1) (World.empty 0)))

/-- Three `Task<int>` at addresses 1, 2 and 3 whose bodies are `co_return 1`,
`co_return 2` and `co_return 3`: each has completed at construction. -/
def three_finished : World (Promise Nat) Nat :=
  World.spawn 3 Promise.fresh [] (Outcome.ret 3)
    (World.spawn 2 Promise.fresh [] (Outcome.ret 2)
      (World.spawn 1 Promise.fresh [] (Outcome.ret 1) (World.empty 0)))

/-- A `Task<int>` at address 1 whose body `co_return 7` has completed, and a second one
at address 2 whose body is `co_await sleep_for(5); co_return 8`. -/
def finished_and_sleeper : World (Promise Nat) Nat :=
  World.spawn 2 Promise.fresh [5] (Outcome.ret 8)
    (World.spawn 1 Promise.fresh [] (Outcome.ret 7) (World.empty 0))

/-- The same two coroutines as `Task<void>`. -/
def finished_and_sleeper_void : World PromiseVoid Unit :=
  World.spawn 2 PromiseVoid.fresh [5] (Outcome.ret ())
    (World.spawn 1 PromiseVoid.fresh [] (Outcome.ret ()) (World.empty 0))

/-! ## Theorems -/

namespace AsyncPromise

/-- The schedules in `interleavings` are exactly the orderings of the three atomic
steps in which the producer's lock section precedes its submission. -/
theorem interleavings_complete (sched : List Ev) :
    sched ∈ interleavings ↔
      (sched.Perm [Ev.producerLock, Ev.producerSubmit, Ev.consumer] ∧
        sched.indexOf Ev.producerLock < sched.indexOf Ev.producerSubmit) := by
  constructor
  · intro h
    simp only [interleavings, List.mem_cons, List.mem_singleton, List.not_mem_nil,
      or_false] at h
    rcases h with h | h | h <;> subst h <;> decide
  · rintro ⟨hp, hlt⟩
    have hl : sched.length = 3 := by simpa using hp.length_eq
    match sched, hl with
    | [a, b, c], _ =>
      revert hp hlt
      cases a <;> cases b <;> cases c <;> decide

/-- C1: on a fresh promise, a consumer `await_suspend(h)` (h a real, non-null
continuation) and a producer `set_value(v)`, in every interleaving of their atomic
steps, submit `h` to the worker pool exactly once, and `await_resume()` then returns
`v`. -/
theorem c1_no_lost_wakeup {T E : Type} [Inhabited T] (h : Handle) (v : T) (hh : h ≠ 0)
    (sched : List Ev) (hs : sched ∈ interleavings) :
    (run h v sched (start : Sys T E)).pool = [h] ∧
      (run h v sched (start : Sys T E)).pool.count h = 1 ∧
      await_resume (run h v sched (start : Sys T E)).state = Except.ok v := by
  simp only [interleavings, List.mem_cons, List.mem_singleton, List.not_mem_nil,
    or_false] at hs
  rcases hs with hs | hs | hs <;> subst hs <;>
    simp [run, step, start, fresh, set_value_locked, submit_taken, await_suspend,
      await_resume, hh]

/-- Witness for C1: continuation 7, value 42, consumer first. -/
theorem c1_no_lost_wakeup_witness :
    (run 7 42 [Ev.consumer, Ev.producerLock, Ev.producerSubmit]
        (start : Sys Nat String)).pool = [7] ∧
      (run 7 42 [Ev.consumer, Ev.producerLock, Ev.producerSubmit]
        (start : Sys Nat String)).pool.count 7 = 1 ∧
      await_resume (run 7 42 [Ev.consumer, Ev.producerLock, Ev.producerSubmit]
        (start : Sys Nat String)).state = Except.ok 42 :=
  c1_no_lost_wakeup 7 42 (by decide) _ (by decide)

/-- C2 as stated fails: after `set_value(1)` on a fresh promise a second
`set_value(2)` changes the value slot, and `await_resume()` yields 2, not the outcome
of the first call. -/
theorem c2_later_set_overwrites_counterexample :
    (set_value 2 (set_value 1 ((fresh : State Nat String), []))).1.value_ ≠
        (set_value 1 ((fresh : State Nat String), [])).1.value_ ∧
      await_resume (set_value 1 ((fresh : State Nat String), [])).1 = Except.ok 1 ∧
      await_resume (set_value 2 (set_value 1 ((fresh : State Nat String), []))).1 =
        Except.ok 2 := by
  refine ⟨by decide, rfl, rfl⟩

/-- C2 amended: in every state (in particular after a first `set_value` or
`set_exception`), `set_value(v)` overwrites the value slot with `v`, leaves the error
slot unchanged and leaves `ready_` true; `set_exception(ex)` overwrites the error slot
with `ex`, leaves the value slot unchanged and leaves `ready_` true; so
`await_resume()` afterwards reports the slots as last written. -/
theorem c2_later_set_overwrites {T E : Type} (s : State T E) (pool : List Handle)
    (v : T) (ex : Option E) :
    ((set_value v (s, pool)).1.value_ = v ∧
        (set_value v (s, pool)).1.exception_ = s.exception_ ∧
        (set_value v (s, pool)).1.ready_ = true) ∧
      ((set_exception ex (s, pool)).1.exception_ = ex ∧
        (set_exception ex (s, pool)).1.value_ = s.value_ ∧
        (set_exception ex (s, pool)).1.ready_ = true) ∧
      await_resume (set_value v (s, pool)).1 =
        (match s.exception_ with
          | some e => Except.error e
          | none => Except.ok v) ∧
      await_resume (set_exception ex (s, pool)).1 =
        (match ex with
          | some e => Except.error e
          | none => Except.ok s.value_) := by
  refine ⟨⟨rfl, rfl, rfl⟩, ⟨rfl, rfl, rfl⟩, rfl, rfl⟩

/-- C3: in every state `await_resume()` raises `e` exactly when the error slot holds
`e`, and returns `x` exactly when the error slot is empty and the value slot holds
`x`; on a fresh promise `set_value(v)` followed by `await_resume()` returns `v`. -/
theorem c3_await_resume_outcome {T E : Type} [Inhabited T] (s : State T E) (e : E) (x v : T)
    (pool : List Handle) :
    (await_resume s = Except.error e ↔ s.exception_ = some e) ∧
      ((∃ e0, await_resume s = Except.error e0) ↔ s.exception_.isSome = true) ∧
      (await_resume s = Except.ok x ↔ s.exception_ = none ∧ s.value_ = x) ∧
      await_resume (set_value v ((fresh : State T E), pool)).1 = Except.ok v := by
  refine ⟨?_, ?_, ?_, rfl⟩
  · cases hx : s.exception_ <;> simp [await_resume, hx]
  · cases hx : s.exception_ <;> simp [await_resume, hx]
  · cases hx : s.exception_ <;> simp [await_resume, hx]

/-- C4: `await_suspend(h)` in every state: ready: `h` is submitted and the slot is
unchanged; not ready with an empty slot: `h` is installed and nothing is submitted;
not ready with an occupied slot: `h` is submitted and the earlier waiter stays.  So a
slot that changes was null before and holds `h` after. -/
theorem c4_await_suspend_cases {T E : Type} (s : State T E) (pool : List Handle)
    (h : Handle) :
    ((s.ready_ = true ∧ await_suspend h (s, pool) = (s, pool ++ [h])) ∨
      (s.ready_ = false ∧ s.suspended_handle_ = 0 ∧
        await_suspend h (s, pool) = ({ s with suspended_handle_ := h }, pool)) ∨
      (s.ready_ = false ∧ s.suspended_handle_ ≠ 0 ∧
        await_suspend h (s, pool) = (s, pool ++ [h]))) ∧
      ((await_suspend h (s, pool)).1.suspended_handle_ = s.suspended_handle_ ∨
        (s.suspended_handle_ = 0 ∧ (await_suspend h (s, pool)).1.suspended_handle_ = h)) := by
  unfold await_suspend
  cases hr : s.ready_
  · by_cases hz : s.suspended_handle_ = 0 <;> simp [hz, hr]
  · simp [hr]

end AsyncPromise


/-- C5: in every state, for each of the four Task variants, exactly one of
`is_pending()` and `is_settled()` is true. -/
theorem c5_pending_xor_settled {T E : Type} (t : Task) (wT : World (Promise T) T)
    (wV : World PromiseVoid Unit) (wR : World (PromiseResult T E) (Except E T))
    (wU : World (PromiseUnique T) (Option T)) :
    Bool.xor (Task.is_pending t wT) (Task.is_settled t wT) = true ∧
      Bool.xor (TaskVoid.is_pending t wV) (TaskVoid.is_settled t wV) = true ∧
      Bool.xor (TaskResult.is_pending t wR) (TaskResult.is_settled t wR) = true ∧
      Bool.xor (TaskUnique.is_pending t wU) (TaskUnique.is_settled t wU) = true := by
  refine ⟨?_, ?_, ?_, ?_⟩
  · unfold Task.is_pending Task.is_settled
    by_cases h0 : t.handle = 0
    · simp [h0]
    · cases wT.done t.handle <;> cases Task.is_cancelled t wT <;> simp [h0]
  · unfold TaskVoid.is_pending TaskVoid.is_settled
    by_cases h0 : t.handle = 0
    · simp [h0]
    · cases wV.done t.handle <;> cases TaskVoid.is_cancelled t wV <;> simp [h0]
  · unfold TaskResult.is_pending TaskResult.is_settled
    by_cases h0 : t.handle = 0
    · simp [h0]
    · cases wR.done t.handle <;> cases TaskResult.is_cancelled t wR <;> simp [h0]
  · unfold TaskUnique.is_pending TaskUnique.is_settled
    by_cases h0 : t.handle = 0
    · simp [h0]
    · cases wU.done t.handle <;> simp [h0]

namespace World

variable {P V : Type}

theorem frameLater_refl (c d : P → Bool) (f : Frame P V) : FrameLater c d f f :=
  ⟨id, id, rfl⟩

theorem frameLater_trans {c d : P → Bool} {f g k : Frame P V} (h1 : FrameLater c d f g)
    (h2 : FrameLater c d g k) : FrameLater c d f k :=
  ⟨fun h => h2.1 (h1.1 h), fun h => h2.2.1 (h1.2.1 h), h2.2.2.trans h1.2.2⟩

theorem worldLater_refl (c d : P → Bool) (w : World P V) : WorldLater c d w w := by
  intro x
  cases hx : w.frames x with
  | none => exact Or.inl ⟨rfl, rfl⟩
  | some f => exact Or.inr ⟨f, f, rfl, rfl, frameLater_refl c d f⟩

theorem worldLater_trans {c d : P → Bool} {w v u : World P V} (h1 : WorldLater c d w v)
    (h2 : WorldLater c d v u) : WorldLater c d w u := by
  intro x
  rcases h1 x with ⟨a, b⟩ | ⟨f, g, a, b, c1⟩
  · rcases h2 x with ⟨_, d1⟩ | ⟨g2, k, a2, _, _⟩
    · exact Or.inl ⟨a, d1⟩
    · rw [b] at a2; cases a2
  · rcases h2 x with ⟨a2, _⟩ | ⟨g2, k, a2, b2, c2⟩
    · rw [b] at a2; cases a2
    · rw [b] at a2; cases a2
      exact Or.inr ⟨f, k, a, b2, frameLater_trans c1 c2⟩

/-- Worlds with the same frames are later states of each other. -/
theorem worldLater_of_frames_eq (c d : P → Bool) {w v : World P V}
    (h : v.frames = w.frames) : WorldLater c d w v := by
  intro x
  rw [h]
  exact worldLater_refl c d w x

theorem update_frame_later (c d : P → Bool) (w : World P V) (h : Handle)
    (g : Frame P V → Frame P V) (hg : ∀ f, FrameLater c d f (g f)) :
    WorldLater c d w (w.update_frame h g) := by
  unfold World.update_frame
  cases hf : w.frames h with
  | none => exact worldLater_refl c d w
  | some f =>
    intro x
    by_cases hx : x = h
    · subst hx
      exact Or.inr ⟨f, g f, hf, by simp [World.set_frame], hg f⟩
    · have : (w.set_frame h (some (g f))).frames x = w.frames x := by
        simp [World.set_frame, hx]
      rw [this]
      exact worldLater_refl c d w x

theorem finish_later [PromiseType P V] (c d : P → Bool) (hk : FlagsKept (V := V) c d)
    (f : Frame P V) : FrameLater c d f f.finish := by
  unfold Frame.finish FrameLater
  cases f.outcome with
  | ret v =>
    refine ⟨fun _ => rfl, fun hc => ?_, ?_⟩
    · exact (hk.1 v f.promise).1.trans hc
    · exact (hk.1 v f.promise).2
  | throw =>
    refine ⟨fun _ => rfl, fun hc => ?_, ?_⟩
    · exact (hk.2 f.promise).1.trans hc
    · exact (hk.2 f.promise).2

theorem run_body_later [PromiseType P V] (c d : P → Bool) (hk : FlagsKept (V := V) c d)
    (h : Handle) (aw : List Int) (w : World P V) :
    WorldLater c d w (w.run_body h aw) := by
  induction aw generalizing w with
  | nil => exact update_frame_later c d w h _ (finish_later c d hk)
  | cons a rest ih =>
    unfold World.run_body
    by_cases hd : a ≤ 0
    · simp [CoroutineFriendlySleepAwaiter.await_ready, hd]
      exact ih w
    · simp [CoroutineFriendlySleepAwaiter.await_ready,
        CoroutineFriendlySleepAwaiter.await_suspend, hd]
      refine worldLater_trans (v := CoroutineManager.add_timer (CoroutineFriendlySleepAwaiter.when w.now a) h w)
        (worldLater_of_frames_eq c d rfl) ?_
      exact update_frame_later c d _ h _ (fun f => ⟨id, id, rfl⟩)

/-- A resumption takes every frame to a later state. -/
theorem resume_later [PromiseType P V] (c d : P → Bool) (hk : FlagsKept (V := V) c d)
    (h : Handle) (w : World P V) : WorldLater c d w (w.resume h) := by
  unfold World.resume
  cases hf : w.frames h with
  | none => exact worldLater_refl c d w
  | some f =>
    by_cases hd : f.done = true
    · simp [hd]; exact worldLater_refl c d w
    · simp [hd]; exact run_body_later c d hk h f.awaits w

theorem schedule_resume_frames (h : Handle) (w : World P V) :
    (CoroutineManager.schedule_resume h w).frames = w.frames := by
  unfold CoroutineManager.schedule_resume
  split_ifs <;> rfl

/-- Stability along a sequence of steps, from stability of one step. -/
theorem foldl_invariant {S Op : Type} (step : Op → S → S) (inv : S → Prop)
    (hstep : ∀ op s, inv s → inv (step op s)) (ops : List Op) (s : S) (hs : inv s) :
    inv (ops.foldl (fun acc op => step op acc) s) := by
  induction ops generalizing s with
  | nil => exact hs
  | cons op rest ih => exact ih (step op s) (hstep op s hs)

end World

namespace Task

variable {T : Type}

theorem task_flags_kept :
    World.FlagsKept (P := Promise T) (V := T) Promise.is_cancelled_ Promise.is_destroyed_ := by
  constructor
  · intro v p
    show (p.return_value v).is_cancelled_ = _ ∧ (p.return_value v).is_destroyed_ = _
    unfold Promise.return_value
    split_ifs <;> exact ⟨rfl, rfl⟩
  · intro p
    show p.unhandled_exception.is_cancelled_ = _ ∧ p.unhandled_exception.is_destroyed_ = _
    unfold Promise.unhandled_exception
    split_ifs <;> exact ⟨rfl, rfl⟩

theorem task_cancel_later (t : Task) (w : World (Promise T) T) :
    World.WorldLater Promise.is_cancelled_ Promise.is_destroyed_ w (t.cancel w) := by
  unfold Task.cancel
  split
  · exact World.update_frame_later _ _ w t.handle _ (fun f => ⟨id, fun _ => rfl, rfl⟩)
  · exact World.worldLater_refl _ _ w

theorem task_get_world [Inhabited T] (t : Task) (w : World (Promise T) T) :
    (t.get w).2 = w ∨ (t.get w).2 = w.resume t.handle := by
  unfold Task.get
  dsimp only
  split_ifs <;> (try split) <;> simp

theorem task_get_later [Inhabited T] (t : Task) (w : World (Promise T) T) :
    World.WorldLater Promise.is_cancelled_ Promise.is_destroyed_ w (t.get w).2 := by
  rcases task_get_world t w with h | h <;> rw [h]
  · exact World.worldLater_refl _ _ w
  · exact World.resume_later _ _ task_flags_kept t.handle w

theorem task_await_suspend_later (t : Task) (waiting_handle : Handle) (w : World (Promise T) T) :
    World.WorldLater Promise.is_cancelled_ Promise.is_destroyed_ w
      (t.await_suspend waiting_handle w).2 := by
  unfold Task.await_suspend
  split_ifs
  · exact World.worldLater_refl _ _ w
  · exact World.worldLater_refl _ _ w
  · exact World.worldLater_of_frames_eq _ _ (World.schedule_resume_frames t.handle w)

theorem task_is_settled_mono (t : Task) {w v : World (Promise T) T}
    (h : World.WorldLater Promise.is_cancelled_ Promise.is_destroyed_ w v)
    (hs : t.is_settled w = true) : t.is_settled v = true := by
  unfold Task.is_settled at hs ⊢
  by_cases h0 : t.handle = 0
  · simp [h0]
  · simp only [h0, if_false] at hs ⊢
    rcases h t.handle with ⟨a, b⟩ | ⟨f, g, a, b, c1, c2, c3⟩
    · simp [World.done, Task.is_cancelled, Task.promise, a, h0, Promise.destroyed,
        Promise.is_destroyed] at hs
    · simp only [World.done, Task.is_cancelled, Task.promise, a, b, h0, false_or,
        Promise.is_destroyed, Promise.is_cancelled, Bool.or_eq_true] at hs ⊢
      rcases hs with hs | hs
      · exact Or.inl (c1 hs)
      · right
        by_cases hd : f.promise.is_destroyed_ = true
        · simp [hd] at hs
        · simp only [hd, if_false] at hs
          simp [c3, hd, c2 hs]

theorem task_step_settled [Inhabited T] (op : TaskOp) (s : Task × World (Promise T) T)
    (hs : s.1.is_settled s.2 = true) :
    (step op s).1.is_settled (step op s).2 = true := by
  cases op with
  | cancel => exact task_is_settled_mono s.1 (task_cancel_later s.1 s.2) hs
  | get => exact task_is_settled_mono s.1 (task_get_later s.1 s.2) hs
  | await_ready => exact hs
  | await_suspend wh => exact task_is_settled_mono s.1 (task_await_suspend_later s.1 wh s.2) hs
  | await_resume => exact hs
  | resume h => exact task_is_settled_mono s.1 (World.resume_later _ _ task_flags_kept h s.2) hs
  | advance dt => exact task_is_settled_mono s.1 (World.worldLater_of_frames_eq _ _ rfl) hs
  | moved_from => simp [step, Task.moved_from, Task.is_settled]

end Task

namespace TaskVoid

theorem void_flags_kept :
    World.FlagsKept (P := PromiseVoid) (V := Unit) PromiseVoid.is_cancelled_
      PromiseVoid.is_destroyed_ := by
  constructor
  · intro v p
    show p.return_void.is_cancelled_ = _ ∧ p.return_void.is_destroyed_ = _
    unfold PromiseVoid.return_void
    split_ifs <;> exact ⟨rfl, rfl⟩
  · intro p
    show p.unhandled_exception.is_cancelled_ = _ ∧ p.unhandled_exception.is_destroyed_ = _
    unfold PromiseVoid.unhandled_exception
    split_ifs <;> exact ⟨rfl, rfl⟩

theorem void_cancel_later (t : Task) (w : World PromiseVoid Unit) :
    World.WorldLater PromiseVoid.is_cancelled_ PromiseVoid.is_destroyed_ w (cancel t w) := by
  unfold cancel
  split
  · exact World.update_frame_later _ _ w t.handle _ (fun f => ⟨id, fun _ => rfl, rfl⟩)
  · exact World.worldLater_refl _ _ w

theorem void_get_later (t : Task) (w : World PromiseVoid Unit) :
    World.WorldLater PromiseVoid.is_cancelled_ PromiseVoid.is_destroyed_ w (get t w) := by
  unfold get
  split_ifs
  · exact World.worldLater_refl _ _ w
  · exact World.worldLater_refl _ _ w
  · exact World.resume_later _ _ void_flags_kept t.handle w
  · exact World.worldLater_refl _ _ w

theorem void_await_suspend_later (t : Task) (waiting_handle : Handle)
    (w : World PromiseVoid Unit) :
    World.WorldLater PromiseVoid.is_cancelled_ PromiseVoid.is_destroyed_ w
      (await_suspend t waiting_handle w).2 := by
  unfold await_suspend
  split_ifs
  · exact World.worldLater_refl _ _ w
  · exact World.worldLater_refl _ _ w
  · exact World.worldLater_of_frames_eq _ _ (World.schedule_resume_frames t.handle w)

theorem void_is_settled_mono (t : Task) {w v : World PromiseVoid Unit}
    (h : World.WorldLater PromiseVoid.is_cancelled_ PromiseVoid.is_destroyed_ w v)
    (hs : is_settled t w = true) : is_settled t v = true := by
  unfold is_settled at hs ⊢
  by_cases h0 : t.handle = 0
  · simp [h0]
  · simp only [h0, if_false] at hs ⊢
    rcases h t.handle with ⟨a, b⟩ | ⟨f, g, a, b, c1, c2, c3⟩
    · simp [World.done, is_cancelled, promise, a, h0, PromiseVoid.destroyed] at hs
    · simp only [World.done, is_cancelled, promise, a, b, h0, false_or,
        Bool.or_eq_true] at hs ⊢
      rcases hs with hs | hs
      · exact Or.inl (c1 hs)
      · right
        by_cases hd : f.promise.is_destroyed_ = true
        · simp [hd] at hs
        · simp only [hd, if_false] at hs
          simp [c3, hd, c2 hs]

theorem void_step_settled (op : TaskOp) (s : Task × World PromiseVoid Unit)
    (hs : is_settled s.1 s.2 = true) : is_settled (step op s).1 (step op s).2 = true := by
  cases op with
  | cancel => exact void_is_settled_mono s.1 (void_cancel_later s.1 s.2) hs
  | get => exact void_is_settled_mono s.1 (void_get_later s.1 s.2) hs
  | await_ready => exact hs
  | await_suspend wh => exact void_is_settled_mono s.1 (void_await_suspend_later s.1 wh s.2) hs
  | await_resume => exact hs
  | resume h => exact void_is_settled_mono s.1 (World.resume_later _ _ void_flags_kept h s.2) hs
  | advance dt => exact void_is_settled_mono s.1 (World.worldLater_of_frames_eq _ _ rfl) hs
  | moved_from => simp [step, Task.moved_from, is_settled]

end TaskVoid

namespace TaskResult

variable {T E : Type}

theorem result_flags_kept [ResultErrors E] :
    World.FlagsKept (P := PromiseResult T E) (V := Except E T) PromiseResult.is_cancelled_
      PromiseResult.is_destroyed_ := by
  constructor
  · intro v p
    show (p.return_value v).is_cancelled_ = _ ∧ (p.return_value v).is_destroyed_ = _
    unfold PromiseResult.return_value
    split_ifs <;> exact ⟨rfl, rfl⟩
  · intro p
    show p.unhandled_exception.is_cancelled_ = _ ∧ p.unhandled_exception.is_destroyed_ = _
    unfold PromiseResult.unhandled_exception
    split_ifs <;> exact ⟨rfl, rfl⟩

theorem result_cancel_later (t : Task) (w : World (PromiseResult T E) (Except E T)) :
    World.WorldLater PromiseResult.is_cancelled_ PromiseResult.is_destroyed_ w
      (cancel t w) := by
  unfold cancel
  split
  · exact World.update_frame_later _ _ w t.handle _ (fun f => ⟨id, fun _ => rfl, rfl⟩)
  · exact World.worldLater_refl _ _ w

theorem result_await_suspend_later (t : Task) (waiting_handle : Handle)
    (w : World (PromiseResult T E) (Except E T)) :
    World.WorldLater PromiseResult.is_cancelled_ PromiseResult.is_destroyed_ w
      (await_suspend t waiting_handle w) := by
  unfold await_suspend
  split_ifs
  · exact World.worldLater_of_frames_eq _ _ rfl
  · exact World.worldLater_refl _ _ w

theorem result_is_settled_mono (t : Task) {w v : World (PromiseResult T E) (Except E T)}
    (h : World.WorldLater PromiseResult.is_cancelled_ PromiseResult.is_destroyed_ w v)
    (hs : is_settled t w = true) : is_settled t v = true := by
  unfold is_settled at hs ⊢
  by_cases h0 : t.handle = 0
  · simp [h0]
  · simp only [h0, if_false] at hs ⊢
    rcases h t.handle with ⟨a, b⟩ | ⟨f, g, a, b, c1, c2, c3⟩
    · simp [World.done, is_cancelled, promise, a, h0, PromiseResult.destroyed] at hs
    · simp only [World.done, is_cancelled, promise, a, b, h0, false_or,
        Bool.or_eq_true] at hs ⊢
      rcases hs with hs | hs
      · exact Or.inl (c1 hs)
      · right
        by_cases hd : f.promise.is_destroyed_ = true
        · simp [hd] at hs
        · simp only [hd, if_false] at hs
          simp [c3, hd, c2 hs]

theorem result_step_settled [ResultErrors E] (op : TaskOp)
    (s : Task × World (PromiseResult T E) (Except E T))
    (hs : is_settled s.1 s.2 = true) : is_settled (step op s).1 (step op s).2 = true := by
  cases op with
  | cancel => exact result_is_settled_mono s.1 (result_cancel_later s.1 s.2) hs
  | get => exact hs
  | await_ready => exact hs
  | await_suspend wh => exact result_is_settled_mono s.1 (result_await_suspend_later s.1 wh s.2) hs
  | await_resume => exact hs
  | resume h => exact result_is_settled_mono s.1 (World.resume_later _ _ result_flags_kept h s.2) hs
  | advance dt => exact result_is_settled_mono s.1 (World.worldLater_of_frames_eq _ _ rfl) hs
  | moved_from => simp [step, Task.moved_from, is_settled]

end TaskResult

namespace TaskUnique

variable {T : Type}

theorem unique_flags_kept :
    World.FlagsKept (P := PromiseUnique T) (V := Option T) (fun _ => false)
      (fun _ => false) :=
  ⟨fun _ _ => ⟨rfl, rfl⟩, fun _ => ⟨rfl, rfl⟩⟩

theorem unique_move_out_later (t : Task) (w : World (PromiseUnique T) (Option T)) :
    World.WorldLater (fun _ => false) (fun _ => false) w
      (w.update_frame t.handle
        (fun f => { f with promise := { f.promise with value := none } })) :=
  World.update_frame_later _ _ w t.handle _ (fun _ => ⟨id, id, rfl⟩)

theorem unique_get_later (t : Task) (w : World (PromiseUnique T) (Option T)) :
    World.WorldLater (fun _ => false) (fun _ => false) w (get t w).2 := by
  have h1 : World.WorldLater (fun _ => false) (fun _ => false) w
      (if t.handle ≠ 0 ∧ (!w.done t.handle) = true then w.resume t.handle else w) := by
    split_ifs
    · exact World.resume_later _ _ unique_flags_kept t.handle w
    · exact World.worldLater_refl _ _ w
  unfold get
  dsimp only
  generalize (if t.handle ≠ 0 ∧ (!w.done t.handle) = true then w.resume t.handle else w) = w1
    at h1 ⊢
  split_ifs
  · exact h1
  · exact World.worldLater_trans h1 (unique_move_out_later t w1)

theorem unique_await_suspend_later (t : Task) (waiting_handle : Handle)
    (w : World (PromiseUnique T) (Option T)) :
    World.WorldLater (fun _ => false) (fun _ => false) w
      (await_suspend t waiting_handle w) := by
  unfold await_suspend
  split_ifs <;> exact World.worldLater_of_frames_eq _ _ rfl

theorem unique_await_resume_later (t : Task) (w : World (PromiseUnique T) (Option T)) :
    World.WorldLater (fun _ => false) (fun _ => false) w (await_resume t w).2 := by
  unfold await_resume
  split_ifs
  · exact World.worldLater_refl _ _ w
  · exact unique_move_out_later t w

theorem unique_is_settled_mono (t : Task) {w v : World (PromiseUnique T) (Option T)}
    (h : World.WorldLater (fun _ => false) (fun _ => false) w v)
    (hs : is_settled t w = true) : is_settled t v = true := by
  unfold is_settled at hs ⊢
  by_cases h0 : t.handle = 0
  · simp [h0]
  · simp only [h0, if_false] at hs ⊢
    rcases h t.handle with ⟨a, b⟩ | ⟨f, g, a, b, c1, _, _⟩
    · simp [World.done, a] at hs
    · simp only [World.done, a, b] at hs ⊢
      exact c1 hs

theorem unique_step_settled (op : TaskOp) (s : Task × World (PromiseUnique T) (Option T))
    (hs : is_settled s.1 s.2 = true) : is_settled (step op s).1 (step op s).2 = true := by
  cases op with
  | cancel => exact hs
  | get => exact unique_is_settled_mono s.1 (unique_get_later s.1 s.2) hs
  | await_ready => exact hs
  | await_suspend wh => exact unique_is_settled_mono s.1 (unique_await_suspend_later s.1 wh s.2) hs
  | await_resume => exact unique_is_settled_mono s.1 (unique_await_resume_later s.1 s.2) hs
  | resume h => exact unique_is_settled_mono s.1 (World.resume_later _ _ unique_flags_kept h s.2) hs
  | advance dt => exact unique_is_settled_mono s.1 (World.worldLater_of_frames_eq _ _ rfl) hs
  | moved_from => simp [step, Task.moved_from, is_settled]

end TaskUnique

/-- C6: a settled Task of any of the four variants stays settled through every sequence
of `cancel`, `get`, `await_ready`, `await_suspend`, `await_resume`, resumptions of any
coroutine (to its next suspension or to completion), passing of time and being moved
from. -/
theorem c6_settled_is_stable {T E : Type} [Inhabited T] [ResultErrors E]
    (ops : List TaskOp)
    (tT : Task) (wT : World (Promise T) T) (hT : Task.is_settled tT wT = true)
    (tV : Task) (wV : World PromiseVoid Unit) (hV : TaskVoid.is_settled tV wV = true)
    (tR : Task) (wR : World (PromiseResult T E) (Except E T))
    (hR : TaskResult.is_settled tR wR = true)
    (tU : Task) (wU : World (PromiseUnique T) (Option T))
    (hU : TaskUnique.is_settled tU wU = true) :
    Task.is_settled (Task.steps ops (tT, wT)).1 (Task.steps ops (tT, wT)).2 = true ∧
      TaskVoid.is_settled (TaskVoid.steps ops (tV, wV)).1
        (TaskVoid.steps ops (tV, wV)).2 = true ∧
      TaskResult.is_settled (TaskResult.steps ops (tR, wR)).1
        (TaskResult.steps ops (tR, wR)).2 = true ∧
      TaskUnique.is_settled (TaskUnique.steps ops (tU, wU)).1
        (TaskUnique.steps ops (tU, wU)).2 = true :=
  ⟨World.foldl_invariant Task.step (fun s => Task.is_settled s.1 s.2 = true)
      Task.task_step_settled ops (tT, wT) hT,
    World.foldl_invariant TaskVoid.step (fun s => TaskVoid.is_settled s.1 s.2 = true)
      TaskVoid.void_step_settled ops (tV, wV) hV,
    World.foldl_invariant TaskResult.step (fun s => TaskResult.is_settled s.1 s.2 = true)
      TaskResult.result_step_settled ops (tR, wR) hR,
    World.foldl_invariant TaskUnique.step (fun s => TaskUnique.is_settled s.1 s.2 = true)
      TaskUnique.unique_step_settled ops (tU, wU) hU⟩

/-- Witness for C6: tasks cancelled while suspended on `sleep_for(5)` (generic, void and
Result variants) and a completed `unique_ptr` task are settled, and still settled after
a resumption of the body to completion, `get`, a second `cancel` and being moved
from. -/
theorem c6_settled_is_stable_witness :
    (Task.is_settled ⟨1⟩ cancelled_sleeper = true ∧
        TaskVoid.is_settled ⟨1⟩ cancelled_sleeper_void = true ∧
        TaskResult.is_settled ⟨1⟩ cancelled_sleeper_result = true ∧
        TaskUnique.is_settled ⟨1⟩ finished_unique = true) ∧
      (Task.is_settled
          (Task.steps [TaskOp.resume 1, TaskOp.get, TaskOp.cancel, TaskOp.moved_from]
            (⟨1⟩, cancelled_sleeper)).1
          (Task.steps [TaskOp.resume 1, TaskOp.get, TaskOp.cancel, TaskOp.moved_from]
            (⟨1⟩, cancelled_sleeper)).2 = true ∧
        TaskVoid.is_settled
          (TaskVoid.steps [TaskOp.resume 1, TaskOp.get, TaskOp.cancel, TaskOp.moved_from]
            (⟨1⟩, cancelled_sleeper_void)).1
          (TaskVoid.steps [TaskOp.resume 1, TaskOp.get, TaskOp.cancel, TaskOp.moved_from]
            (⟨1⟩, cancelled_sleeper_void)).2 = true ∧
        TaskResult.is_settled
          (TaskResult.steps [TaskOp.resume 1, TaskOp.get, TaskOp.cancel, TaskOp.moved_from]
            (⟨1⟩, cancelled_sleeper_result)).1
          (TaskResult.steps [TaskOp.resume 1, TaskOp.get, TaskOp.cancel, TaskOp.moved_from]
            (⟨1⟩, cancelled_sleeper_result)).2 = true ∧
        TaskUnique.is_settled
          (TaskUnique.steps [TaskOp.resume 1, TaskOp.get, TaskOp.cancel, TaskOp.moved_from]
            (⟨1⟩, finished_unique)).1
          (TaskUnique.steps [TaskOp.resume 1, TaskOp.get, TaskOp.cancel, TaskOp.moved_from]
            (⟨1⟩, finished_unique)).2 = true) :=
  ⟨by decide,
    c6_settled_is_stable _ ⟨1⟩ cancelled_sleeper (by decide) ⟨1⟩ cancelled_sleeper_void
      (by decide) ⟨1⟩ cancelled_sleeper_result (by decide) ⟨1⟩ finished_unique (by decide)⟩

/-- C7 fails on the code: the body `co_await sleep_for(1); co_await sleep_for(1);
co_await sleep_for(1); co_return 42` is suspended at its first `co_await` with two more
suspension points ahead; the task is neither cancelled nor destroyed.  `get()` resumes
it once, the body suspends again, and `get()` (hence `sync_wait`) returns `int{}` = 0
with the coroutine not done and the result slot empty. -/
theorem c7_get_returns_before_completion :
    Task.is_cancelled ⟨1⟩ three_sleeps = false ∧
      (Task.promise ⟨1⟩ three_sleeps).is_destroyed = false ∧
      (three_sleeps.frames 1).map (fun f => (f.done, f.awaits, f.outcome)) =
        some (false, [1, 1], Outcome.ret 42) ∧
      (Task.get ⟨1⟩ three_sleeps).1 = 0 ∧
      (Task.sync_wait ⟨1⟩ three_sleeps).1 = 0 ∧
      (Task.get ⟨1⟩ three_sleeps).2.done 1 = false ∧
      (Task.promise ⟨1⟩ (Task.get ⟨1⟩ three_sleeps).2).value = none := by
  decide

/-- C8 fails on the code: the body `co_await sleep_for(10); co_return "ok"` started at
clock 0 is suspended with the timer `(10000000, 1)` registered (10 ms after clock 0, in nanoseconds).  `get()` at clock 0 resumes
it at once: the body completes and `get()` returns `"ok"` while the clock is still 0
and the timer entry is still in the queue. -/
theorem c8_get_resumes_before_deadline :
    one_sleep.timer_queue_ = [(10000000, 1)] ∧ one_sleep.now = 0 ∧
      one_sleep.done 1 = false ∧
      (Task.get ⟨1⟩ one_sleep).1 = "ok" ∧
      (Task.sync_wait ⟨1⟩ one_sleep).1 = "ok" ∧
      (Task.get ⟨1⟩ one_sleep).2.done 1 = true ∧
      (Task.get ⟨1⟩ one_sleep).2.now = 0 ∧
      (Task.get ⟨1⟩ one_sleep).2.timer_queue_ = [(10000000, 1)] := by
  decide

namespace CoroutineManager

variable {P V : Type}

theorem entry_le_refl (a : TimerEntry) : entry_le a a = true := by
  simp [entry_le]

theorem entry_le_trans {a b c : TimerEntry} (h1 : entry_le a b = true)
    (h2 : entry_le b c = true) : entry_le a c = true := by
  obtain ⟨a1, a2⟩ := a
  obtain ⟨b1, b2⟩ := b
  obtain ⟨c1, c2⟩ := c
  simp only [entry_le, Bool.or_eq_true, Bool.and_eq_true, decide_eq_true_eq] at *
  unfold Handle at *
  omega

theorem entry_le_total (a b : TimerEntry) : entry_le a b = true ∨ entry_le b a = true := by
  obtain ⟨a1, a2⟩ := a
  obtain ⟨b1, b2⟩ := b
  simp only [entry_le, Bool.or_eq_true, Bool.and_eq_true, decide_eq_true_eq]
  unfold Handle at *
  omega

theorem entry_le_deadline {a b : TimerEntry} (h : entry_le a b = true) : a.1 ≤ b.1 := by
  simp only [entry_le, Bool.or_eq_true, Bool.and_eq_true, decide_eq_true_eq] at h
  omega

theorem pq_top_eq_none {q : List TimerEntry} (h : pq_top q = none) : q = [] := by
  cases q with
  | nil => rfl
  | cons a q =>
    unfold pq_top at h
    split at h
    · cases h
    · split at h <;> cases h

/-- The top of the queue is an entry of the queue and is least in the queue order. -/
theorem pq_top_spec {q : List TimerEntry} {a : TimerEntry} (h : pq_top q = some a) :
    a ∈ q ∧ ∀ b ∈ q, entry_le a b = true := by
  induction q generalizing a with
  | nil => cases h
  | cons x q ih =>
    unfold pq_top at h
    split at h
    · rename_i hq
      cases h
      have := pq_top_eq_none hq
      subst this
      simp [entry_le_refl]
    · rename_i b hq
      obtain ⟨hb, hmin⟩ := ih hq
      split at h
      · rename_i hle
        cases h
        refine ⟨List.mem_cons_self _ _, ?_⟩
        intro c hc
        rcases List.mem_cons.mp hc with rfl | hc
        · exact entry_le_refl _
        · exact entry_le_trans hle (hmin c hc)
      · rename_i hle
        cases h
        refine ⟨List.mem_cons_of_mem _ hb, ?_⟩
        intro c hc
        rcases List.mem_cons.mp hc with rfl | hc
        · rcases entry_le_total c a with h1 | h1
          · exact absurd h1 hle
          · exact h1
        · exact hmin c hc

theorem remove_first_length {a : TimerEntry} {q : List TimerEntry} (h : a ∈ q) :
    (remove_first a q).length + 1 = q.length := by
  induction q with
  | nil => cases h
  | cons b q ih =>
    unfold remove_first
    by_cases hb : b = a
    · simp [hb]
    · have ha : a ∈ q := by
        rcases List.mem_cons.mp h with h1 | h1
        · exact absurd h1.symm hb
        · exact h1
      simp [hb, ih ha]

theorem remove_first_perm {a : TimerEntry} {q : List TimerEntry} (h : a ∈ q) :
    q.Perm (a :: remove_first a q) := by
  induction q with
  | nil => cases h
  | cons b q ih =>
    unfold remove_first
    by_cases hb : b = a
    · simp [hb]
    · have ha : a ∈ q := by
        rcases List.mem_cons.mp h with h1 | h1
        · exact absurd h1.symm hb
        · exact h1
      simp only [hb, if_false]
      exact ((ih ha).cons b).trans (List.Perm.swap a b _)

theorem remove_first_filter (p : TimerEntry → Bool) (a : TimerEntry) (hp : p a = false)
    (q : List TimerEntry) : (remove_first a q).filter p = q.filter p := by
  induction q with
  | nil => rfl
  | cons b q ih =>
    unfold remove_first
    by_cases hb : b = a
    · subst hb
      simp [hp]
    · simp [hb, List.filter_cons, ih]

theorem timer_loop_spec (is_done : Handle → Bool) (now : Int) (fuel : Nat) :
    ∀ (q : List TimerEntry) (ready : List Handle) (log : List Event), q.length ≤ fuel →
      ∃ popped : List TimerEntry,
        timer_loop is_done now fuel q ready log =
            (q.filter (fun e => decide (now < e.1)),
              ready ++ (popped.filter (fun e => decide (e.2 ≠ 0) && !is_done e.2)).map Prod.snd,
              log ++ popped.map (fun e => Event.timer_popped e.1 e.2)) ∧
          popped.Perm (q.filter (fun e => decide (e.1 ≤ now))) ∧
          popped.Pairwise (fun a b => a.1 ≤ b.1) := by
  induction fuel with
  | zero =>
    intro q ready log hlen
    have hq : q = [] := List.length_eq_zero.mp (Nat.le_zero.mp hlen)
    subst hq
    exact ⟨[], by simp [timer_loop], by simp, List.Pairwise.nil⟩
  | succ n ih =>
    intro q ready log hlen
    unfold timer_loop
    cases htop : pq_top q with
    | none =>
      have hq := pq_top_eq_none htop
      subst hq
      exact ⟨[], by simp, by simp, List.Pairwise.nil⟩
    | some e =>
      obtain ⟨hmem, hmin⟩ := pq_top_spec htop
      by_cases hexp : e.1 > now
      · have hall : ∀ b ∈ q, now < b.1 := fun b hb =>
          lt_of_lt_of_le hexp (entry_le_deadline (hmin b hb))
        refine ⟨[], ?_, ?_, List.Pairwise.nil⟩
        · simp only [hexp, if_true, List.filter_nil, List.map_nil, List.append_nil]
          rw [List.filter_eq_self.mpr (fun b hb => by simpa using hall b hb)]
        · rw [List.filter_eq_nil_iff.mpr (fun b hb => by simpa using hall b hb)]
      · have hle : e.1 ≤ now := not_lt.mp hexp
        have hpop : pq_pop q = remove_first e q := by simp [pq_pop, htop]
        have hlen2 : (pq_pop q).length ≤ n := by
          have := remove_first_length hmem
          rw [hpop]
          omega
        obtain ⟨popped, heq, hperm, hsorted⟩ :=
          ih (pq_pop q) (if e.2 ≠ 0 ∧ (!is_done e.2) = true then ready ++ [e.2] else ready)
            (log ++ [Event.timer_popped e.1 e.2]) hlen2
        rw [hpop] at heq hperm
        refine ⟨e :: popped, ?_, ?_, ?_⟩
        · simp only [hexp, if_false]
          rw [hpop, heq,
            remove_first_filter (fun e => decide (now < e.1)) e (by simpa using hle) q]
          by_cases hv : ¬e.2 = 0 ∧ is_done e.2 = false
          · simp [hv, List.filter_cons]
          · simp [hv, List.filter_cons]
        · have h1 : (q.filter (fun e => decide (e.1 ≤ now))).Perm
              ((e :: remove_first e q).filter (fun e => decide (e.1 ≤ now))) :=
            (remove_first_perm hmem).filter _
          have h2 : (e :: remove_first e q).filter (fun e => decide (e.1 ≤ now)) =
              e :: (remove_first e q).filter (fun e => decide (e.1 ≤ now)) := by
            simp [List.filter_cons, hle]
          rw [h2] at h1
          exact (List.Perm.cons e hperm).trans h1.symm
        · refine List.Pairwise.cons ?_ hsorted
          intro x hx
          have hx1 : x ∈ (remove_first e q).filter (fun e => decide (e.1 ≤ now)) :=
            hperm.mem_iff.mp hx
          have hx2 : x ∈ q :=
            ((remove_first_perm hmem).mem_iff.mpr
              (List.mem_cons_of_mem _ (List.mem_filter.mp hx1).1))
          exact entry_le_deadline (hmin x hx2)


/-- What `process_timer_queue` does to the two queues and the log, in terms of the list
of popped entries. -/
theorem process_timer_queue_spec (w : World P V) (log : List Event) :
    ∃ popped : List TimerEntry,
      (process_timer_queue (w, log)).1.timer_queue_ =
          w.timer_queue_.filter (fun e => decide (w.now < e.1)) ∧
        popped.Perm (w.timer_queue_.filter (fun e => decide (e.1 ≤ w.now))) ∧
        popped.Pairwise (fun a b => a.1 ≤ b.1) ∧
        (process_timer_queue (w, log)).1.ready_queue_ =
          w.ready_queue_ ++
            (popped.filter (fun e => decide (e.2 ≠ 0) && !w.done e.2)).map Prod.snd ∧
        (process_timer_queue (w, log)).2 =
          log ++ popped.map (fun e => Event.timer_popped e.1 e.2) := by
  obtain ⟨popped, heq, hperm, hsorted⟩ :=
    timer_loop_spec w.done w.now w.timer_queue_.length w.timer_queue_ w.ready_queue_ log
      (le_refl _)
  refine ⟨popped, ?_, hperm, hsorted, ?_, ?_⟩
  · simp only [process_timer_queue, heq]
  · simp only [process_timer_queue, heq]
  · simp only [process_timer_queue, heq]

/-- C9: `process_timer_queue` leaves in the timer queue exactly the entries with
deadline after `now`, in place; the entries it pops are the entries with deadline at
most `now`, popped in non-decreasing order of deadline; the ready queue is extended, in
that order, by the handles of the popped entries that are non-null and not done; the
rest of the state is untouched. -/
theorem c9_process_timer_queue (w : World P V) (log : List Event) :
    ∃ popped : List TimerEntry,
      (process_timer_queue (w, log)).1.timer_queue_ =
          w.timer_queue_.filter (fun e => decide (w.now < e.1)) ∧
        popped.Perm (w.timer_queue_.filter (fun e => decide (e.1 ≤ w.now))) ∧
        popped.Pairwise (fun a b => a.1 ≤ b.1) ∧
        (process_timer_queue (w, log)).1.ready_queue_ =
          w.ready_queue_ ++
            (popped.filter (fun e => decide (e.2 ≠ 0) && !w.done e.2)).map Prod.snd ∧
        (process_timer_queue (w, log)).2 =
          log ++ popped.map (fun e => Event.timer_popped e.1 e.2) ∧
        (process_timer_queue (w, log)).1.frames = w.frames ∧
        (process_timer_queue (w, log)).1.now = w.now ∧
        (process_timer_queue (w, log)).1.destroy_queue_ = w.destroy_queue_ ∧
        (process_timer_queue (w, log)).1.pool = w.pool := by
  obtain ⟨popped, h1, h2, h3, h4, h5⟩ := process_timer_queue_spec w log
  exact ⟨popped, h1, h2, h3, h4, h5, rfl, rfl, rfl, rfl⟩

theorem ready_loop_log (resume : Handle → World P V → World P V) (l : List Handle) :
    ∀ s : World P V × List Event,
      ∃ resumed : List Handle,
        (ready_loop resume l s).2 = s.2 ++ resumed.map Event.resumed ∧
          resumed.Sublist l := by
  induction l with
  | nil => intro s; exact ⟨[], by simp [ready_loop], List.Sublist.refl _⟩
  | cons h l ih =>
    intro s
    unfold ready_loop
    split_ifs with h0 hd
    · obtain ⟨r, hr, hsub⟩ := ih s
      exact ⟨r, hr, hsub.cons h⟩
    · obtain ⟨r, hr, hsub⟩ := ih s
      exact ⟨r, hr, hsub.cons h⟩
    · obtain ⟨r, hr, hsub⟩ := ih (resume h s.1, s.2 ++ [Event.resumed h])
      exact ⟨h :: r, by simp [hr], hsub.cons₂ h⟩

theorem destroy_loop_log (l : List Handle) :
    ∀ s : World P V × List Event,
      (destroy_loop l s).2 =
        s.2 ++ (l.filter (fun h => decide (h ≠ 0))).map Event.destroyed := by
  induction l with
  | nil => intro s; simp [destroy_loop]
  | cons h l ih =>
    intro s
    unfold destroy_loop
    split_ifs with h0
    · simp [ih, h0]
    · simp [ih, h0]

end CoroutineManager

/-! ## Theorems on destruction, cancellation and awaiting -/

namespace Promise

variable {T : Type}

theorem call_destroyed (c : Call T) (p : Promise T) (hd : p.is_destroyed_ = true) :
    call c p = p ∨ call c p = { p with is_cancelled_ := true } := by
  cases c with
  | return_value v => left; simp [call, Promise.return_value, hd]
  | unhandled_exception => left; simp [call, Promise.unhandled_exception, hd]
  | request_cancellation => right; rfl

theorem calls_destroyed (cs : List (Call T)) (p : Promise T) (hd : p.is_destroyed_ = true) :
    (calls cs p).is_destroyed_ = true ∧ (calls cs p).value = p.value ∧
      (calls cs p).has_error = p.has_error := by
  induction cs generalizing p with
  | nil => exact ⟨hd, rfl, rfl⟩
  | cons c cs ih =>
    have hstep : (call c p).is_destroyed_ = true ∧ (call c p).value = p.value ∧
        (call c p).has_error = p.has_error := by
      rcases call_destroyed c p hd with h | h <;> rw [h] <;> exact ⟨hd, rfl, rfl⟩
    obtain ⟨h1, h2, h3⟩ := ih (call c p) hstep.1
    exact ⟨h1, h2.trans hstep.2.1, h3.trans hstep.2.2⟩

/-- C13: once `is_destroyed_` is set on the promise of a `Task<T>`, `return_value(v)`
and `unhandled_exception()` leave the promise as it is, and after every later sequence
of `return_value`, `unhandled_exception` and `request_cancellation` calls the value
slot and the error marker are what they were, the flag is still set,
`safe_get_value()` is empty and `safe_has_error()` is false. -/
theorem c13_destroyed_promise_is_frozen (p : Promise T) (v : T) (cs : List (Call T))
    (hd : p.is_destroyed_ = true) :
    p.return_value v = p ∧ p.unhandled_exception = p ∧
      (calls cs p).value = p.value ∧ (calls cs p).has_error = p.has_error ∧
      (calls cs p).is_destroyed_ = true ∧
      (calls cs p).safe_get_value = none ∧ (calls cs p).safe_has_error = false := by
  obtain ⟨h1, h2, h3⟩ := calls_destroyed cs p hd
  refine ⟨by simp [Promise.return_value, hd], by simp [Promise.unhandled_exception, hd],
    h2, h3, h1, by simp [Promise.safe_get_value, h1], by simp [Promise.safe_has_error, h1]⟩

/-- Witness for C13: a destroyed promise holding 5, then `return_value(9)`,
`unhandled_exception()`, `request_cancellation()`. -/
theorem c13_destroyed_promise_is_frozen_witness :
    frozen_promise.is_destroyed_ = true ∧
      (frozen_promise.return_value 9 = frozen_promise ∧
        frozen_promise.unhandled_exception = frozen_promise ∧
        (calls [Call.return_value 9, Call.unhandled_exception, Call.request_cancellation]
          frozen_promise).value = frozen_promise.value ∧
        (calls [Call.return_value 9, Call.unhandled_exception, Call.request_cancellation]
          frozen_promise).has_error = frozen_promise.has_error ∧
        (calls [Call.return_value 9, Call.unhandled_exception, Call.request_cancellation]
          frozen_promise).is_destroyed_ = true ∧
        (calls [Call.return_value 9, Call.unhandled_exception, Call.request_cancellation]
          frozen_promise).safe_get_value = none ∧
        (calls [Call.return_value 9, Call.unhandled_exception, Call.request_cancellation]
          frozen_promise).safe_has_error = false) :=
  ⟨rfl, c13_destroyed_promise_is_frozen frozen_promise 9 _ rfl⟩

end Promise

namespace World

variable {P V : Type}

theorem set_frame_set_frame (w : World P V) (h : Handle) (a b : Option (Frame P V)) :
    (w.set_frame h a).set_frame h b = w.set_frame h b := by
  unfold World.set_frame
  simp only [World.mk.injEq, and_true, true_and]
  funext x
  by_cases hx : x = h <;> simp [hx]

theorem update_frame_idem (w : World P V) (h : Handle) (g : Frame P V → Frame P V)
    (hg : ∀ f, g (g f) = g f) :
    (w.update_frame h g).update_frame h g = w.update_frame h g := by
  cases hf : w.frames h with
  | none => simp [World.update_frame, hf]
  | some f =>
    have h1 : w.update_frame h g = w.set_frame h (some (g f)) := by
      simp [World.update_frame, hf]
    have h2 : (w.set_frame h (some (g f))).frames h = some (g f) := by
      simp [World.set_frame]
    rw [h1]
    simp only [World.update_frame, h2, hg, set_frame_set_frame]

end World

theorem task_cancel_idem {T : Type} (t : Task) (w : World (Promise T) T) :
    Task.cancel t (Task.cancel t w) = Task.cancel t w := by
  have key : ∀ u : World (Promise T) T,
      (u.update_frame t.handle
          (fun f => { f with promise := f.promise.request_cancellation })).update_frame
        t.handle (fun f => { f with promise := f.promise.request_cancellation }) =
      u.update_frame t.handle (fun f => { f with promise := f.promise.request_cancellation }) :=
    fun u => World.update_frame_idem u t.handle _ (fun _ => rfl)
  by_cases hc : t.handle ≠ 0 ∧ (!w.done t.handle) = true ∧ (!(t.promise w).is_destroyed) = true
  · have h1 : Task.cancel t w = w.update_frame t.handle
        (fun f => { f with promise := f.promise.request_cancellation }) := by
      unfold Task.cancel
      exact if_pos hc
    rw [h1]
    unfold Task.cancel
    split_ifs
    · exact key w
    · rfl
  · have h1 : Task.cancel t w = w := by
      unfold Task.cancel
      exact if_neg hc
    rw [h1, h1]

theorem void_cancel_idem (t : Task) (w : World PromiseVoid Unit) :
    TaskVoid.cancel t (TaskVoid.cancel t w) = TaskVoid.cancel t w := by
  have key : ∀ u : World PromiseVoid Unit,
      (u.update_frame t.handle
          (fun f => { f with promise := f.promise.request_cancellation })).update_frame
        t.handle (fun f => { f with promise := f.promise.request_cancellation }) =
      u.update_frame t.handle (fun f => { f with promise := f.promise.request_cancellation }) :=
    fun u => World.update_frame_idem u t.handle _ (fun _ => rfl)
  by_cases hc : t.handle ≠ 0 ∧ (!w.done t.handle) = true ∧
      (!(TaskVoid.promise t w).is_destroyed_) = true
  · have h1 : TaskVoid.cancel t w = w.update_frame t.handle
        (fun f => { f with promise := f.promise.request_cancellation }) := by
      unfold TaskVoid.cancel
      exact if_pos hc
    rw [h1]
    unfold TaskVoid.cancel
    split_ifs
    · exact key w
    · rfl
  · have h1 : TaskVoid.cancel t w = w := by
      unfold TaskVoid.cancel
      exact if_neg hc
    rw [h1, h1]

theorem result_cancel_idem {T E : Type} (t : Task)
    (w : World (PromiseResult T E) (Except E T)) :
    TaskResult.cancel t (TaskResult.cancel t w) = TaskResult.cancel t w := by
  have key : ∀ u : World (PromiseResult T E) (Except E T),
      (u.update_frame t.handle
          (fun f => { f with promise := f.promise.request_cancellation })).update_frame
        t.handle (fun f => { f with promise := f.promise.request_cancellation }) =
      u.update_frame t.handle (fun f => { f with promise := f.promise.request_cancellation }) :=
    fun u => World.update_frame_idem u t.handle _ (fun _ => rfl)
  by_cases hc : t.handle ≠ 0 ∧ (!w.done t.handle) = true ∧
      (!(TaskResult.promise t w).is_destroyed_) = true
  · have h1 : TaskResult.cancel t w = w.update_frame t.handle
        (fun f => { f with promise := f.promise.request_cancellation }) := by
      unfold TaskResult.cancel
      exact if_pos hc
    rw [h1]
    unfold TaskResult.cancel
    split_ifs
    · exact key w
    · rfl
  · have h1 : TaskResult.cancel t w = w := by
      unfold TaskResult.cancel
      exact if_neg hc
    rw [h1, h1]

/-- C15: in every state, for each Task variant that has `cancel` (generic, void,
Result), the state after two `cancel()` calls in a row is the state after one; hence
the flags, the result slot, `done` and every query (`is_pending`, `is_settled`,
`is_cancelled`, `is_active`) agree. -/
theorem c15_cancel_idempotent {T E : Type} (t : Task) (wT : World (Promise T) T)
    (wV : World PromiseVoid Unit) (wR : World (PromiseResult T E) (Except E T)) :
    (Task.cancel t (Task.cancel t wT) = Task.cancel t wT ∧
        Task.is_pending t (Task.cancel t (Task.cancel t wT)) =
          Task.is_pending t (Task.cancel t wT) ∧
        Task.is_settled t (Task.cancel t (Task.cancel t wT)) =
          Task.is_settled t (Task.cancel t wT) ∧
        Task.is_cancelled t (Task.cancel t (Task.cancel t wT)) =
          Task.is_cancelled t (Task.cancel t wT) ∧
        Task.is_active t (Task.cancel t (Task.cancel t wT)) =
          Task.is_active t (Task.cancel t wT)) ∧
      TaskVoid.cancel t (TaskVoid.cancel t wV) = TaskVoid.cancel t wV ∧
      TaskResult.cancel t (TaskResult.cancel t wR) = TaskResult.cancel t wR := by
  refine ⟨⟨task_cancel_idem t wT, ?_, ?_, ?_, ?_⟩, void_cancel_idem t wV,
    result_cancel_idem t wR⟩ <;> rw [task_cancel_idem]

theorem task_cancel_noop {T : Type} (t : Task) (w : World (Promise T) T)
    (h : t.handle = 0 ∨ w.done t.handle = true) : Task.cancel t w = w := by
  unfold Task.cancel
  rcases h with h | h <;> simp [h]

theorem void_cancel_noop (t : Task) (w : World PromiseVoid Unit)
    (h : t.handle = 0 ∨ w.done t.handle = true) : TaskVoid.cancel t w = w := by
  unfold TaskVoid.cancel
  rcases h with h | h <;> simp [h]

theorem result_cancel_noop {T E : Type} (t : Task)
    (w : World (PromiseResult T E) (Except E T))
    (h : t.handle = 0 ∨ w.done t.handle = true) : TaskResult.cancel t w = w := by
  unfold TaskResult.cancel
  rcases h with h | h <;> simp [h]

/-- C16: on a Task (generic, void or Result variant) whose handle is null or whose
coroutine is done, `cancel()` changes nothing: the state is the same, so the cancel
flag and `is_cancelled()` are what they were (false stays false) and `get()` returns
what it returned before. -/
theorem c16_cancel_after_completion_is_noop {T E : Type} [Inhabited T] [ResultErrors E]
    (tT : Task) (wT : World (Promise T) T)
    (hT : tT.handle = 0 ∨ wT.done tT.handle = true)
    (tV : Task) (wV : World PromiseVoid Unit)
    (hV : tV.handle = 0 ∨ wV.done tV.handle = true)
    (tR : Task) (wR : World (PromiseResult T E) (Except E T))
    (hR : tR.handle = 0 ∨ wR.done tR.handle = true) :
    (Task.cancel tT wT = wT ∧
        (Task.promise tT (Task.cancel tT wT)).is_cancelled_ =
          (Task.promise tT wT).is_cancelled_ ∧
        Task.is_cancelled tT (Task.cancel tT wT) = Task.is_cancelled tT wT ∧
        (Task.get tT (Task.cancel tT wT)).1 = (Task.get tT wT).1) ∧
      (TaskVoid.cancel tV wV = wV ∧
        TaskVoid.is_cancelled tV (TaskVoid.cancel tV wV) = TaskVoid.is_cancelled tV wV ∧
        TaskVoid.get tV (TaskVoid.cancel tV wV) = TaskVoid.get tV wV) ∧
      (TaskResult.cancel tR wR = wR ∧
        TaskResult.is_cancelled tR (TaskResult.cancel tR wR) =
          TaskResult.is_cancelled tR wR ∧
        TaskResult.get tR (TaskResult.cancel tR wR) = TaskResult.get tR wR) := by
  rw [task_cancel_noop tT wT hT, void_cancel_noop tV wV hV, result_cancel_noop tR wR hR]
  exact ⟨⟨rfl, rfl, rfl, rfl⟩, ⟨rfl, rfl, rfl⟩, ⟨rfl, rfl, rfl⟩⟩

/-- C20: `Task<T>::await_resume()` returns the stored value when the handle is
non-null, the promise is not destroyed, the error marker is clear and the slot holds a
value, and `T{}` in every other case; it is a total function, nothing is raised. -/
theorem c20_await_resume_value_or_default {T : Type} [Inhabited T] (t : Task)
    (w : World (Promise T) T) :
    Task.await_resume t w =
      if t.handle ≠ 0 ∧ (Task.promise t w).is_destroyed_ = false ∧
          (Task.promise t w).has_error = false then
        match (Task.promise t w).value with
        | some v => v
        | none => default
      else default := by
  unfold Task.await_resume
  by_cases h0 : t.handle = 0
  · simp [h0]
  · cases hd : (Task.promise t w).is_destroyed_ <;>
      cases he : (Task.promise t w).has_error <;>
      simp [h0, hd, he, Promise.is_destroyed, Promise.safe_has_error, Promise.safe_get_value]

namespace World

variable {P V : Type}

theorem keeps_refl (Q : Frame P V → Prop) (w : World P V) : Keeps Q w w :=
  fun _ f hf hq => ⟨f, hf, hq⟩

theorem keeps_trans {Q : Frame P V → Prop} {w v u : World P V} (h1 : Keeps Q w v)
    (h2 : Keeps Q v u) : Keeps Q w u := by
  intro x f hf hq
  obtain ⟨g, hg, hqg⟩ := h1 x f hf hq
  exact h2 x g hg hqg

theorem keeps_of_frames_eq (Q : Frame P V → Prop) {w v : World P V}
    (h : v.frames = w.frames) : Keeps Q w v := by
  intro x f hf hq
  exact ⟨f, by rw [h]; exact hf, hq⟩

theorem update_frame_keeps (Q : Frame P V → Prop) (w : World P V) (h : Handle)
    (g : Frame P V → Frame P V) (hg : ∀ f, Q f → Q (g f)) :
    Keeps Q w (w.update_frame h g) := by
  unfold World.update_frame
  cases hf : w.frames h with
  | none => exact keeps_refl Q w
  | some f0 =>
    intro x f hx hq
    by_cases hxh : x = h
    · subst hxh
      rw [hf] at hx
      cases hx
      exact ⟨g f0, by simp [World.set_frame], hg f0 hq⟩
    · exact ⟨f, by simpa [World.set_frame, hxh] using hx, hq⟩

theorem run_body_keeps [PromiseType P V] (Q : Frame P V → Prop) (hb : BodyStable Q)
    (h : Handle) (aw : List Int) (w : World P V) : Keeps Q w (w.run_body h aw) := by
  induction aw generalizing w with
  | nil => exact update_frame_keeps Q w h _ hb.1
  | cons a rest ih =>
    unfold World.run_body
    by_cases hd : a ≤ 0
    · simp [CoroutineFriendlySleepAwaiter.await_ready, hd]
      exact ih w
    · simp [CoroutineFriendlySleepAwaiter.await_ready,
        CoroutineFriendlySleepAwaiter.await_suspend, hd]
      refine keeps_trans (v := CoroutineManager.add_timer (CoroutineFriendlySleepAwaiter.when w.now a) h w)
        (keeps_of_frames_eq Q rfl) ?_
      exact update_frame_keeps Q _ h _ (fun f hq => hb.2 f rest hq)

theorem resume_keeps [PromiseType P V] (Q : Frame P V → Prop) (hb : BodyStable Q)
    (h : Handle) (w : World P V) : Keeps Q w (w.resume h) := by
  unfold World.resume
  cases hf : w.frames h with
  | none => exact keeps_refl Q w
  | some f =>
    by_cases hd : f.done = true
    · simp [hd]; exact keeps_refl Q w
    · simp [hd]; exact run_body_keeps Q hb h f.awaits w

/-- The frame made by `spawn` is live afterwards and satisfies every body-stable
predicate that the new frame satisfies. -/
theorem spawn_keeps [PromiseType P V] (Q : Frame P V → Prop) (hb : BodyStable Q)
    (h : Handle) (promise : P) (awaits : List Int) (outcome : Outcome V) (w : World P V)
    (hq : Q { promise := promise, done := false, awaits := awaits, outcome := outcome }) :
    ∃ g, (w.spawn h promise awaits outcome).frames h = some g ∧ Q g := by
  unfold World.spawn
  exact run_body_keeps Q hb h awaits _ h _ (by simp [World.set_frame]) hq

end World

namespace Task

variable {T : Type}

theorem task_cancel_keeps (Q : Frame (Promise T) T → Prop)
    (hc : ∀ f, Q f → Q { f with promise := f.promise.request_cancellation })
    (t : Task) (w : World (Promise T) T) : World.Keeps Q w (t.cancel w) := by
  unfold Task.cancel
  split
  · exact World.update_frame_keeps Q w t.handle _ hc
  · exact World.keeps_refl Q w

theorem task_get_keeps [Inhabited T] (Q : Frame (Promise T) T → Prop)
    (hb : World.BodyStable Q) (t : Task) (w : World (Promise T) T) :
    World.Keeps Q w (t.get w).2 := by
  rcases task_get_world t w with h | h <;> rw [h]
  · exact World.keeps_refl Q w
  · exact World.resume_keeps Q hb t.handle w

theorem task_await_suspend_keeps (Q : Frame (Promise T) T → Prop) (t : Task)
    (waiting_handle : Handle) (w : World (Promise T) T) :
    World.Keeps Q w (t.await_suspend waiting_handle w).2 := by
  unfold Task.await_suspend
  split_ifs
  · exact World.keeps_refl Q w
  · exact World.keeps_refl Q w
  · exact World.keeps_of_frames_eq Q (World.schedule_resume_frames t.handle w)

theorem task_step_keeps [Inhabited T] (Q : Frame (Promise T) T → Prop)
    (hb : World.BodyStable Q)
    (hc : ∀ f, Q f → Q { f with promise := f.promise.request_cancellation })
    (op : TaskOp) (s : Task × World (Promise T) T) : World.Keeps Q s.2 (step op s).2 := by
  cases op with
  | cancel => exact task_cancel_keeps Q hc s.1 s.2
  | get => exact task_get_keeps Q hb s.1 s.2
  | await_ready => exact World.keeps_refl Q s.2
  | await_suspend wh => exact task_await_suspend_keeps Q s.1 wh s.2
  | await_resume => exact World.keeps_refl Q s.2
  | resume h => exact World.resume_keeps Q hb h s.2
  | advance dt => exact World.keeps_of_frames_eq Q rfl
  | moved_from => exact World.keeps_refl Q s.2

theorem task_steps_keeps [Inhabited T] (Q : Frame (Promise T) T → Prop)
    (hb : World.BodyStable Q)
    (hc : ∀ f, Q f → Q { f with promise := f.promise.request_cancellation })
    (ops : List TaskOp) (s : Task × World (Promise T) T) :
    World.Keeps Q s.2 (steps ops s).2 := by
  unfold steps
  induction ops generalizing s with
  | nil => exact World.keeps_refl Q s.2
  | cons op rest ih =>
    exact World.keeps_trans (task_step_keeps Q hb hc op s) (ih (step op s))

theorem task_step_handle [Inhabited T] (op : TaskOp) (s : Task × World (Promise T) T) :
    (step op s).1 = s.1 ∨ ((step op s).1.handle = 0 ∧ op = TaskOp.moved_from) := by
  cases op <;> simp [step, Task.moved_from]

theorem task_steps_handle [Inhabited T] (ops : List TaskOp) (s : Task × World (Promise T) T) :
    ((steps ops s).1 = s.1 ∨ (steps ops s).1.handle = 0) ∧
      (TaskOp.moved_from ∉ ops → (steps ops s).1 = s.1) := by
  unfold steps
  induction ops generalizing s with
  | nil => exact ⟨Or.inl rfl, fun _ => rfl⟩
  | cons op rest ih =>
    obtain ⟨h1, h2⟩ := ih (step op s)
    simp only [List.foldl_cons]
    constructor
    · rcases h1 with h1 | h1
      · rcases task_step_handle op s with h3 | ⟨h3, _⟩
        · left; rw [h1, h3]
        · right; rw [h1]; exact h3
      · exact Or.inr h1
    · intro hn
      have hop : op ≠ TaskOp.moved_from := fun h => hn (by simp [h])
      have hrest : TaskOp.moved_from ∉ rest := fun h => hn (List.mem_cons_of_mem _ h)
      rw [h2 hrest]
      rcases task_step_handle op s with h3 | ⟨_, h3⟩
      · exact h3
      · exact absurd h3 hop

end Task

namespace Task

variable {T : Type}

theorem slotEmptyUntilDone_stable :
    World.BodyStable (SlotEmptyUntilDone (T := T)) ∧
      ∀ f : Frame (Promise T) T, SlotEmptyUntilDone f →
        SlotEmptyUntilDone { f with promise := f.promise.request_cancellation } := by
  refine ⟨⟨fun f hq => ⟨?_, fun h => ?_⟩, fun f rest hq => hq⟩, fun f hq => hq⟩
  · have := (task_flags_kept (T := T))
    unfold Frame.finish
    cases f.outcome with
    | ret v => exact ((this.1 v f.promise).2).trans hq.1
    | throw => exact ((this.2 f.promise).2).trans hq.1
  · simp [Frame.finish] at h

theorem cancelledEmpty_stable :
    World.BodyStable (CancelledEmpty (T := T)) ∧
      ∀ f : Frame (Promise T) T, CancelledEmpty f →
        CancelledEmpty { f with promise := f.promise.request_cancellation } := by
  refine ⟨⟨fun f hq => ?_, fun f rest hq => hq⟩, fun f hq => ⟨hq.1, rfl, hq.2.2⟩⟩
  obtain ⟨h1, h2, h3⟩ := hq
  unfold Frame.finish CancelledEmpty
  cases f.outcome with
  | ret v =>
    simp [PromiseType.return_value, Promise.return_value, h1, h2, h3]
  | throw =>
    simp [PromiseType.unhandled_exception, Promise.unhandled_exception, h1, h2, h3]

theorem valueOnlyWhenDone_stable :
    World.BodyStable (ValueOnlyWhenDone (T := T)) ∧
      ∀ f : Frame (Promise T) T, ValueOnlyWhenDone f →
        ValueOnlyWhenDone { f with promise := f.promise.request_cancellation } :=
  ⟨⟨fun _ _ _ => rfl, fun _ _ hq => hq⟩, fun _ hq => hq⟩

/-- A `get()` on a task whose frame is live, cancelled and with an empty slot returns
`T{}`. -/
theorem task_get_of_cancelledEmpty [Inhabited T] (t : Task) (w : World (Promise T) T)
    (h0 : t.handle ≠ 0) (f : Frame (Promise T) T) (hf : w.frames t.handle = some f)
    (hq : CancelledEmpty f) : (t.get w).1 = default := by
  obtain ⟨h1, h2, h3⟩ := hq
  have hp : t.promise w = f.promise := by simp [Task.promise, hf]
  unfold Task.get
  simp only [h0, if_false, hp, Promise.is_destroyed, Promise.is_cancelled, h1, h2,
    Bool.not_true, Bool.and_false]
  simp only [Bool.false_eq_true, if_false, hp, Promise.safe_has_error, h1,
    Promise.safe_get_value, h3]
  split_ifs <;> rfl

/-- The core of C14 for `Task<T>`: a task made by `spawn`, taken through any
operations, then cancelled while its body has not completed, then taken through any
further operations (not moved from), has an empty result slot and `get()` returns
`T{}`. -/
theorem task_cancel_gates_result [Inhabited T] (w0 : World (Promise T) T) (h : Handle)
    (awaits : List Int) (outcome : Outcome T) (ops1 ops2 : List TaskOp)
    (s1 s2 : Task × World (Promise T) T)
    (hs1 : s1 = steps ops1 (⟨h⟩, w0.spawn h Promise.fresh awaits outcome))
    (hlive : s1.1.handle ≠ 0) (hnd : s1.2.done s1.1.handle = false)
    (hs2 : s2 = steps ops2 (s1.1, Task.cancel s1.1 s1.2))
    (hnm : TaskOp.moved_from ∉ ops2) :
    (Task.promise s2.1 s2.2).value = none ∧ (Task.get s2.1 s2.2).1 = default := by
  have ht1 : s1.1 = ⟨h⟩ := by
    rcases (task_steps_handle ops1 (⟨h⟩, w0.spawn h Promise.fresh awaits outcome)).1
      with h1 | h1
    · rw [← hs1] at h1; exact h1
    · rw [← hs1] at h1; exact absurd h1 hlive
  obtain ⟨g0, hg0, hq0⟩ := World.spawn_keeps SlotEmptyUntilDone
    slotEmptyUntilDone_stable.1 h Promise.fresh awaits outcome w0
    ⟨rfl, fun _ => rfl⟩
  obtain ⟨g1, hg1, hq1⟩ := task_steps_keeps SlotEmptyUntilDone
    slotEmptyUntilDone_stable.1 slotEmptyUntilDone_stable.2 ops1
    (⟨h⟩, w0.spawn h Promise.fresh awaits outcome) h g0 hg0 hq0
  rw [← hs1] at hg1
  have hh1 : s1.1.handle = h := by rw [ht1]
  rw [hh1] at hnd
  have hd1 : g1.done = false := by simpa [World.done, hg1] using hnd
  have hh0 : h ≠ 0 := by rw [← hh1]; exact hlive
  have hcancel : ∃ g2, (Task.cancel s1.1 s1.2).frames h = some g2 ∧ CancelledEmpty g2 := by
    refine ⟨{ g1 with promise := g1.promise.request_cancellation }, ?_,
      ⟨hq1.1, rfl, hq1.2 hd1⟩⟩
    have hp : Task.promise s1.1 s1.2 = g1.promise := by simp [Task.promise, hh1, hg1]
    unfold Task.cancel
    simp [hh1, hh0, World.done, hg1, hd1, hp, Promise.is_destroyed, hq1.1,
      World.update_frame, World.set_frame]
  obtain ⟨g2, hg2, hq2⟩ := hcancel
  obtain ⟨g3, hg3, hq3⟩ := task_steps_keeps CancelledEmpty cancelledEmpty_stable.1
    cancelledEmpty_stable.2 ops2 (s1.1, Task.cancel s1.1 s1.2) h g2 hg2 hq2
  have ht3 := (task_steps_handle ops2 (s1.1, Task.cancel s1.1 s1.2)).2 hnm
  rw [← hs2] at hg3 ht3
  have hh3 : s2.1.handle = h := by rw [ht3]; exact hh1
  refine ⟨?_, task_get_of_cancelledEmpty s2.1 s2.2 (by rw [hh3]; exact hh0) g3
    (by rw [hh3]; exact hg3) hq3⟩
  simp [Task.promise, hh3, hg3, hq3.2.2]

end Task

namespace TaskResult

variable {T E : Type}

theorem resultEmptyUntilDone_stable [ResultErrors E] :
    World.BodyStable (ResultEmptyUntilDone (T := T) (E := E)) ∧
      ∀ f : Frame (PromiseResult T E) (Except E T), ResultEmptyUntilDone f →
        ResultEmptyUntilDone { f with promise := f.promise.request_cancellation } := by
  refine ⟨⟨fun f hq => ⟨?_, fun h => ?_⟩, fun f rest hq => hq⟩, fun f hq => hq⟩
  · have := (result_flags_kept (T := T) (E := E))
    unfold Frame.finish
    cases f.outcome with
    | ret v => exact ((this.1 v f.promise).2).trans hq.1
    | throw => exact ((this.2 f.promise).2).trans hq.1
  · simp [Frame.finish] at h

theorem cancelledLive_stable [ResultErrors E] :
    World.BodyStable (CancelledLive (T := T) (E := E)) ∧
      ∀ f : Frame (PromiseResult T E) (Except E T), CancelledLive f →
        CancelledLive { f with promise := f.promise.request_cancellation } := by
  refine ⟨⟨fun f hq => ?_, fun f rest hq => hq⟩, fun f hq => ⟨hq.1, rfl, hq.2.2⟩⟩
  obtain ⟨h1, h2, h3⟩ := hq
  unfold Frame.finish CancelledLive
  cases f.outcome with
  | ret v =>
    simpa [PromiseType.return_value, PromiseResult.return_value, h1, h2] using h3
  | throw =>
    simp [PromiseType.unhandled_exception, PromiseResult.unhandled_exception, h1, h2]

theorem result_cancel_keeps (Q : Frame (PromiseResult T E) (Except E T) → Prop)
    (hc : ∀ f, Q f → Q { f with promise := f.promise.request_cancellation })
    (t : Task) (w : World (PromiseResult T E) (Except E T)) :
    World.Keeps Q w (cancel t w) := by
  unfold cancel
  split
  · exact World.update_frame_keeps Q w t.handle _ hc
  · exact World.keeps_refl Q w

theorem result_await_suspend_keeps (Q : Frame (PromiseResult T E) (Except E T) → Prop)
    (t : Task) (waiting_handle : Handle) (w : World (PromiseResult T E) (Except E T)) :
    World.Keeps Q w (await_suspend t waiting_handle w) := by
  unfold await_suspend
  split_ifs
  · exact World.keeps_of_frames_eq Q rfl
  · exact World.keeps_refl Q w

theorem result_step_keeps [ResultErrors E]
    (Q : Frame (PromiseResult T E) (Except E T) → Prop) (hb : World.BodyStable Q)
    (hc : ∀ f, Q f → Q { f with promise := f.promise.request_cancellation })
    (op : TaskOp) (s : Task × World (PromiseResult T E) (Except E T)) :
    World.Keeps Q s.2 (step op s).2 := by
  cases op with
  | cancel => exact result_cancel_keeps Q hc s.1 s.2
  | get => exact World.keeps_refl Q s.2
  | await_ready => exact World.keeps_refl Q s.2
  | await_suspend wh => exact result_await_suspend_keeps Q s.1 wh s.2
  | await_resume => exact World.keeps_refl Q s.2
  | resume h => exact World.resume_keeps Q hb h s.2
  | advance dt => exact World.keeps_of_frames_eq Q rfl
  | moved_from => exact World.keeps_refl Q s.2

theorem result_steps_keeps [ResultErrors E]
    (Q : Frame (PromiseResult T E) (Except E T) → Prop) (hb : World.BodyStable Q)
    (hc : ∀ f, Q f → Q { f with promise := f.promise.request_cancellation })
    (ops : List TaskOp) (s : Task × World (PromiseResult T E) (Except E T)) :
    World.Keeps Q s.2 (steps ops s).2 := by
  unfold steps
  induction ops generalizing s with
  | nil => exact World.keeps_refl Q s.2
  | cons op rest ih =>
    exact World.keeps_trans (result_step_keeps Q hb hc op s) (ih (step op s))

theorem result_step_handle [ResultErrors E] (op : TaskOp)
    (s : Task × World (PromiseResult T E) (Except E T)) :
    (step op s).1 = s.1 ∨ ((step op s).1.handle = 0 ∧ op = TaskOp.moved_from) := by
  cases op <;> simp [step, Task.moved_from]

theorem result_steps_handle [ResultErrors E] (ops : List TaskOp)
    (s : Task × World (PromiseResult T E) (Except E T)) :
    ((steps ops s).1 = s.1 ∨ (steps ops s).1.handle = 0) ∧
      (TaskOp.moved_from ∉ ops → (steps ops s).1 = s.1) := by
  unfold steps
  induction ops generalizing s with
  | nil => exact ⟨Or.inl rfl, fun _ => rfl⟩
  | cons op rest ih =>
    obtain ⟨h1, h2⟩ := ih (step op s)
    simp only [List.foldl_cons]
    constructor
    · rcases h1 with h1 | h1
      · rcases result_step_handle op s with h3 | ⟨h3, _⟩
        · left; rw [h1, h3]
        · right; rw [h1]; exact h3
      · exact Or.inr h1
    · intro hn
      have hop : op ≠ TaskOp.moved_from := fun h => hn (by simp [h])
      have hrest : TaskOp.moved_from ∉ rest := fun h => hn (List.mem_cons_of_mem _ h)
      rw [h2 hrest]
      rcases result_step_handle op s with h3 | ⟨_, h3⟩
      · exact h3
      · exact absurd h3 hop

/-- On a task whose frame is live, not marked destroyed and cancelled,
`is_rejected()` is true and `is_fulfilled()` is false. -/
theorem result_rejected_of_cancelledLive [ResultErrors E] (t : Task)
    (w : World (PromiseResult T E) (Except E T)) (h0 : t.handle ≠ 0)
    (f : Frame (PromiseResult T E) (Except E T)) (hf : w.frames t.handle = some f)
    (hq : CancelledLive f) :
    is_rejected t w = true ∧ is_fulfilled t w = false ∧ is_cancelled t w = true := by
  have hp : promise t w = f.promise := by simp [promise, hf]
  have hc : is_cancelled t w = true := by
    simp [is_cancelled, h0, hp, hq.1, hq.2.1]
  exact ⟨by simp [is_rejected, h0, hc], by simp [is_fulfilled, hc], hc⟩

/-- The core of C14 for `Task<Result<T,E>>`: a task made by `spawn`, taken through any
operations, then cancelled while its body has not completed, then taken through any
further operations (not moved from), is rejected and not fulfilled, and its result slot
is empty or holds the error of `unhandled_exception`. -/
theorem result_cancel_rejects [ResultErrors E]
    (w0 : World (PromiseResult T E) (Except E T)) (h : Handle)
    (awaits : List Int) (outcome : Outcome (Except E T)) (ops1 ops2 : List TaskOp)
    (s1 s2 : Task × World (PromiseResult T E) (Except E T))
    (hs1 : s1 = steps ops1 (⟨h⟩, w0.spawn h PromiseResult.fresh awaits outcome))
    (hlive : s1.1.handle ≠ 0) (hnd : s1.2.done s1.1.handle = false)
    (hs2 : s2 = steps ops2 (s1.1, cancel s1.1 s1.2))
    (hnm : TaskOp.moved_from ∉ ops2) :
    is_rejected s2.1 s2.2 = true ∧ is_fulfilled s2.1 s2.2 = false ∧
      ((promise s2.1 s2.2).result = none ∨
        (promise s2.1 s2.2).result = some (Except.error ResultErrors.unknown_error)) := by
  have ht1 : s1.1 = ⟨h⟩ := by
    rcases (result_steps_handle ops1 (⟨h⟩, w0.spawn h PromiseResult.fresh awaits outcome)).1
      with h1 | h1
    · rw [← hs1] at h1; exact h1
    · rw [← hs1] at h1; exact absurd h1 hlive
  obtain ⟨g0, hg0, hq0⟩ := World.spawn_keeps ResultEmptyUntilDone
    (resultEmptyUntilDone_stable (T := T) (E := E)).1 h PromiseResult.fresh awaits outcome w0
    ⟨rfl, fun _ => rfl⟩
  obtain ⟨g1, hg1, hq1⟩ := result_steps_keeps ResultEmptyUntilDone
    resultEmptyUntilDone_stable.1 resultEmptyUntilDone_stable.2 ops1
    (⟨h⟩, w0.spawn h PromiseResult.fresh awaits outcome) h g0 hg0 hq0
  rw [← hs1] at hg1
  have hh1 : s1.1.handle = h := by rw [ht1]
  rw [hh1] at hnd
  have hd1 : g1.done = false := by simpa [World.done, hg1] using hnd
  have hh0 : h ≠ 0 := by rw [← hh1]; exact hlive
  have hcancel : ∃ g2, (cancel s1.1 s1.2).frames h = some g2 ∧ CancelledLive g2 := by
    refine ⟨{ g1 with promise := g1.promise.request_cancellation }, ?_,
      ⟨hq1.1, rfl, Or.inl (hq1.2 hd1)⟩⟩
    have hp : promise s1.1 s1.2 = g1.promise := by simp [promise, hh1, hg1]
    unfold cancel
    simp [hh1, hh0, World.done, hg1, hd1, hp, hq1.1, World.update_frame, World.set_frame]
  obtain ⟨g2, hg2, hq2⟩ := hcancel
  obtain ⟨g3, hg3, hq3⟩ := result_steps_keeps CancelledLive cancelledLive_stable.1
    cancelledLive_stable.2 ops2 (s1.1, cancel s1.1 s1.2) h g2 hg2 hq2
  have ht3 := (result_steps_handle ops2 (s1.1, cancel s1.1 s1.2)).2 hnm
  rw [← hs2] at hg3 ht3
  have hh3 : s2.1.handle = h := by rw [ht3]; exact hh1
  have := result_rejected_of_cancelledLive s2.1 s2.2 (by rw [hh3]; exact hh0) g3
    (by rw [hh3]; exact hg3) hq3
  refine ⟨this.1, this.2.1, ?_⟩
  have hp3 : promise s2.1 s2.2 = g3.promise := by simp [promise, hh3, hg3]
  rw [hp3]
  exact hq3.2.2

end TaskResult


/-- C14: a Task made by a coroutine call, taken through any operations, on which
`cancel()` is then called while its body has not completed, and which is then taken
through any further operations (resumptions to completion included), never has the
body's return value stored: for `Task<T>` the result slot stays empty and `get()` /
`sync_wait` return `T{}`; for `Task<Result<T,E>>` the slot is empty or holds the error
of `unhandled_exception`, `is_rejected()` is true and `is_fulfilled()` is false. -/
theorem c14_cancel_gates_result {T E : Type} [Inhabited T] [ResultErrors E]
    (ops1 ops2 : List TaskOp) (hnm : TaskOp.moved_from ∉ ops2)
    (wT : World (Promise T) T) (hT : Handle) (awaitsT : List Int) (outcomeT : Outcome T)
    (sT1 sT2 : Task × World (Promise T) T)
    (hT1 : sT1 = Task.steps ops1 (⟨hT⟩, wT.spawn hT Promise.fresh awaitsT outcomeT))
    (hTlive : sT1.1.handle ≠ 0) (hTnd : sT1.2.done sT1.1.handle = false)
    (hT2 : sT2 = Task.steps ops2 (sT1.1, Task.cancel sT1.1 sT1.2))
    (wR : World (PromiseResult T E) (Except E T)) (hR : Handle) (awaitsR : List Int)
    (outcomeR : Outcome (Except E T))
    (sR1 sR2 : Task × World (PromiseResult T E) (Except E T))
    (hR1 : sR1 =
      TaskResult.steps ops1 (⟨hR⟩, wR.spawn hR PromiseResult.fresh awaitsR outcomeR))
    (hRlive : sR1.1.handle ≠ 0) (hRnd : sR1.2.done sR1.1.handle = false)
    (hR2 : sR2 = TaskResult.steps ops2 (sR1.1, TaskResult.cancel sR1.1 sR1.2)) :
    ((Task.promise sT2.1 sT2.2).value = none ∧ (Task.get sT2.1 sT2.2).1 = default ∧
        (Task.sync_wait sT2.1 sT2.2).1 = default) ∧
      (TaskResult.is_rejected sR2.1 sR2.2 = true ∧
        TaskResult.is_fulfilled sR2.1 sR2.2 = false ∧
        ((TaskResult.promise sR2.1 sR2.2).result = none ∨
          (TaskResult.promise sR2.1 sR2.2).result =
            some (Except.error ResultErrors.unknown_error))) := by
  have h1 := Task.task_cancel_gates_result wT hT awaitsT outcomeT ops1 ops2 sT1 sT2 hT1
    hTlive hTnd hT2 hnm
  exact ⟨⟨h1.1, h1.2, h1.2⟩,
    TaskResult.result_cancel_rejects wR hR awaitsR outcomeR ops1 ops2 sR1 sR2 hR1 hRlive
      hRnd hR2 hnm⟩

/-- Witness for C14: tasks sleeping 5 at address 1, cancelled at once, then resumed to
completion and asked with `get`. -/
theorem c14_cancel_gates_result_witness :
    (TaskOp.moved_from ∉ [TaskOp.resume 1, TaskOp.get] ∧
      sleeper.done 1 = false ∧ sleeper_result.done 1 = false) ∧
    (((Task.promise
          (Task.steps [TaskOp.resume 1, TaskOp.get] (⟨1⟩, cancelled_sleeper)).1
          (Task.steps [TaskOp.resume 1, TaskOp.get] (⟨1⟩, cancelled_sleeper)).2).value =
          none ∧
        (Task.get
          (Task.steps [TaskOp.resume 1, TaskOp.get] (⟨1⟩, cancelled_sleeper)).1
          (Task.steps [TaskOp.resume 1, TaskOp.get] (⟨1⟩, cancelled_sleeper)).2).1 =
          default ∧
        (Task.sync_wait
          (Task.steps [TaskOp.resume 1, TaskOp.get] (⟨1⟩, cancelled_sleeper)).1
          (Task.steps [TaskOp.resume 1, TaskOp.get] (⟨1⟩, cancelled_sleeper)).2).1 =
          default) ∧
      (TaskResult.is_rejected
          (TaskResult.steps [TaskOp.resume 1, TaskOp.get]
            (⟨1⟩, cancelled_sleeper_result)).1
          (TaskResult.steps [TaskOp.resume 1, TaskOp.get]
            (⟨1⟩, cancelled_sleeper_result)).2 = true ∧
        TaskResult.is_fulfilled
          (TaskResult.steps [TaskOp.resume 1, TaskOp.get]
            (⟨1⟩, cancelled_sleeper_result)).1
          (TaskResult.steps [TaskOp.resume 1, TaskOp.get]
            (⟨1⟩, cancelled_sleeper_result)).2 = false ∧
        ((TaskResult.promise
            (TaskResult.steps [TaskOp.resume 1, TaskOp.get]
              (⟨1⟩, cancelled_sleeper_result)).1
            (TaskResult.steps [TaskOp.resume 1, TaskOp.get]
              (⟨1⟩, cancelled_sleeper_result)).2).result = none ∨
          (TaskResult.promise
            (TaskResult.steps [TaskOp.resume 1, TaskOp.get]
              (⟨1⟩, cancelled_sleeper_result)).1
            (TaskResult.steps [TaskOp.resume 1, TaskOp.get]
              (⟨1⟩, cancelled_sleeper_result)).2).result =
            some (Except.error (ResultErrors.unknown_error : Nat))))) :=
  ⟨by decide,
    c14_cancel_gates_result [] [TaskOp.resume 1, TaskOp.get] (by decide)
      (World.empty 0) 1 [5] (Outcome.ret 7) _ _ rfl (by decide) (by decide) rfl
      (World.empty 0) 1 [5] (Outcome.ret (Except.ok 7)) _ _ rfl (by decide) (by decide) rfl⟩

/-- C17 as stated fails: a `Task<int>` whose body throws at once is done with an empty
result slot and a non-null handle, and `await_ready()` returns true. -/
theorem c17_await_ready_iff_done_counterexample :
    Task.await_ready ⟨1⟩ thrower = true ∧
      ¬((Task.promise ⟨1⟩ thrower).value.isSome = true ∨ (⟨1⟩ : Task).handle = 0) := by
  decide

/-- C17 amended: `Task<T>::await_ready()` is true exactly when the handle is null, the
coroutine is done, or the promise is marked destroyed.  For a task made by a coroutine
call and taken through any operations, a populated result slot implies that: the slot
is empty or `await_ready()` is true. -/
theorem c17_await_ready_iff_done {T : Type} [Inhabited T] (t : Task)
    (w : World (Promise T) T) (w0 : World (Promise T) T) (h : Handle) (awaits : List Int)
    (outcome : Outcome T) (ops : List TaskOp) :
    (Task.await_ready t w = true ↔
        t.handle = 0 ∨ w.done t.handle = true ∨ (Task.promise t w).is_destroyed_ = true) ∧
      ((Task.promise (Task.steps ops (⟨h⟩, w0.spawn h Promise.fresh awaits outcome)).1
            (Task.steps ops (⟨h⟩, w0.spawn h Promise.fresh awaits outcome)).2).value = none ∨
        Task.await_ready (Task.steps ops (⟨h⟩, w0.spawn h Promise.fresh awaits outcome)).1
          (Task.steps ops (⟨h⟩, w0.spawn h Promise.fresh awaits outcome)).2 = true) := by
  constructor
  · unfold Task.await_ready
    by_cases h0 : t.handle = 0
    · simp [h0]
    · cases hd : w.done t.handle <;> simp [h0, hd, Promise.is_destroyed]
  · obtain ⟨g0, hg0, hq0⟩ := World.spawn_keeps Task.ValueOnlyWhenDone
      Task.valueOnlyWhenDone_stable.1 h Promise.fresh awaits outcome w0
      (fun hv => by simp [Promise.fresh] at hv)
    obtain ⟨g1, hg1, hq1⟩ := Task.task_steps_keeps Task.ValueOnlyWhenDone
      Task.valueOnlyWhenDone_stable.1 Task.valueOnlyWhenDone_stable.2 ops
      (⟨h⟩, w0.spawn h Promise.fresh awaits outcome) h g0 hg0 hq0
    have hh := (Task.task_steps_handle ops (⟨h⟩, w0.spawn h Promise.fresh awaits outcome)).1
    generalize Task.steps ops (⟨h⟩, w0.spawn h Promise.fresh awaits outcome) = s at *
    rcases hh with hh | hh
    · have hh1 : s.1.handle = h := by rw [hh]
      cases hv : g1.promise.value with
      | none => left; simp [Task.promise, hh1, hg1, hv]
      | some v =>
        right
        have hd : g1.done = true := hq1 (by simp [hv])
        unfold Task.await_ready
        simp [hh1, World.done, hg1, hd]
    · right
      simp [Task.await_ready, hh]

/-- C18 as stated fails: a `Task<int>` cancelled while suspended on `sleep_for(5)` is
settled, yet `await_ready()` is false and `await_suspend(9)` returns true, so the
awaiter is suspended. -/
theorem c18_settled_await_counterexample :
    Task.is_settled ⟨1⟩ cancelled_sleeper = true ∧
      Task.await_ready ⟨1⟩ cancelled_sleeper = false ∧
      (Task.await_suspend ⟨1⟩ 9 cancelled_sleeper).1 = true := by
  decide

/-- C18 amended: a Task whose handle is null (generic, void and Result variants) or
whose body has completed (all four variants) is settled, and awaiting it does not
suspend the awaiter: `await_ready()` returns true. -/
theorem c18_settled_await {T E : Type}
    (tT : Task) (wT : World (Promise T) T)
    (hT : tT.handle = 0 ∨ wT.done tT.handle = true)
    (tV : Task) (wV : World PromiseVoid Unit)
    (hV : tV.handle = 0 ∨ wV.done tV.handle = true)
    (tR : Task) (wR : World (PromiseResult T E) (Except E T))
    (hR : tR.handle = 0 ∨ wR.done tR.handle = true)
    (tU : Task) (wU : World (PromiseUnique T) (Option T))
    (hU : tU.handle ≠ 0 ∧ wU.done tU.handle = true) :
    (Task.is_settled tT wT = true ∧ Task.await_ready tT wT = true) ∧
      (TaskVoid.is_settled tV wV = true ∧ TaskVoid.await_ready tV wV = true) ∧
      (TaskResult.is_settled tR wR = true ∧ TaskResult.await_ready tR wR = true) ∧
      (TaskUnique.is_settled tU wU = true ∧ TaskUnique.await_ready tU wU = true) := by
  refine ⟨⟨?_, ?_⟩, ⟨?_, ?_⟩, ⟨?_, ?_⟩, ⟨?_, ?_⟩⟩
  · rcases hT with h | h <;> simp [Task.is_settled, h]
  · rcases hT with h | h <;> simp [Task.await_ready, h]
  · rcases hV with h | h <;> simp [TaskVoid.is_settled, h]
  · rcases hV with h | h
    · simp [TaskVoid.await_ready, h]
    · unfold TaskVoid.await_ready
      split_ifs <;> simp [h]
  · rcases hR with h | h <;> simp [TaskResult.is_settled, h]
  · rcases hR with h | h <;> simp [TaskResult.await_ready, h]
  · simp [TaskUnique.is_settled, hU.2]
  · simp [TaskUnique.await_ready, hU.1, hU.2]

/-- Witness for C18: completed tasks of the four variants at address 1. -/
theorem c18_settled_await_witness :
    ((World.resume 1 sleeper).done 1 = true ∧ (World.resume 1 sleeper_void).done 1 = true ∧
        (World.resume 1 sleeper_result).done 1 = true ∧ finished_unique.done 1 = true) ∧
      ((Task.is_settled ⟨1⟩ (World.resume 1 sleeper) = true ∧
          Task.await_ready ⟨1⟩ (World.resume 1 sleeper) = true) ∧
        (TaskVoid.is_settled ⟨1⟩ (World.resume 1 sleeper_void) = true ∧
          TaskVoid.await_ready ⟨1⟩ (World.resume 1 sleeper_void) = true) ∧
        (TaskResult.is_settled ⟨1⟩ (World.resume 1 sleeper_result) = true ∧
          TaskResult.await_ready ⟨1⟩ (World.resume 1 sleeper_result) = true) ∧
        (TaskUnique.is_settled ⟨1⟩ finished_unique = true ∧
          TaskUnique.await_ready ⟨1⟩ finished_unique = true)) :=
  ⟨by decide,
    c18_settled_await ⟨1⟩ (World.resume 1 sleeper) (Or.inr (by decide))
      ⟨1⟩ (World.resume 1 sleeper_void) (Or.inr (by decide))
      ⟨1⟩ (World.resume 1 sleeper_result) (Or.inr (by decide))
      ⟨1⟩ finished_unique ⟨by decide, by decide⟩⟩

/-- Witness for C16: a completed `Task<int>`, `Task<void>` and `Task<Result<int,int>>` at
address 1. -/
theorem c16_cancel_after_completion_is_noop_witness :
    ((World.resume 1 sleeper).done 1 = true ∧ (World.resume 1 sleeper_void).done 1 = true ∧
        (World.resume 1 sleeper_result).done 1 = true) ∧
      ((Task.cancel ⟨1⟩ (World.resume 1 sleeper) = World.resume 1 sleeper ∧
          (Task.promise ⟨1⟩ (Task.cancel ⟨1⟩ (World.resume 1 sleeper))).is_cancelled_ =
            (Task.promise ⟨1⟩ (World.resume 1 sleeper)).is_cancelled_ ∧
          Task.is_cancelled ⟨1⟩ (Task.cancel ⟨1⟩ (World.resume 1 sleeper)) =
            Task.is_cancelled ⟨1⟩ (World.resume 1 sleeper) ∧
          (Task.get ⟨1⟩ (Task.cancel ⟨1⟩ (World.resume 1 sleeper))).1 =
            (Task.get ⟨1⟩ (World.resume 1 sleeper)).1) ∧
        (TaskVoid.cancel ⟨1⟩ (World.resume 1 sleeper_void) = World.resume 1 sleeper_void ∧
          TaskVoid.is_cancelled ⟨1⟩ (TaskVoid.cancel ⟨1⟩ (World.resume 1 sleeper_void)) =
            TaskVoid.is_cancelled ⟨1⟩ (World.resume 1 sleeper_void) ∧
          TaskVoid.get ⟨1⟩ (TaskVoid.cancel ⟨1⟩ (World.resume 1 sleeper_void)) =
            TaskVoid.get ⟨1⟩ (World.resume 1 sleeper_void)) ∧
        (TaskResult.cancel ⟨1⟩ (World.resume 1 sleeper_result) =
            World.resume 1 sleeper_result ∧
          TaskResult.is_cancelled ⟨1⟩ (TaskResult.cancel ⟨1⟩ (World.resume 1 sleeper_result)) =
            TaskResult.is_cancelled ⟨1⟩ (World.resume 1 sleeper_result) ∧
          TaskResult.get ⟨1⟩ (TaskResult.cancel ⟨1⟩ (World.resume 1 sleeper_result)) =
            TaskResult.get ⟨1⟩ (World.resume 1 sleeper_result))) :=
  ⟨by decide,
    c16_cancel_after_completion_is_noop
      ⟨1⟩ (World.resume 1 sleeper) (Or.inr (by decide))
      ⟨1⟩ (World.resume 1 sleeper_void) (Or.inr (by decide))
      ⟨1⟩ (World.resume 1 sleeper_result) (Or.inr (by decide))⟩


namespace CoroutineManager

variable {P V : Type}

/-- The events a call of `drive` appends to the log: the pool drive, timer pops and
resumptions first, the destructions after them. -/
theorem drive_log_shape (drive_coroutine_pool : World P V → World P V)
    (resume : Handle → World P V → World P V) (w : World P V) (log : List Event) :
    ∃ (timers : List TimerEntry) (resumed destroyed : List Handle),
      (drive drive_coroutine_pool resume (w, log)).2 =
        log ++ (Event.pool_driven :: (timers.map (fun e => Event.timer_popped e.1 e.2) ++
          resumed.map Event.resumed)) ++ destroyed.map Event.destroyed := by
  obtain ⟨timers, _, _, _, _, hlog1⟩ :=
    process_timer_queue_spec (drive_coroutine_pool w) (log ++ [Event.pool_driven])
  obtain ⟨resumed, hlog2, _⟩ :=
    ready_loop_log resume
      (process_timer_queue (drive_coroutine_pool w, log ++ [Event.pool_driven])).1.ready_queue_
      ({ (process_timer_queue (drive_coroutine_pool w, log ++ [Event.pool_driven])).1 with
          ready_queue_ := [] },
        (process_timer_queue (drive_coroutine_pool w, log ++ [Event.pool_driven])).2)
  refine ⟨timers, resumed,
    (process_ready_queue resume
      (process_timer_queue
        (drive_coroutine_pool w, log ++ [Event.pool_driven]))).1.destroy_queue_.filter
      (fun h => decide (h ≠ 0)), ?_⟩
  show (process_pending_tasks (process_ready_queue resume
      (process_timer_queue (drive_coroutine_pool w, log ++ [Event.pool_driven])))).2 = _
  unfold process_pending_tasks
  rw [destroy_loop_log]
  have h2 : (process_ready_queue resume
      (process_timer_queue (drive_coroutine_pool w, log ++ [Event.pool_driven]))).2 =
      (log ++ [Event.pool_driven] ++ timers.map (fun e => Event.timer_popped e.1 e.2)) ++
        resumed.map Event.resumed := by
    unfold process_ready_queue
    rw [hlog2, hlog1]
  rw [h2]
  simp

/-- The first handle of the ready queue is resumed by `process_ready_queue` when it is
non-null and not done. -/
theorem ready_head_resumed (resume : Handle → World P V → World P V) (w : World P V)
    (log : List Event) (h : Handle) (rest : List Handle)
    (hq : w.ready_queue_ = h :: rest) (h0 : h ≠ 0) (hd : w.done h = false) :
    ∃ tail : List Event,
      (process_ready_queue resume (w, log)).2 = log ++ Event.resumed h :: tail := by
  unfold process_ready_queue
  rw [hq]
  unfold ready_loop
  have hd2 : World.done { w with ready_queue_ := [] } h = false := hd
  simp only [h0, if_false, hd2, Bool.false_eq_true]
  obtain ⟨r, hr, _⟩ := ready_loop_log resume rest
    (resume h { w with ready_queue_ := [] }, log ++ [Event.resumed h])
  exact ⟨r.map Event.resumed, by rw [hr]; simp⟩

theorem update_frame_frames_other (w : World P V) (x h : Handle)
    (g : Frame P V → Frame P V) (hne : h ≠ x) :
    (w.update_frame x g).frames h = w.frames h := by
  unfold World.update_frame
  cases w.frames x with
  | none => rfl
  | some f => simp [World.set_frame, hne]

theorem run_body_frames_other [PromiseType P V] (x h : Handle) (hne : h ≠ x)
    (aw : List Int) (w : World P V) : (w.run_body x aw).frames h = w.frames h := by
  induction aw generalizing w with
  | nil => exact update_frame_frames_other w x h _ hne
  | cons a rest ih =>
    unfold World.run_body
    by_cases hd : a ≤ 0
    · simp [CoroutineFriendlySleepAwaiter.await_ready, hd]
      exact ih w
    · simp [CoroutineFriendlySleepAwaiter.await_ready,
        CoroutineFriendlySleepAwaiter.await_suspend, hd]
      rw [update_frame_frames_other _ x h _ hne]
      rfl

/-- Resuming the coroutine at `x` leaves every other frame as it is. -/
theorem resume_frames_other [PromiseType P V] (x h : Handle) (hne : h ≠ x)
    (w : World P V) : (w.resume x).frames h = w.frames h := by
  unfold World.resume
  cases hf : w.frames x with
  | none => rfl
  | some f =>
    by_cases hd : f.done = true
    · simp [hd]
    · simp [hd]
      exact run_body_frames_other x h hne f.awaits w

/-- A non-null handle in the swapped-out ready queue whose coroutine is not done is
resumed by the loop of `process_ready_queue`. -/
theorem ready_loop_resumes [PromiseType P V] (h : Handle) (h0 : h ≠ 0) (l : List Handle) :
    ∀ s : World P V × List Event, h ∈ l → s.1.done h = false →
      Event.resumed h ∈ (ready_loop World.resume l s).2 := by
  induction l with
  | nil => intro s hm; cases hm
  | cons x l ih =>
    intro s hm hd
    unfold ready_loop
    by_cases hx : x = h
    · subst hx
      simp only [h0, if_false, hd, Bool.false_eq_true]
      obtain ⟨r, hr, _⟩ := ready_loop_log World.resume l
        (World.resume x s.1, s.2 ++ [Event.resumed x])
      rw [hr]
      simp
    · have hm2 : h ∈ l := by
        rcases List.mem_cons.mp hm with h1 | h1
        · exact absurd h1.symm hx
        · exact h1
      split_ifs
      · exact ih s hm2 hd
      · exact ih s hm2 hd
      · refine ih _ hm2 ?_
        show World.done (World.resume x s.1) h = false
        unfold World.done
        rw [resume_frames_other x h (fun e => hx e.symm) s.1]
        exact hd

/-- A timer entry whose deadline has passed, with a non-null handle whose coroutine is
not done, leads to a resumption of that handle in the same call of `drive`. -/
theorem expired_timer_resumed [PromiseType P V] (drive_coroutine_pool : World P V → World P V)
    (u : World P V) (log : List Event) (when : Int) (h : Handle)
    (hm : (when, h) ∈ (drive_coroutine_pool u).timer_queue_)
    (hw : when ≤ (drive_coroutine_pool u).now) (h0 : h ≠ 0)
    (hd : (drive_coroutine_pool u).done h = false) :
    Event.resumed h ∈ (drive drive_coroutine_pool World.resume (u, log)).2 := by
  obtain ⟨popped, _, hperm, _, hready, _⟩ :=
    process_timer_queue_spec (drive_coroutine_pool u) (log ++ [Event.pool_driven])
  have hpop : (when, h) ∈ popped :=
    hperm.mem_iff.mpr (List.mem_filter.mpr ⟨hm, by simpa using hw⟩)
  have hin : h ∈ (process_timer_queue
      (drive_coroutine_pool u, log ++ [Event.pool_driven])).1.ready_queue_ := by
    rw [hready]
    refine List.mem_append_right _ (List.mem_map.mpr ⟨(when, h), ?_, rfl⟩)
    exact List.mem_filter.mpr ⟨hpop, by simp [h0, hd]⟩
  have hres := ready_loop_resumes h h0
    (process_timer_queue (drive_coroutine_pool u, log ++ [Event.pool_driven])).1.ready_queue_
    ({ (process_timer_queue (drive_coroutine_pool u, log ++ [Event.pool_driven])).1 with
        ready_queue_ := [] },
      (process_timer_queue (drive_coroutine_pool u, log ++ [Event.pool_driven])).2)
    hin hd
  show Event.resumed h ∈ (process_pending_tasks (process_ready_queue World.resume
      (process_timer_queue (drive_coroutine_pool u, log ++ [Event.pool_driven])))).2
  unfold process_pending_tasks
  rw [destroy_loop_log]
  exact List.mem_append_left _ hres

/-- C11 as stated fails: a `Task<int>` suspended on `sleep_for(5)` is dropped, which
puts its frame in the destroy queue; in the tick at clock 5000000 (5 ms) the timer expires and the
continuation is resumed, and only then is the frame destroyed. -/
theorem c11_resume_before_destroy_counterexample :
    1 ∈ dropped_sleeper.destroy_queue_ ∧
      (drive id World.resume (dropped_sleeper, [])).2 =
        [Event.pool_driven, Event.timer_popped 5000000 1, Event.resumed 1, Event.destroyed 1] := by
  decide

/-- C11 amended: `process_ready_queue` resumes the handle at the head of the ready
queue whenever it is non-null and not done, whatever the destroy queue holds, and a
timer entry that has expired, with a non-null handle whose coroutine is not done, leads
to a resumption of that handle in the same tick.  What a tick guarantees is the order:
the events `drive` appends split into a first part with no destruction and a second
part with no resumption, so no continuation is resumed after a frame has been destroyed
in that tick. -/
theorem c11_resume_before_destroy [PromiseType P V]
    (drive_coroutine_pool : World P V → World P V)
    (resume : Handle → World P V → World P V) (w : World P V) (log : List Event)
    (h : Handle) (rest : List Handle) (hq : w.ready_queue_ = h :: rest) (h0 : h ≠ 0)
    (hd : w.done h = false) (u : World P V) (when : Int) (k : Handle)
    (hm : (when, k) ∈ (drive_coroutine_pool u).timer_queue_)
    (hw : when ≤ (drive_coroutine_pool u).now) (k0 : k ≠ 0)
    (kd : (drive_coroutine_pool u).done k = false) :
    (∃ tail : List Event,
        (process_ready_queue resume (w, log)).2 = log ++ Event.resumed h :: tail) ∧
      Event.resumed k ∈ (drive drive_coroutine_pool World.resume (u, log)).2 ∧
      ∃ before after : List Event,
        (drive drive_coroutine_pool resume (u, log)).2 = log ++ before ++ after ∧
          (∀ e ∈ before, e.phase ≤ 2) ∧ (∀ e ∈ after, e.phase = 3) := by
  refine ⟨ready_head_resumed resume w log h rest hq h0 hd,
    expired_timer_resumed drive_coroutine_pool u log when k hm hw k0 kd, ?_⟩
  obtain ⟨timers, resumed, destroyed, hlog⟩ :=
    drive_log_shape drive_coroutine_pool resume u log
  refine ⟨_, _, hlog, ?_, ?_⟩
  · intro e he
    simp only [List.mem_cons, List.mem_append, List.mem_map] at he
    rcases he with rfl | ⟨x, _, rfl⟩ | ⟨x, _, rfl⟩ <;> simp [Event.phase]
  · intro e he
    simp only [List.mem_map] at he
    obtain ⟨x, _, rfl⟩ := he
    rfl

/-- Witness for C11: the dropped sleeper at clock 5000000, whose frame is in the destroy
queue and whose timer `(5000000, 1)` has expired, and the ready queue after the timer phase of that
tick. -/
theorem c11_resume_before_destroy_witness :
    ((process_timer_queue (dropped_sleeper, [])).1.ready_queue_ = [1] ∧
        (process_timer_queue (dropped_sleeper, [])).1.done 1 = false ∧
        1 ∈ (process_timer_queue (dropped_sleeper, [])).1.destroy_queue_ ∧
        (5000000, 1) ∈ (id dropped_sleeper).timer_queue_ ∧
        5000000 ≤ (id dropped_sleeper).now ∧
        (id dropped_sleeper).done 1 = false ∧ 1 ∈ dropped_sleeper.destroy_queue_) ∧
      ((∃ tail : List Event,
          (process_ready_queue World.resume
            ((process_timer_queue (dropped_sleeper, [])).1, [])).2 =
            [] ++ Event.resumed 1 :: tail) ∧
        Event.resumed 1 ∈ (drive id World.resume (dropped_sleeper, [])).2 ∧
        ∃ before after : List Event,
          (drive id World.resume (dropped_sleeper, [])).2 = [] ++ before ++ after ∧
            (∀ e ∈ before, e.phase ≤ 2) ∧ (∀ e ∈ after, e.phase = 3)) :=
  ⟨by decide,
    c11_resume_before_destroy id World.resume (process_timer_queue (dropped_sleeper, [])).1
      [] 1 [] (by decide) (by decide) (by decide) dropped_sleeper 5000000 1 (by decide)
      (by decide) (by decide) (by decide)⟩

end CoroutineManager

/-- C12 fails on the code for three of the four variants: a `Task<void>`, a
`Task<Result<int,int>>` and a `Task<unique_ptr<int>>` suspended on `sleep_for(5)` (body
not completed) are dropped: the frame is destroyed at once and nothing is put in the
destroy queue, while the timer queue still holds the handle.  The generic `Task<int>`
in the same situation keeps the frame, marks it destroyed and queues it once. -/
theorem c12_drop_destroys_unfinished_frame :
    (sleeper_void.done 1 = false ∧ (sleeper_void.frames 1).isSome = true ∧
        ((TaskVoid.drop ⟨1⟩ sleeper_void).2.frames 1).isSome = false ∧
        (TaskVoid.drop ⟨1⟩ sleeper_void).2.destroy_queue_ = [] ∧
        (TaskVoid.drop ⟨1⟩ sleeper_void).2.timer_queue_ = [(5000000, 1)]) ∧
      (sleeper_result.done 1 = false ∧ (sleeper_result.frames 1).isSome = true ∧
        ((TaskResult.drop ⟨1⟩ sleeper_result).2.frames 1).isSome = false ∧
        (TaskResult.drop ⟨1⟩ sleeper_result).2.destroy_queue_ = []) ∧
      (sleeper_unique.done 1 = false ∧ (sleeper_unique.frames 1).isSome = true ∧
        ((TaskUnique.drop ⟨1⟩ sleeper_unique).frames 1).isSome = false ∧
        (TaskUnique.drop ⟨1⟩ sleeper_unique).destroy_queue_ = []) ∧
      (sleeper.done 1 = false ∧
        ((Task.drop ⟨1⟩ sleeper).2.frames 1).isSome = true ∧
        (Task.promise ⟨1⟩ (Task.drop ⟨1⟩ sleeper).2).is_destroyed_ = true ∧
        (Task.drop ⟨1⟩ sleeper).2.destroy_queue_ = [1] ∧
        (Task.drop ⟨1⟩ sleeper).1.handle = 0) := by
  decide

/-- C19 fails on the code: a `Task<int>` suspended on `sleep_for(5)` is awaited by the
continuation 9.  `await_suspend(9)` returns true, so the awaiter is suspended, but only
the task's own handle goes to the pool; 9 is in no queue, and after the task's body
has been resumed to completion it is still in none: the waiter is discarded.
`Task<void>` does the same. -/
theorem c19_waiter_is_discarded :
    (sleeper.done 1 = false ∧ awaited_sleeper.1 = true ∧
        awaited_sleeper.2.pool = [1] ∧ awaited_sleeper.2.ready_queue_ = [] ∧
        awaited_sleeper.2.timer_queue_ = [(5000000, 1)] ∧ awaited_sleeper.2.destroy_queue_ = [] ∧
        (World.resume 1 awaited_sleeper.2).done 1 = true ∧
        (World.resume 1 awaited_sleeper.2).pool = [1] ∧
        (World.resume 1 awaited_sleeper.2).ready_queue_ = [] ∧
        (World.resume 1 awaited_sleeper.2).timer_queue_ = [(5000000, 1)] ∧
        (World.resume 1 awaited_sleeper.2).destroy_queue_ = []) ∧
      (sleeper_void.done 1 = false ∧
        (TaskVoid.await_suspend ⟨1⟩ 9 sleeper_void).1 = true ∧
        (TaskVoid.await_suspend ⟨1⟩ 9 sleeper_void).2.pool = [1] ∧
        (TaskVoid.await_suspend ⟨1⟩ 9 sleeper_void).2.ready_queue_ = [] ∧
        (TaskVoid.await_suspend ⟨1⟩ 9 sleeper_void).2.timer_queue_ = [(5000000, 1)] ∧
        (TaskVoid.await_suspend ⟨1⟩ 9 sleeper_void).2.destroy_queue_ = []) := by
  decide

/-! ## Theorems on moves, errors, sleeping, when_all and the queue -/

/-- C21, counterexample: a `Task<Result<int, ErrorInfo>>` with a non-null handle whose
body has completed and whose promise has the cancel flag and the destruction flag set.
`get()` returns `err(CoroutineDestroyed)`, not `err(TaskCancelled)`: `is_cancelled()`
answers false for a promise marked destroyed. -/
theorem c21_result_get_errors_counterexample :
    (⟨1⟩ : Task).handle ≠ 0 ∧
      (TaskResult.promise ⟨1⟩ cancelled_destroyed_result).is_cancelled_ = true ∧
      (TaskResult.promise ⟨1⟩ cancelled_destroyed_result).is_destroyed_ = true ∧
      cancelled_destroyed_result.done 1 = true ∧
      TaskResult.get ⟨1⟩ cancelled_destroyed_result =
        some (Except.error ⟨FlowCoroError.CoroutineDestroyed, "Task was destroyed"⟩) ∧
      TaskResult.get ⟨1⟩ cancelled_destroyed_result ≠
        some (Except.error ⟨FlowCoroError.TaskCancelled, "Task was cancelled"⟩) := by
  refine ⟨by decide, rfl, rfl, rfl, rfl, ?_⟩
  intro h
  have h2 : TaskResult.get ⟨1⟩ cancelled_destroyed_result =
      some (Except.error ⟨FlowCoroError.CoroutineDestroyed, "Task was destroyed"⟩) := rfl
  rw [h2] at h
  simp at h

/-- C21, as amended: for `Task<Result<T, ErrorInfo>>`, `get()` returns
`err(InvalidOperation)` when the handle is null; otherwise `err(TaskCancelled)` when
the cancel flag is set and the promise is not marked destroyed, whether or not the body
has completed; otherwise it does not return before the body has completed (`none`), and
then returns `err(CoroutineDestroyed)` if the promise is marked destroyed or the slot
is empty, and the stored `Result` otherwise. -/
theorem c21_result_get_errors {T : Type} (t : Task)
    (w : World (PromiseResult T ErrorInfo) (Except ErrorInfo T)) :
    TaskResult.get t w =
      if t.handle = 0 then
        some (Except.error ⟨FlowCoroError.InvalidOperation, "Invalid task handle"⟩)
      else if (TaskResult.promise t w).is_cancelled_ = true ∧
          (TaskResult.promise t w).is_destroyed_ = false then
        some (Except.error ⟨FlowCoroError.TaskCancelled, "Task was cancelled"⟩)
      else if w.done t.handle = false then none
      else if (TaskResult.promise t w).is_destroyed_ = true ∨
          (TaskResult.promise t w).result.isNone = true then
        some (Except.error ⟨FlowCoroError.CoroutineDestroyed, "Task was destroyed"⟩)
      else (TaskResult.promise t w).result := by
  unfold TaskResult.get TaskResult.is_cancelled PromiseResult.safe_get_result
  by_cases h0 : t.handle = 0
  · simp [h0]; rfl
  · cases hd : (TaskResult.promise t w).is_destroyed_ <;>
      cases hc : (TaskResult.promise t w).is_cancelled_ <;>
      cases hdone : w.done t.handle <;>
      cases hr : (TaskResult.promise t w).result <;>
      simp [h0] <;> rfl

/-- C22: for every variant, move construction gives the new object the handle of the
source and leaves the source with a null handle; the source then reports
`is_settled() = true` and `is_pending() = false`, and dropping it leaves every frame
and every queue as they are. -/
theorem c22_move_construct_nulls_source {T E : Type} (other : Task)
    (w : World (Promise T) T) (wv : World PromiseVoid Unit)
    (wr : World (PromiseResult T E) (Except E T))
    (wu : World (PromiseUnique T) (Option T)) :
    (Task.move_construct other).1.handle = other.handle ∧
      (Task.move_construct other).2.handle = 0 ∧
      (Task.is_settled (Task.move_construct other).2 w = true ∧
        Task.is_pending (Task.move_construct other).2 w = false ∧
        Task.drop (Task.move_construct other).2 w = ((Task.move_construct other).2, w)) ∧
      (TaskVoid.is_settled (Task.move_construct other).2 wv = true ∧
        TaskVoid.is_pending (Task.move_construct other).2 wv = false ∧
        TaskVoid.drop (Task.move_construct other).2 wv =
          ((Task.move_construct other).2, wv)) ∧
      (TaskResult.is_settled (Task.move_construct other).2 wr = true ∧
        TaskResult.is_pending (Task.move_construct other).2 wr = false ∧
        TaskResult.drop (Task.move_construct other).2 wr =
          ((Task.move_construct other).2, wr)) ∧
      (TaskUnique.is_settled (Task.move_construct other).2 wu = true ∧
        TaskUnique.is_pending (Task.move_construct other).2 wu = false ∧
        TaskUnique.drop (Task.move_construct other).2 wu = wu) := by
  simp [Task.move_construct, Task.is_settled, Task.is_pending, Task.drop, Task.safe_destroy,
    TaskVoid.is_settled, TaskVoid.is_pending, TaskVoid.drop, TaskVoid.safe_destroy,
    TaskResult.is_settled, TaskResult.is_pending, TaskResult.drop, TaskResult.safe_destroy,
    TaskUnique.is_settled, TaskUnique.is_pending, TaskUnique.drop]

/-- C24, evaluation: `when_all` over three `Task<int>` whose bodies sleep 1, 2 and 3 and
return 1, 2 and 3 suspends in its first `co_await`, with only the child handed to the
pool and the coroutine of `when_all` (address 4) in no queue; `sync_wait` on it then
resumes it once and returns `(0, 0, 0)`, also when the pool has run the first child
before.  With the single argument of `sleeper`, `sync_wait` returns `(0)` and the
combined task is settled while the argument is not; and once the argument has
completed, the combined task is still not settled.  Over children that have completed
the result is `(1, 2, 3)`. -/
theorem c24_when_all_reads_unfinished_children :
    (WhenAll.when_all 4 [⟨1⟩, ⟨2⟩, ⟨3⟩] three_children).1.done = false ∧
      (WhenAll.when_all 4 [⟨1⟩, ⟨2⟩, ⟨3⟩] three_children).2.pool = [1] ∧
      (WhenAll.when_all 4 [⟨1⟩, ⟨2⟩, ⟨3⟩] three_children).2.ready_queue_ = [] ∧
      (WhenAll.when_all 4 [⟨1⟩, ⟨2⟩, ⟨3⟩] three_children).2.timer_queue_ =
        [(1000000, 1), (2000000, 2), (3000000, 3)] ∧
      (WhenAll.sync_wait 4 (WhenAll.when_all 4 [⟨1⟩, ⟨2⟩, ⟨3⟩] three_children).1
        (WhenAll.when_all 4 [⟨1⟩, ⟨2⟩, ⟨3⟩] three_children).2).1 = [0, 0, 0] ∧
      (WhenAll.sync_wait 4 (WhenAll.when_all 4 [⟨1⟩, ⟨2⟩, ⟨3⟩] three_children).1
        ((WhenAll.when_all 4 [⟨1⟩, ⟨2⟩, ⟨3⟩] three_children).2.resume 1)).1 = [0, 0, 0] ∧
      (WhenAll.sync_wait 4 (WhenAll.when_all 4 [⟨1⟩] sleeper).1
        (WhenAll.when_all 4 [⟨1⟩] sleeper).2).1 = [0] ∧
      WhenAll.is_settled (WhenAll.sync_wait 4 (WhenAll.when_all 4 [⟨1⟩] sleeper).1
        (WhenAll.when_all 4 [⟨1⟩] sleeper).2).2.1 = true ∧
      Task.is_settled ⟨1⟩ (WhenAll.sync_wait 4 (WhenAll.when_all 4 [⟨1⟩] sleeper).1
        (WhenAll.when_all 4 [⟨1⟩] sleeper).2).2.2 = false ∧
      Task.is_settled ⟨1⟩ ((WhenAll.when_all 4 [⟨1⟩] sleeper).2.resume 1) = true ∧
      WhenAll.is_settled (WhenAll.when_all 4 [⟨1⟩] sleeper).1 = false ∧
      (WhenAll.sync_wait 4 (WhenAll.when_all 4 [⟨1⟩, ⟨2⟩, ⟨3⟩] three_finished).1
        (WhenAll.when_all 4 [⟨1⟩, ⟨2⟩, ⟨3⟩] three_finished).2).1 = [1, 2, 3] := by
  decide

/-- C25, evaluation of the members that can be instantiated: a `Task<T>` whose body is
`co_return v` has completed at construction with `v` in the result slot and the error
marker clear; `is_pending()` is false, `is_settled()` is true, and `get` and
`sync_wait` return `v`.  The promise has no member `exception`, which
`Task<T>::is_fulfilled` and `Task<T>::is_rejected` read. -/
theorem c25_immediate_return_completes {T : Type} [Inhabited T] (v : T) :
    (World.spawn 1 Promise.fresh [] (Outcome.ret v) (World.empty 0)).done 1 = true ∧
      (Task.promise ⟨1⟩
        (World.spawn 1 Promise.fresh [] (Outcome.ret v) (World.empty 0))).value = some v ∧
      (Task.promise ⟨1⟩
        (World.spawn 1 Promise.fresh [] (Outcome.ret v) (World.empty 0))).has_error = false ∧
      Task.is_pending ⟨1⟩
        (World.spawn 1 Promise.fresh [] (Outcome.ret v) (World.empty 0)) = false ∧
      Task.is_settled ⟨1⟩
        (World.spawn 1 Promise.fresh [] (Outcome.ret v) (World.empty 0)) = true ∧
      (Task.get ⟨1⟩
        (World.spawn 1 Promise.fresh [] (Outcome.ret v) (World.empty 0))).1 = v ∧
      (Task.sync_wait ⟨1⟩
        (World.spawn 1 Promise.fresh [] (Outcome.ret v) (World.empty 0))).1 = v := by
  refine ⟨rfl, rfl, rfl, rfl, rfl, rfl, rfl⟩

/-- C26, counterexample: two calls of `enable_v2_features()` start two drive threads,
not one as a single call does. -/
theorem c26_bootstrap_counts_calls_counterexample :
    (enable_v2_features (enable_v2_features ⟨0⟩)).drive_threads = 2 ∧
      (enable_v2_features ⟨0⟩).drive_threads = 1 ∧
      (enable_v2_features (enable_v2_features ⟨0⟩)).drive_threads ≠ 1 ∧
      (start_coroutine_manager (start_coroutine_manager ⟨0⟩)).drive_threads ≠
        (start_coroutine_manager ⟨0⟩).drive_threads := by
  decide

/-- C26, as amended: `n` calls of `enable_v2_features()` or of
`start_coroutine_manager()` start `n` drive threads, one per call. -/
theorem c26_bootstrap_counts_calls (n : Nat) (r : Runtime) :
    (enable_v2_features^[n] r).drive_threads = r.drive_threads + n ∧
      (start_coroutine_manager^[n] r).drive_threads = r.drive_threads + n := by
  have h : ∀ (m : Nat) (s : Runtime),
      (start_coroutine_manager^[m] s).drive_threads = s.drive_threads + m := by
    intro m
    induction m with
    | zero => intro s; rfl
    | succ k ih =>
      intro s
      rw [Function.iterate_succ_apply, ih]
      simp [start_coroutine_manager]
      omega
  exact ⟨h n r, h n r⟩

/-- C27, evaluation: the `Task` returned by `make_timeout_task(t, d)` holds the handle
of `t`, the object the worker holds a pointer to is `t` itself, left with a null handle
by the move, and so the worker's `cancel()` changes nothing in any state.  For the
`Task<int>` of `sleeper`, not completed when the worker runs, the returned task is
afterwards neither cancelled nor settled, whereas `cancel()` on the returned task would
have cancelled it. -/
theorem c27_timeout_worker_cancels_source {T : Type} (t : Task) (d : Int)
    (w : World (Promise T) T) :
    (make_timeout_task t d).returned.handle = t.handle ∧
      (make_timeout_task t d).task_ref.handle = 0 ∧
      (make_timeout_task t d).worker w = w ∧
      sleeper.done 1 = false ∧
      Task.is_cancelled (make_timeout_task ⟨1⟩ 3).returned
        ((make_timeout_task ⟨1⟩ 3).worker sleeper) = false ∧
      Task.is_settled (make_timeout_task ⟨1⟩ 3).returned
        ((make_timeout_task ⟨1⟩ 3).worker sleeper) = false ∧
      Task.is_cancelled (make_timeout_task ⟨1⟩ 3).returned
        (Task.cancel (make_timeout_task ⟨1⟩ 3).returned sleeper) = true := by
  refine ⟨rfl, rfl, ?_, by decide, by decide, by decide, by decide⟩
  simp [TimeoutTask.worker, make_timeout_task, Task.move_construct, Task.cancel]

/-- C28, evaluation: after a single `enqueue(f)` on a fresh queue the first `dequeue`
returns true and moves out the empty task of the sentinel node, not `f`, and the second
`dequeue` returns false, so `f` is never delivered.  After `enqueue` of 1, 2 and 3 four
calls of `dequeue` give the empty task, 1, 2 and then false. -/
theorem c28_dequeue_yields_old_head_task {F : Type} (f : F) (task : Option F) :
    (AsyncQueue.dequeue task (AsyncQueue.enqueue f AsyncQueue.fresh)).1 = true ∧
      (AsyncQueue.dequeue task (AsyncQueue.enqueue f AsyncQueue.fresh)).2.1 = none ∧
      (AsyncQueue.dequeue task
        (AsyncQueue.dequeue task (AsyncQueue.enqueue f AsyncQueue.fresh)).2.2).1 = false ∧
      (AsyncQueue.dequeue_n 4 (AsyncQueue.enqueue_all [1, 2, 3] AsyncQueue.fresh)).1 =
        [(true, none), (true, some 1), (true, some 2), (false, none)] := by
  refine ⟨rfl, rfl, rfl, by decide⟩

/-- C29, evaluation: move assignment to a `Task<int>` whose body has completed leaves
the state as it is, whatever the source.  With the destination owning the completed
frame at address 1 and the source the frame at address 2, the destination ends with
handle 2 and the source with a null handle, and the frame at address 1 is still live
and in no queue, while no `Task` holds its handle.  The same assignment on `Task<void>`
destroys the frame at address 1. -/
theorem c29_move_assign_leaks_finished_frame :
    (∀ (t other : Task) (w : World (Promise Nat) Nat), w.done t.handle = true →
        (Task.move_assign t other w).2.2 = w) ∧
      finished_and_sleeper.done 1 = true ∧
      (Task.move_assign ⟨1⟩ ⟨2⟩ finished_and_sleeper).1.handle = 2 ∧
      (Task.move_assign ⟨1⟩ ⟨2⟩ finished_and_sleeper).2.1.handle = 0 ∧
      ((Task.move_assign ⟨1⟩ ⟨2⟩ finished_and_sleeper).2.2.frames 1).isSome = true ∧
      (Task.move_assign ⟨1⟩ ⟨2⟩ finished_and_sleeper).2.2.destroy_queue_ = [] ∧
      ((TaskVoid.move_assign ⟨1⟩ ⟨2⟩ finished_and_sleeper_void).2.2.frames 1).isSome =
        false := by
  refine ⟨?_, by decide, by decide, by decide, by decide, by decide, by decide⟩
  intro t other w hd
  simp [Task.move_assign, hd]

namespace TaskVoid

theorem errorOnlyWhenDone_stable :
    World.BodyStable ErrorOnlyWhenDone ∧
      ∀ f : Frame PromiseVoid Unit, ErrorOnlyWhenDone f →
        ErrorOnlyWhenDone { f with promise := f.promise.request_cancellation } := by
  refine ⟨⟨fun f _ h => ?_, fun f rest hq => hq⟩, fun f hq => hq⟩
  simp [Frame.finish] at h

theorem void_cancel_keeps (Q : Frame PromiseVoid Unit → Prop)
    (hc : ∀ f, Q f → Q { f with promise := f.promise.request_cancellation })
    (t : Task) (w : World PromiseVoid Unit) : World.Keeps Q w (cancel t w) := by
  unfold cancel
  split
  · exact World.update_frame_keeps Q w t.handle _ hc
  · exact World.keeps_refl Q w

theorem void_get_keeps (Q : Frame PromiseVoid Unit → Prop) (hb : World.BodyStable Q)
    (t : Task) (w : World PromiseVoid Unit) : World.Keeps Q w (get t w) := by
  unfold get
  split_ifs
  · exact World.keeps_refl Q w
  · exact World.keeps_refl Q w
  · exact World.resume_keeps Q hb t.handle w
  · exact World.keeps_refl Q w

theorem void_await_suspend_keeps (Q : Frame PromiseVoid Unit → Prop) (t : Task)
    (waiting_handle : Handle) (w : World PromiseVoid Unit) :
    World.Keeps Q w (await_suspend t waiting_handle w).2 := by
  unfold await_suspend
  split_ifs
  · exact World.keeps_refl Q w
  · exact World.keeps_refl Q w
  · exact World.keeps_of_frames_eq Q (World.schedule_resume_frames t.handle w)

theorem void_step_keeps (Q : Frame PromiseVoid Unit → Prop) (hb : World.BodyStable Q)
    (hc : ∀ f, Q f → Q { f with promise := f.promise.request_cancellation })
    (op : TaskOp) (s : Task × World PromiseVoid Unit) :
    World.Keeps Q s.2 (step op s).2 := by
  cases op with
  | cancel => exact void_cancel_keeps Q hc s.1 s.2
  | get => exact void_get_keeps Q hb s.1 s.2
  | await_ready => exact World.keeps_refl Q s.2
  | await_suspend wh => exact void_await_suspend_keeps Q s.1 wh s.2
  | await_resume => exact World.keeps_refl Q s.2
  | resume h => exact World.resume_keeps Q hb h s.2
  | advance dt => exact World.keeps_of_frames_eq Q rfl
  | moved_from => exact World.keeps_refl Q s.2

theorem void_steps_keeps (Q : Frame PromiseVoid Unit → Prop) (hb : World.BodyStable Q)
    (hc : ∀ f, Q f → Q { f with promise := f.promise.request_cancellation })
    (ops : List TaskOp) (s : Task × World PromiseVoid Unit) :
    World.Keeps Q s.2 (steps ops s).2 := by
  unfold steps
  induction ops generalizing s with
  | nil => exact World.keeps_refl Q s.2
  | cons op rest ih =>
    exact World.keeps_trans (void_step_keeps Q hb hc op s) (ih (step op s))

theorem void_step_handle (op : TaskOp) (s : Task × World PromiseVoid Unit) :
    (step op s).1 = s.1 ∨ op = TaskOp.moved_from := by
  cases op <;> simp [step]

theorem void_steps_handle (ops : List TaskOp) (s : Task × World PromiseVoid Unit)
    (hn : TaskOp.moved_from ∉ ops) : (steps ops s).1 = s.1 := by
  unfold steps
  induction ops generalizing s with
  | nil => rfl
  | cons op rest ih =>
    have hop : op ≠ TaskOp.moved_from := fun h => hn (by simp [h])
    have hrest : TaskOp.moved_from ∉ rest := fun h => hn (List.mem_cons_of_mem _ h)
    simp only [List.foldl_cons]
    rw [ih (step op s) hrest]
    rcases void_step_handle op s with h3 | h3
    · exact h3
    · exact absurd h3 hop

/-- On a `Task<void>` with a live frame whose error marker is clear until the body has
completed, a settled task is either fulfilled or rejected and not both, and a pending
task is neither. -/
theorem void_fulfilled_xor_rejected (t : Task) (w : World PromiseVoid Unit)
    (h0 : t.handle ≠ 0) (f : Frame PromiseVoid Unit) (hf : w.frames t.handle = some f)
    (hq : ErrorOnlyWhenDone f) : FulfilledXorRejected t w := by
  have hp : promise t w = f.promise := by simp [promise, hf]
  have hdone : w.done t.handle = f.done := by simp [World.done, hf]
  unfold ErrorOnlyWhenDone at hq
  unfold FulfilledXorRejected is_settled is_pending is_fulfilled is_rejected
  rw [hp, hdone]
  cases hc : is_cancelled t w <;> cases hd : f.done <;>
    cases he : f.promise.has_error <;> simp_all

end TaskVoid

namespace TaskResult

variable {T E : Type}

/-- On a `Task<Result<T,E>>` with a non-null handle, a settled task is either fulfilled
or rejected and not both, and a pending task is neither. -/
theorem result_fulfilled_xor_rejected (t : Task)
    (w : World (PromiseResult T E) (Except E T)) (h0 : t.handle ≠ 0) :
    FulfilledXorRejected t w := by
  unfold FulfilledXorRejected is_settled is_pending is_fulfilled is_rejected
  cases hc : is_cancelled t w <;> cases hd : w.done t.handle <;> simp [h0]
  cases (promise t w).safe_get_result with
  | none => simp
  | some r => cases r <;> simp

end TaskResult

/-- C30: take a `Task<void>` and a `Task<Result<T,E>>` just created at a non-null
address, with any body, and let any sequence of cancellations, resumptions of any
coroutine, `get` and await calls and clock advances act on them (the task is never
moved from).  In the state reached, `is_settled()` implies that exactly one of
`is_fulfilled()` and `is_rejected()` is true, and `is_pending()` implies that both are
false. -/
theorem c30_fulfilled_xor_rejected {T E : Type} [ResultErrors E] (h : Handle)
    (h0 : h ≠ 0) (ops : List TaskOp) (hm : TaskOp.moved_from ∉ ops) (awaits : List Int)
    (ov : Outcome Unit) (wv : World PromiseVoid Unit) (orr : Outcome (Except E T))
    (wr : World (PromiseResult T E) (Except E T)) :
    TaskVoid.FulfilledXorRejected
        (TaskVoid.steps ops (⟨h⟩, wv.spawn h PromiseVoid.fresh awaits ov)).1
        (TaskVoid.steps ops (⟨h⟩, wv.spawn h PromiseVoid.fresh awaits ov)).2 ∧
      TaskResult.FulfilledXorRejected
        (TaskResult.steps ops (⟨h⟩, wr.spawn h PromiseResult.fresh awaits orr)).1
        (TaskResult.steps ops (⟨h⟩, wr.spawn h PromiseResult.fresh awaits orr)).2 := by
  constructor
  · have hh := TaskVoid.void_steps_handle ops
      (⟨h⟩, wv.spawn h PromiseVoid.fresh awaits ov) hm
    obtain ⟨g0, hg0, hq0⟩ := World.spawn_keeps TaskVoid.ErrorOnlyWhenDone
      TaskVoid.errorOnlyWhenDone_stable.1 h PromiseVoid.fresh awaits ov wv (fun _ => rfl)
    obtain ⟨g, hg, hq⟩ := TaskVoid.void_steps_keeps TaskVoid.ErrorOnlyWhenDone
      TaskVoid.errorOnlyWhenDone_stable.1 TaskVoid.errorOnlyWhenDone_stable.2 ops
      (⟨h⟩, wv.spawn h PromiseVoid.fresh awaits ov) h g0 hg0 hq0
    rw [hh]
    exact TaskVoid.void_fulfilled_xor_rejected ⟨h⟩ _ h0 g hg hq
  · have hh := (TaskResult.result_steps_handle ops
      (⟨h⟩, wr.spawn h PromiseResult.fresh awaits orr)).2 hm
    rw [hh]
    exact TaskResult.result_fulfilled_xor_rejected ⟨h⟩ _ h0

/-- C30, witness: a `Task<void>` and a `Task<Result<int,int>>` at address 1 whose bodies
sleep for 5 and then return, cancelled and then resumed. -/
theorem c30_fulfilled_xor_rejected_witness :
    (1 : Handle) ≠ 0 ∧ TaskOp.moved_from ∉ [TaskOp.cancel, TaskOp.resume 1] ∧
      TaskVoid.FulfilledXorRejected
        (TaskVoid.steps [TaskOp.cancel, TaskOp.resume 1]
          (⟨1⟩, World.spawn 1 PromiseVoid.fresh [5] (Outcome.ret ()) (World.empty 0))).1
        (TaskVoid.steps [TaskOp.cancel, TaskOp.resume 1]
          (⟨1⟩, World.spawn 1 PromiseVoid.fresh [5] (Outcome.ret ()) (World.empty 0))).2 ∧
      TaskResult.FulfilledXorRejected
        (TaskResult.steps [TaskOp.cancel, TaskOp.resume 1]
          (⟨1⟩, World.spawn 1 PromiseResult.fresh [5]
            (Outcome.ret (Except.ok 7 : Except Nat Nat)) (World.empty 0))).1
        (TaskResult.steps [TaskOp.cancel, TaskOp.resume 1]
          (⟨1⟩, World.spawn 1 PromiseResult.fresh [5]
            (Outcome.ret (Except.ok 7 : Except Nat Nat)) (World.empty 0))).2 :=
  ⟨by decide, by decide,
    c30_fulfilled_xor_rejected 1 (by decide) [TaskOp.cancel, TaskOp.resume 1] (by decide)
      [5] (Outcome.ret ()) (World.empty 0) (Outcome.ret (Except.ok 7)) (World.empty 0)⟩

/-! ## The phases of a tick -/

namespace World

variable {P V : Type}

end World

namespace CoroutineManager

variable {P V : Type}

end CoroutineManager

end flowcoro
